import Mathlib

/-!
The driver asus_primeb550plus_hwmon: register field decode engine and binding

A shallow embedding of `asus_primeb550plus_hwmon.c`.

Conventions of the embedding.

* C integers are `Nat`/`Int`; every conversion to a narrower or differently
  signed C type is an explicit function (`to_uchar`, `to_schar`, `to_int`,
  `to_uint`).  Signed arithmetic wraps, as in a kernel build
  (`-fno-strict-overflow`).
* The ACPI firmware is a deterministic function of the journal of earlier
  method evaluations and of the argument buffer; the journal is the only
  mutable state and is passed explicitly.
* A sysfs page buffer is the list of characters of the C string it holds.
* Kernel constants that are architecture dependent (`PAGE_SIZE`) are
  parameters.
* An array read outside the bounds of the array yields the object lying there,
  a parameter (`beyond`) of the functions that index the registry.
* The kernel services of the binding sequence (DMI strings, ACPI name lookup,
  allocation, hwmon registration) are reduced to their outcomes, gathered in
  `kernel_services`; a pointer is an `unsigned long` of 64 bits.
-/

namespace AsusHwmon

/-! ## C integer conversions -/

/-- Largest value of a `u8` (`linux/limits.h`). -/
def U8_MAX : Nat := 255

/-- Conversion to `unsigned char`. -/
def to_uchar (v : Int) : Nat := (v % 256).toNat

/-- Conversion to `signed char` (two's complement, as gcc defines it). -/
def to_schar (v : Int) : Int :=
  if v % 256 < 128 then v % 256 else v % 256 - 256

/-- Conversion to `int` (32 bit, wrapping). -/
def to_int (v : Int) : Int :=
  if v % 4294967296 < 2147483648 then v % 4294967296 else v % 4294967296 - 4294967296

/-- Conversion to `unsigned int` (32 bit). -/
def to_uint (v : Int) : Nat := (v % 4294967296).toNat

/-- C logical negation applied twice: `!!x`. -/
def not_not (x : Nat) : Int := if x ≠ 0 then 1 else 0

/-! ## Kernel text formatting -/

/-- The newline character. -/
def newline : Char := Char.ofNat 10

/-- Decimal digits of an integer, with a minus sign in front when it is negative. -/
def decimal (v : Int) : List Char :=
  if v < 0 then '-' :: Nat.toDigits 10 v.natAbs else Nat.toDigits 10 v.toNat

/-- Conversion `%u` of `vsnprintf`: the argument is fetched as an `unsigned int`. -/
def format_u (arg : Int) : List Char := decimal (to_uint arg)

/-- Conversion `%i` of `vsnprintf`: the argument is fetched as an `int`. -/
def format_i (arg : Int) : List Char := decimal (to_int arg)

/-- Kernel `scnprintf(buf, size, ...)` applied to the already formatted text:
at most `size - 1` characters are stored, and the number of characters stored
is returned; with `size = 0` nothing is stored. -/
def scnprintf (buf : List Char) (size : Nat) (text : List Char) : Int × List Char :=
  if size = 0 then (0, buf)
  else (((text.take (size - 1)).length : Nat), text.take (size - 1))

/-- Value of `E2BIG` (`errno-base.h`). -/
def E2BIG : Int := 7

/-- Kernel `strscpy(dest, src, count)`: copies the string when it fits in
`count` bytes with its terminator, otherwise truncates and returns `-E2BIG`. -/
def strscpy (dest : List Char) (src : List Char) (count : Nat) : Int × List Char :=
  if count = 0 then (-E2BIG, dest)
  else if src.length < count then ((src.length : Nat), src)
  else (-E2BIG, src.take (count - 1))

/-! ## ACPI method evaluation -/

/-- Outcome of `acpi_evaluate_integer`: a failing status, or success with the
`unsigned long long` the method returned. -/
inductive acpi_result where
  | failure : acpi_result
  | success (val : Nat) : acpi_result
  deriving DecidableEq, Repr

/-- One evaluated method call: the handle, the bytes of the argument buffer
and the outcome. -/
structure acpi_call where
  handle : Nat
  args : List Nat
  result : acpi_result
  deriving DecidableEq, Repr

/-- The firmware: the outcome of a method evaluation as a function of the
calls evaluated before it, the method handle and the argument bytes. -/
structure acpi_firmware where
  evaluate : List acpi_call → Nat → List Nat → acpi_result

/-- The call `acpi_evaluate_integer(handle, NULL, &acpi_args, &val)` with a
single buffer argument: the outcome, and the journal extended by this call. -/
def acpi_evaluate_integer (fw : acpi_firmware) (journal : List acpi_call)
    (handle : Nat) (args : List Nat) : acpi_result × List acpi_call :=
  (fw.evaluate journal handle args,
   journal ++ [⟨handle, args, fw.evaluate journal handle args⟩])

/-- Driver data of `struct asus_primeb550plus_hwmon_data`; the pointers and
handles are plain numbers. -/
structure asus_primeb550plus_hwmon_data where
  acpi_dev : Nat
  device : Nat
  acpi_dev_handle : Nat
  rhwm_method : Nat
  deriving DecidableEq, Repr

/-- The function `asus_primeb550plus_hwmon_read_u8`.  The result is the return value,
the content of `*dest` afterwards (`dest` is its content before) and the
journal. -/
def asus_primeb550plus_hwmon_read_u8 (fw : acpi_firmware)
    (devdri_data : asus_primeb550plus_hwmon_data) (bank index : Nat)
    (journal : List acpi_call) (dest : Nat) : Int × Nat × List acpi_call :=
  let a_buf : List Nat := [bank, index]
  match acpi_evaluate_integer fw journal devdri_data.rhwm_method a_buf with
  | (acpi_result.failure, journal1) => (-1, dest, journal1)
  | (acpi_result.success val, journal1) =>
    if val > U8_MAX then (-1, dest, journal1)
    else (0, to_uchar val, journal1)

/-! ## Field descriptors -/

/-- Parameters of `struct asus_primeb550plus_hwmon_data_type_uchar_mul`. -/
structure asus_primeb550plus_hwmon_data_type_uchar_mul where
  bank_no : Nat
  index_in_bank : Nat
  multiplier : Int
  deriving DecidableEq, Repr

/-- Parameters of `struct asus_primeb550plus_hwmon_data_type_temp_9bit`. -/
structure asus_primeb550plus_hwmon_data_type_temp_9bit where
  int_bank_no : Nat
  int_index_in_bank : Nat
  frac_bank_no : Nat
  frac_index_in_bank : Nat
  deriving DecidableEq, Repr

/-- Parameters of `struct asus_primeb550plus_hwmon_data_type_temp_8bit`. -/
structure asus_primeb550plus_hwmon_data_type_temp_8bit where
  bank_no : Nat
  index_in_bank : Nat
  deriving DecidableEq, Repr

/-- Parameters of `struct asus_primeb550plus_hwmon_data_type_temp_14bit`. -/
structure asus_primeb550plus_hwmon_data_type_temp_14bit where
  int_bank_no : Nat
  int_idx : Nat
  frac_bank_no : Nat
  frac_idx : Nat
  deriving DecidableEq, Repr

/-- Parameters of `struct asus_primeb550plus_hwmon_data_type_pwm16`. -/
structure asus_primeb550plus_hwmon_data_type_pwm16 where
  high_bank_no : Nat
  high_idx : Nat
  low_bank_no : Nat
  low_idx : Nat
  deriving DecidableEq, Repr

/-- The pair `data_type` / `data_address` of
`struct asus_primeb550plus_hwmon_chip_field`: the tag
`enum asus_primeb550plus_hwmon_data_type` together with the member of the
union it selects.  Every descriptor of the source is written and read through
the member its tag names, so the `default` arm of the `switch` in
`asus_primeb550plus_hwmon_sysfs_val_show` has no counterpart here. -/
inductive asus_primeb550plus_hwmon_data_address where
  | UCHAR_MUL (uchar_mul : asus_primeb550plus_hwmon_data_type_uchar_mul)
  | TEMP_9BIT (temp_9bit : asus_primeb550plus_hwmon_data_type_temp_9bit)
  | TEMP_8BIT (temp_8bit : asus_primeb550plus_hwmon_data_type_temp_8bit)
  | TEMP_14BIT (temp_14bit : asus_primeb550plus_hwmon_data_type_temp_14bit)
  | PWM16 (pwm16 : asus_primeb550plus_hwmon_data_type_pwm16)
  deriving DecidableEq, Repr

/-- Descriptor `struct asus_primeb550plus_hwmon_chip_field`. -/
structure asus_primeb550plus_hwmon_chip_field where
  data_address : asus_primeb550plus_hwmon_data_address
  label : List Char
  deriving DecidableEq, Repr

/-- Enumeration `enum asus_primeb550plus_hwmon_field_list`, enumerators in source
order with the leading `ASUS_B550PLUS_HWMON_FIELD_LIST_` dropped (and
`F` put before a leading digit). -/
inductive asus_primeb550plus_hwmon_field_list where
  | CPUVCORE | VIN1 | AVSB | F3VCC | VIN0 | VIN8 | VIN4 | F3VSB | VBAT | VTT
  | VIN5 | VIN6 | VIN2 | VIN3 | VIN7 | VIN9
  | TEMP1 | TEMP2 | TEMP3 | TEMP4 | TEMP5 | TEMP6
  | TEMPDIMM_0_0 | TEMPDIMM_0_1 | TEMPDIMM_1_0 | TEMPDIMM_1_1
  | SMIOVT2
  | PCH_CHIP_TEMP | PCH_CPU_TEMP
  | CPU_TEMP
  | SYSTIN | CPUTIN | AUXTIN0 | AUXTIN1 | AUXTIN2 | AUXTIN3
  | SYSFANIN | CPUFANIN | AUXFANIN0 | AUXFANIN1 | AUXFANIN2 | AUXFANIN3 | AUXFANIN4
  | MAX
  deriving DecidableEq, Repr

/-- The integer value of an enumerator: its position in the declaration. -/
def asus_primeb550plus_hwmon_field_list.value
    (e : asus_primeb550plus_hwmon_field_list) : Nat := e.toCtorIdx

/-- The constant `ASUS_B550PLUS_HWMON_FIELD_LIST_MAX`. -/
def ASUS_B550PLUS_HWMON_FIELD_LIST_MAX : Nat :=
  asus_primeb550plus_hwmon_field_list.MAX.value

/-- Macro `ASUS_B550PLUS_HWMON_FIELD_UCHAR_MUL`. -/
def ASUS_B550PLUS_HWMON_FIELD_UCHAR_MUL (label : String) (bank_no idx_in_bank : Nat)
    (multiplier : Int) : asus_primeb550plus_hwmon_chip_field :=
  { label := label.toList ++ [newline],
    data_address := .UCHAR_MUL
      { bank_no := bank_no, index_in_bank := idx_in_bank, multiplier := multiplier } }

/-- Macro `ASUS_B550PLUS_HWMON_FIELD_TEMP_9BIT`. -/
def ASUS_B550PLUS_HWMON_FIELD_TEMP_9BIT (label : String)
    (int_bank_no int_idx frac_bank_no frac_idx : Nat) : asus_primeb550plus_hwmon_chip_field :=
  { label := label.toList ++ [newline],
    data_address := .TEMP_9BIT
      { int_bank_no := int_bank_no, int_index_in_bank := int_idx,
        frac_bank_no := frac_bank_no, frac_index_in_bank := frac_idx } }

/-- Macro `ASUS_B550PLUS_HWMON_FIELD_TEMP_8BIT`. -/
def ASUS_B550PLUS_HWMON_FIELD_TEMP_8BIT (label : String) (bank_no idx : Nat) :
    asus_primeb550plus_hwmon_chip_field :=
  { label := label.toList ++ [newline],
    data_address := .TEMP_8BIT { bank_no := bank_no, index_in_bank := idx } }

/-- Macro `ASUS_B550PLUS_HWMON_FIELD_TEMP_14BIT`. -/
def ASUS_B550PLUS_HWMON_FIELD_TEMP_14BIT (label : String)
    (int_bank_no int_idx frac_bank_no frac_idx : Nat) : asus_primeb550plus_hwmon_chip_field :=
  { label := label.toList ++ [newline],
    data_address := .TEMP_14BIT
      { int_bank_no := int_bank_no, int_idx := int_idx,
        frac_bank_no := frac_bank_no, frac_idx := frac_idx } }

/-- Macro `ASUS_B550PLUS_HWMON_FIELD_PWM16`. -/
def ASUS_B550PLUS_HWMON_FIELD_PWM16 (label : String)
    (high_bank_no high_idx low_bank_no low_idx : Nat) : asus_primeb550plus_hwmon_chip_field :=
  { label := label.toList ++ [newline],
    data_address := .PWM16
      { high_bank_no := high_bank_no, high_idx := high_idx,
        low_bank_no := low_bank_no, low_idx := low_idx } }

/-- The designated initializers of `asus_primeb550plus_hwmon_chip_fields`, in
source order: the designated enumerator and the descriptor it points to. -/
def asus_primeb550plus_hwmon_chip_fields_init :
    List (asus_primeb550plus_hwmon_field_list × asus_primeb550plus_hwmon_chip_field) :=
  [ (.CPUVCORE, ASUS_B550PLUS_HWMON_FIELD_UCHAR_MUL "cpuvcore" 4 0x80 8),
    (.VIN1, ASUS_B550PLUS_HWMON_FIELD_UCHAR_MUL "vin1" 4 0x81 8),
    (.AVSB, ASUS_B550PLUS_HWMON_FIELD_UCHAR_MUL "avsb" 4 0x82 (2*8)),
    (.F3VCC, ASUS_B550PLUS_HWMON_FIELD_UCHAR_MUL "3vcc" 4 0x83 (2*8)),
    (.VIN0, ASUS_B550PLUS_HWMON_FIELD_UCHAR_MUL "vin0" 4 0x84 8),
    (.VIN8, ASUS_B550PLUS_HWMON_FIELD_UCHAR_MUL "vin8" 4 0x85 8),
    (.VIN4, ASUS_B550PLUS_HWMON_FIELD_UCHAR_MUL "vin4" 4 0x86 8),
    (.F3VSB, ASUS_B550PLUS_HWMON_FIELD_UCHAR_MUL "3vsb" 4 0x87 (2*8)),
    (.VBAT, ASUS_B550PLUS_HWMON_FIELD_UCHAR_MUL "vbat" 4 0x88 (2*8)),
    (.VTT, ASUS_B550PLUS_HWMON_FIELD_UCHAR_MUL "vtt" 4 0x89 8),
    (.VIN5, ASUS_B550PLUS_HWMON_FIELD_UCHAR_MUL "vin5" 4 0x8a 8),
    (.VIN6, ASUS_B550PLUS_HWMON_FIELD_UCHAR_MUL "vin6" 4 0x8b 8),
    (.VIN2, ASUS_B550PLUS_HWMON_FIELD_UCHAR_MUL "vin2" 4 0x8c 8),
    (.VIN3, ASUS_B550PLUS_HWMON_FIELD_UCHAR_MUL "vin3" 4 0x8d 8),
    (.VIN7, ASUS_B550PLUS_HWMON_FIELD_UCHAR_MUL "vin7" 4 0x8e 8),
    (.VIN9, ASUS_B550PLUS_HWMON_FIELD_UCHAR_MUL "vin9" 4 0x8f 8),
    (.TEMP1, ASUS_B550PLUS_HWMON_FIELD_TEMP_9BIT "temp1" 0 0x73 0 0x74),
    (.TEMP2, ASUS_B550PLUS_HWMON_FIELD_TEMP_9BIT "temp2" 0 0x75 0 0x76),
    (.TEMP3, ASUS_B550PLUS_HWMON_FIELD_TEMP_9BIT "temp3" 0 0x77 0 0x78),
    (.TEMP4, ASUS_B550PLUS_HWMON_FIELD_TEMP_9BIT "temp4" 0 0x79 0 0x7a),
    (.TEMP5, ASUS_B550PLUS_HWMON_FIELD_TEMP_9BIT "temp5" 0 0x7b 0 0x7c),
    (.TEMP6, ASUS_B550PLUS_HWMON_FIELD_TEMP_9BIT "temp6" 0 0x7d 0 0x7e),
    (.TEMPDIMM_0_0, ASUS_B550PLUS_HWMON_FIELD_TEMP_8BIT "agent0, dimm0" 4 0x05),
    (.TEMPDIMM_0_1, ASUS_B550PLUS_HWMON_FIELD_TEMP_8BIT "agent0, dimm1" 4 0x06),
    (.TEMPDIMM_1_0, ASUS_B550PLUS_HWMON_FIELD_TEMP_8BIT "agent1, dimm0" 4 0x07),
    (.TEMPDIMM_1_1, ASUS_B550PLUS_HWMON_FIELD_TEMP_8BIT "agent1, dimm1" 4 0x08),
    (.SMIOVT2, ASUS_B550PLUS_HWMON_FIELD_TEMP_9BIT "smiovt2 (default cputin)" 1 0x50 1 0x51),
    (.PCH_CHIP_TEMP, ASUS_B550PLUS_HWMON_FIELD_TEMP_8BIT "pch chip" 4 0x01),
    (.PCH_CPU_TEMP, ASUS_B550PLUS_HWMON_FIELD_TEMP_14BIT "cpu" 4 0x02 4 0x03),
    (.SYSTIN, ASUS_B550PLUS_HWMON_FIELD_TEMP_8BIT "systin" 4 0x90),
    (.CPUTIN, ASUS_B550PLUS_HWMON_FIELD_TEMP_8BIT "cputin" 4 0x91),
    (.AUXTIN0, ASUS_B550PLUS_HWMON_FIELD_TEMP_8BIT "auxtin0" 4 0x92),
    (.AUXTIN1, ASUS_B550PLUS_HWMON_FIELD_TEMP_8BIT "auxtin1" 4 0x93),
    (.AUXTIN2, ASUS_B550PLUS_HWMON_FIELD_TEMP_8BIT "auxtin2" 4 0x94),
    (.AUXTIN3, ASUS_B550PLUS_HWMON_FIELD_TEMP_8BIT "auxtin3" 4 0x95),
    (.SYSFANIN, ASUS_B550PLUS_HWMON_FIELD_PWM16 "sysfan" 4 0xc0 4 0xc1),
    (.CPUFANIN, ASUS_B550PLUS_HWMON_FIELD_PWM16 "cpufan" 4 0xc2 4 0xc3),
    (.AUXFANIN0, ASUS_B550PLUS_HWMON_FIELD_PWM16 "auxfan0" 4 0xc4 4 0xc5),
    (.AUXFANIN1, ASUS_B550PLUS_HWMON_FIELD_PWM16 "auxfan1" 4 0xc6 4 0xc7),
    (.AUXFANIN2, ASUS_B550PLUS_HWMON_FIELD_PWM16 "auxfan2" 4 0xc8 4 0xc9),
    (.AUXFANIN3, ASUS_B550PLUS_HWMON_FIELD_PWM16 "auxfan3" 4 0xca 4 0xcb),
    (.AUXFANIN4, ASUS_B550PLUS_HWMON_FIELD_PWM16 "auxfan4" 4 0xce 4 0xcf) ]

/-- Element `i` of an array defined by designated initializers: the descriptor
of the last initializer designating `i`, and a null pointer (`none`) when no
initializer designates it. -/
def designated_element
    (init : List (asus_primeb550plus_hwmon_field_list × asus_primeb550plus_hwmon_chip_field))
    (i : Nat) : Option asus_primeb550plus_hwmon_chip_field :=
  (init.reverse.find? (fun e => e.1.value == i)).map (fun e => e.2)

/-- The word read by `asus_primeb550plus_hwmon_chip_fields[index]`.  The array has
`ASUS_B550PLUS_HWMON_FIELD_LIST_MAX` elements and the source indexes it without
a range check, so for an index outside the array the word is whatever object
lies there: `beyond index`, a parameter of the embedding. -/
def asus_primeb550plus_hwmon_chip_fields
    (beyond : Int → Option asus_primeb550plus_hwmon_chip_field) (index : Int) :
    Option asus_primeb550plus_hwmon_chip_field :=
  if 0 ≤ index ∧ index < (ASUS_B550PLUS_HWMON_FIELD_LIST_MAX : Int) then
    designated_element asus_primeb550plus_hwmon_chip_fields_init index.toNat
  else beyond index

/-! ## Value and label reads -/

/-- What a sysfs `show` callback leaves behind: its return value, the journal
of method evaluations and the content of the page buffer. -/
structure show_result where
  ret : Int
  journal : List acpi_call
  buf : List Char
  deriving DecidableEq, Repr

/-- The function `asus_primeb550plus_hwmon_sysfs_val_uchar_mul_show`.  The local
`raw_in` is unset (here 0) before the read. -/
def asus_primeb550plus_hwmon_sysfs_val_uchar_mul_show (PAGE_SIZE : Nat) (fw : acpi_firmware)
    (devdri_data : asus_primeb550plus_hwmon_data)
    (field : asus_primeb550plus_hwmon_data_type_uchar_mul)
    (journal : List acpi_call) (buf : List Char) : show_result :=
  match asus_primeb550plus_hwmon_read_u8 fw devdri_data field.bank_no field.index_in_bank
      journal 0 with
  | (r, raw_in, journal1) =>
    if r ≠ 0 then ⟨-1, journal1, buf⟩
    else
      let out := scnprintf buf PAGE_SIZE
        (format_u (to_int ((raw_in : Int) * field.multiplier)) ++ [newline])
      ⟨out.1, journal1, out.2⟩

/-- The function `asus_primeb550plus_hwmon_sysfs_val_temp_9bit_show`. -/
def asus_primeb550plus_hwmon_sysfs_val_temp_9bit_show (PAGE_SIZE : Nat) (fw : acpi_firmware)
    (devdri_data : asus_primeb550plus_hwmon_data)
    (field : asus_primeb550plus_hwmon_data_type_temp_9bit)
    (journal : List acpi_call) (buf : List Char) : show_result :=
  match asus_primeb550plus_hwmon_read_u8 fw devdri_data field.int_bank_no
      field.int_index_in_bank journal 0 with
  | (r1, raw_in_int, journal1) =>
    if r1 ≠ 0 then ⟨-1, journal1, buf⟩
    else
      match asus_primeb550plus_hwmon_read_u8 fw devdri_data field.frac_bank_no
          field.frac_index_in_bank journal1 0 with
      | (r2, raw_in_frac, journal2) =>
        if r2 ≠ 0 then ⟨-1, journal2, buf⟩
        else
          let corrected_in_int : Int := to_schar raw_in_int
          let fractional_value : Int := if corrected_in_int ≥ 0 then 500 else -500
          let out := scnprintf buf PAGE_SIZE
            (format_i (to_int (corrected_in_int * 1000
              + not_not (raw_in_frac &&& 0x80) * fractional_value)) ++ [newline])
          ⟨out.1, journal2, out.2⟩

/-- The function `asus_primeb550plus_hwmon_sysfs_val_temp_8bit_show`. -/
def asus_primeb550plus_hwmon_sysfs_val_temp_8bit_show (PAGE_SIZE : Nat) (fw : acpi_firmware)
    (devdri_data : asus_primeb550plus_hwmon_data)
    (field : asus_primeb550plus_hwmon_data_type_temp_8bit)
    (journal : List acpi_call) (buf : List Char) : show_result :=
  match asus_primeb550plus_hwmon_read_u8 fw devdri_data field.bank_no field.index_in_bank
      journal 0 with
  | (r, raw_in, journal1) =>
    if r ≠ 0 then ⟨-1, journal1, buf⟩
    else
      let corrected_in : Int := to_schar raw_in
      let out := scnprintf buf PAGE_SIZE
        (format_i (to_int (corrected_in * 1000)) ++ [newline])
      ⟨out.1, journal1, out.2⟩

/-- The function `asus_primeb550plus_hwmon_sysfs_val_temp_14bit_show`. -/
def asus_primeb550plus_hwmon_sysfs_val_temp_14bit_show (PAGE_SIZE : Nat) (fw : acpi_firmware)
    (devdri_data : asus_primeb550plus_hwmon_data)
    (field : asus_primeb550plus_hwmon_data_type_temp_14bit)
    (journal : List acpi_call) (buf : List Char) : show_result :=
  match asus_primeb550plus_hwmon_read_u8 fw devdri_data field.int_bank_no field.int_idx
      journal 0 with
  | (r1, raw_int_in, journal1) =>
    if r1 ≠ 0 then ⟨-1, journal1, buf⟩
    else
      match asus_primeb550plus_hwmon_read_u8 fw devdri_data field.frac_bank_no field.frac_idx
          journal1 0 with
      | (r2, raw_frac_in, journal2) =>
        if r2 ≠ 0 then ⟨-1, journal2, buf⟩
        else
          let out := scnprintf buf PAGE_SIZE
            (format_i (to_int ((raw_int_in : Int) * 1000 + ((raw_frac_in >>> 2 : Nat) : Int)))
              ++ [newline])
          ⟨out.1, journal2, out.2⟩

/-- The function `asus_primeb550plus_hwmon_sysfs_val_pwm16_show`. -/
def asus_primeb550plus_hwmon_sysfs_val_pwm16_show (PAGE_SIZE : Nat) (fw : acpi_firmware)
    (devdri_data : asus_primeb550plus_hwmon_data)
    (field : asus_primeb550plus_hwmon_data_type_pwm16)
    (journal : List acpi_call) (buf : List Char) : show_result :=
  match asus_primeb550plus_hwmon_read_u8 fw devdri_data field.high_bank_no field.high_idx
      journal 0 with
  | (r1, raw_high, journal1) =>
    if r1 ≠ 0 then ⟨-1, journal1, buf⟩
    else
      match asus_primeb550plus_hwmon_read_u8 fw devdri_data field.low_bank_no field.low_idx
          journal1 0 with
      | (r2, raw_low, journal2) =>
        if r2 ≠ 0 then ⟨-1, journal2, buf⟩
        else
          let out := scnprintf buf PAGE_SIZE
            (format_u (to_int (((raw_high <<< 8 : Nat) : Int) + (raw_low : Int)))
              ++ [newline])
          ⟨out.1, journal2, out.2⟩

/-- The two `show` callbacks a sensor attribute can carry. -/
inductive show_callback where
  | asus_primeb550plus_hwmon_sysfs_val_show
  | asus_primeb550plus_hwmon_sysfs_label_show
  deriving DecidableEq, Repr

/-- A `struct sensor_device_attribute` as `SENSOR_DEVICE_ATTR_RO` fills it: the
file name and callback of its `dev_attr`, and its `index` (a C `int`). -/
structure sensor_device_attribute where
  name : String
  callback : show_callback
  index : Int
  deriving DecidableEq, Repr

/-- A `struct device`, reduced to the driver data `dev_get_drvdata` returns. -/
structure device where
  driver_data : asus_primeb550plus_hwmon_data
  deriving DecidableEq, Repr

/-- The function `asus_primeb550plus_hwmon_chip_field_from_dev_attr`.  The argument
is the `sensor_device_attribute` enclosing `attr` (`to_sensor_dev_attr`; the
`dev_attr` member comes first, so a null `attr` gives a null result). -/
def asus_primeb550plus_hwmon_chip_field_from_dev_attr
    (beyond : Int → Option asus_primeb550plus_hwmon_chip_field)
    (attr : Option sensor_device_attribute) : Option asus_primeb550plus_hwmon_chip_field :=
  match attr with
  | none => none
  | some s_dev_attr => asus_primeb550plus_hwmon_chip_fields beyond s_dev_attr.index

/-- The function `asus_primeb550plus_hwmon_sysfs_val_show`. -/
def asus_primeb550plus_hwmon_sysfs_val_show (PAGE_SIZE : Nat) (fw : acpi_firmware)
    (beyond : Int → Option asus_primeb550plus_hwmon_chip_field)
    (dev : device) (attr : Option sensor_device_attribute)
    (journal : List acpi_call) (buf : List Char) : show_result :=
  match asus_primeb550plus_hwmon_chip_field_from_dev_attr beyond attr with
  | none => ⟨-1, journal, buf⟩
  | some chip_field =>
    let devdri_data := dev.driver_data
    match chip_field.data_address with
    | .UCHAR_MUL field =>
      asus_primeb550plus_hwmon_sysfs_val_uchar_mul_show PAGE_SIZE fw devdri_data field journal buf
    | .TEMP_9BIT field =>
      asus_primeb550plus_hwmon_sysfs_val_temp_9bit_show PAGE_SIZE fw devdri_data field journal buf
    | .TEMP_8BIT field =>
      asus_primeb550plus_hwmon_sysfs_val_temp_8bit_show PAGE_SIZE fw devdri_data field journal buf
    | .TEMP_14BIT field =>
      asus_primeb550plus_hwmon_sysfs_val_temp_14bit_show PAGE_SIZE fw devdri_data field journal buf
    | .PWM16 field =>
      asus_primeb550plus_hwmon_sysfs_val_pwm16_show PAGE_SIZE fw devdri_data field journal buf

/-- The function `asus_primeb550plus_hwmon_sysfs_label_show`. -/
def asus_primeb550plus_hwmon_sysfs_label_show (PAGE_SIZE : Nat)
    (beyond : Int → Option asus_primeb550plus_hwmon_chip_field)
    (attr : Option sensor_device_attribute)
    (journal : List acpi_call) (buf : List Char) : show_result :=
  match asus_primeb550plus_hwmon_chip_field_from_dev_attr beyond attr with
  | none => ⟨-1, journal, buf⟩
  | some chip_field =>
    let out := strscpy buf chip_field.label PAGE_SIZE
    ⟨out.1, journal, out.2⟩

/-! ## Exposed sensor attributes -/

/-- Macro `ASUS_B550PLUS_HWMON_DEVICE_ATTR_RO`: the two variables
`sensor_dev_attr_<name>_input` and `sensor_dev_attr_<name>_label`. -/
def ASUS_B550PLUS_HWMON_DEVICE_ATTR_RO (name : String)
    (field_index : asus_primeb550plus_hwmon_field_list) : List sensor_device_attribute :=
  [ ⟨name ++ "_input", .asus_primeb550plus_hwmon_sysfs_val_show, field_index.value⟩,
    ⟨name ++ "_label", .asus_primeb550plus_hwmon_sysfs_label_show, field_index.value⟩ ]

/-- Every sensor attribute variable the file declares, in source order. -/
def sensor_dev_attr : List sensor_device_attribute :=
  List.flatten
  [ ASUS_B550PLUS_HWMON_DEVICE_ATTR_RO "in0" .CPUVCORE,
    ASUS_B550PLUS_HWMON_DEVICE_ATTR_RO "in1" .VIN1,
    ASUS_B550PLUS_HWMON_DEVICE_ATTR_RO "in2" .AVSB,
    ASUS_B550PLUS_HWMON_DEVICE_ATTR_RO "in3" .F3VCC,
    ASUS_B550PLUS_HWMON_DEVICE_ATTR_RO "in4" .VIN0,
    ASUS_B550PLUS_HWMON_DEVICE_ATTR_RO "in5" .VIN8,
    ASUS_B550PLUS_HWMON_DEVICE_ATTR_RO "in6" .VIN4,
    ASUS_B550PLUS_HWMON_DEVICE_ATTR_RO "in7" .F3VSB,
    ASUS_B550PLUS_HWMON_DEVICE_ATTR_RO "in8" .VBAT,
    ASUS_B550PLUS_HWMON_DEVICE_ATTR_RO "in9" .VTT,
    ASUS_B550PLUS_HWMON_DEVICE_ATTR_RO "in10" .VIN5,
    ASUS_B550PLUS_HWMON_DEVICE_ATTR_RO "in11" .VIN6,
    ASUS_B550PLUS_HWMON_DEVICE_ATTR_RO "in12" .VIN2,
    ASUS_B550PLUS_HWMON_DEVICE_ATTR_RO "in13" .VIN3,
    ASUS_B550PLUS_HWMON_DEVICE_ATTR_RO "in14" .VIN7,
    ASUS_B550PLUS_HWMON_DEVICE_ATTR_RO "in15" .VIN9,
    ASUS_B550PLUS_HWMON_DEVICE_ATTR_RO "temp1" .TEMP1,
    ASUS_B550PLUS_HWMON_DEVICE_ATTR_RO "temp2" .TEMP2,
    ASUS_B550PLUS_HWMON_DEVICE_ATTR_RO "temp3" .TEMP3,
    ASUS_B550PLUS_HWMON_DEVICE_ATTR_RO "temp4" .TEMP4,
    ASUS_B550PLUS_HWMON_DEVICE_ATTR_RO "temp5" .TEMP5,
    ASUS_B550PLUS_HWMON_DEVICE_ATTR_RO "temp6" .TEMP6,
    ASUS_B550PLUS_HWMON_DEVICE_ATTR_RO "temp7" .TEMPDIMM_0_0,
    ASUS_B550PLUS_HWMON_DEVICE_ATTR_RO "temp8" .TEMPDIMM_0_1,
    ASUS_B550PLUS_HWMON_DEVICE_ATTR_RO "temp9" .TEMPDIMM_1_0,
    ASUS_B550PLUS_HWMON_DEVICE_ATTR_RO "temp10" .TEMPDIMM_1_1,
    ASUS_B550PLUS_HWMON_DEVICE_ATTR_RO "temp11" .SMIOVT2,
    ASUS_B550PLUS_HWMON_DEVICE_ATTR_RO "temp12" .PCH_CHIP_TEMP,
    ASUS_B550PLUS_HWMON_DEVICE_ATTR_RO "temp13" .PCH_CPU_TEMP,
    ASUS_B550PLUS_HWMON_DEVICE_ATTR_RO "temp14" .SYSTIN,
    ASUS_B550PLUS_HWMON_DEVICE_ATTR_RO "temp15" .CPUTIN,
    ASUS_B550PLUS_HWMON_DEVICE_ATTR_RO "temp16" .AUXTIN0,
    ASUS_B550PLUS_HWMON_DEVICE_ATTR_RO "temp17" .AUXTIN1,
    ASUS_B550PLUS_HWMON_DEVICE_ATTR_RO "temp18" .AUXTIN2,
    ASUS_B550PLUS_HWMON_DEVICE_ATTR_RO "temp19" .AUXTIN3,
    ASUS_B550PLUS_HWMON_DEVICE_ATTR_RO "fan1" .SYSFANIN,
    ASUS_B550PLUS_HWMON_DEVICE_ATTR_RO "fan2" .CPUFANIN,
    ASUS_B550PLUS_HWMON_DEVICE_ATTR_RO "fan3" .AUXFANIN0,
    ASUS_B550PLUS_HWMON_DEVICE_ATTR_RO "fan4" .AUXFANIN1,
    ASUS_B550PLUS_HWMON_DEVICE_ATTR_RO "fan5" .AUXFANIN2,
    ASUS_B550PLUS_HWMON_DEVICE_ATTR_RO "fan6" .AUXFANIN3,
    ASUS_B550PLUS_HWMON_DEVICE_ATTR_RO "fan7" .AUXFANIN4 ]

/-- Macro `ATTR_REF`: the declared variables `sensor_dev_attr_<name>_input` and
`sensor_dev_attr_<name>_label`, found by name. -/
def ATTR_REF (attr_name : String) : List sensor_device_attribute :=
  sensor_dev_attr.filter (fun a => a.name == attr_name ++ "_input")
    ++ sensor_dev_attr.filter (fun a => a.name == attr_name ++ "_label")

/-- The array `asus_primeb550plus_hwmon_attrs`, without its closing `NULL`. -/
def asus_primeb550plus_hwmon_attrs : List sensor_device_attribute :=
  List.flatten
  [ ATTR_REF "in0", ATTR_REF "in1", ATTR_REF "in2", ATTR_REF "in3", ATTR_REF "in4",
    ATTR_REF "in5", ATTR_REF "in6", ATTR_REF "in7", ATTR_REF "in8", ATTR_REF "in9",
    ATTR_REF "in10", ATTR_REF "in11", ATTR_REF "in12", ATTR_REF "in13", ATTR_REF "in14",
    ATTR_REF "in15",
    ATTR_REF "temp1", ATTR_REF "temp2", ATTR_REF "temp3", ATTR_REF "temp4",
    ATTR_REF "temp5", ATTR_REF "temp6",
    ATTR_REF "temp7", ATTR_REF "temp8", ATTR_REF "temp9", ATTR_REF "temp10",
    ATTR_REF "temp11",
    ATTR_REF "temp12", ATTR_REF "temp13",
    ATTR_REF "temp14", ATTR_REF "temp15", ATTR_REF "temp16", ATTR_REF "temp17",
    ATTR_REF "temp18", ATTR_REF "temp19",
    ATTR_REF "fan1", ATTR_REF "fan2", ATTR_REF "fan3", ATTR_REF "fan4", ATTR_REF "fan5",
    ATTR_REF "fan6", ATTR_REF "fan7" ]

/-! ## Platform check -/

/-- Value of `ENODEV` (`errno-base.h`). -/
def ENODEV : Int := 19

/-- Value of `ENOMEM` (`errno-base.h`). -/
def ENOMEM : Int := 12

/-- Value of `EIO` (`errno-base.h`). -/
def EIO : Int := 5

/-- C `strcmp` on strings without an inner terminator: zero exactly for equal
strings, otherwise the sign of the first difference. -/
def strcmp (a b : String) : Int :=
  if a = b then 0 else if a < b then -1 else 1

/-- The slots of `enum dmi_field` this file names. -/
inductive dmi_field where
  | DMI_NONE
  | DMI_BIOS_VERSION
  | DMI_BOARD_VENDOR
  | DMI_BOARD_NAME
  deriving DecidableEq, Repr

/-- C `strstr` reduced to its truth value: `needle` occurs in `haystack`. -/
def strstr (haystack needle : String) : Bool :=
  haystack.toList.tails.any (fun t => t.take needle.length == needle.toList)

/-- A `struct dmi_strmatch`. -/
structure dmi_strmatch where
  slot : dmi_field
  exact_match : Bool
  substr : String
  deriving DecidableEq, Repr

/-- Macro `DMI_EXACT_MATCH`. -/
def DMI_EXACT_MATCH (slot : dmi_field) (substr : String) : dmi_strmatch :=
  { slot := slot, exact_match := true, substr := substr }

/-- A `struct dmi_system_id`: the name and the initialised elements of
`matches`; the elements left out are zero, that is of slot `DMI_NONE`.  The field
`matches` is written `matches_`; no entry of this file sets a callback. -/
structure dmi_system_id where
  ident : String
  matches_ : List dmi_strmatch
  deriving DecidableEq, Repr

/-- The table `asus_accepted_dmis`, with its closing entry. -/
def asus_accepted_dmis : List dmi_system_id :=
  [ { ident := "Prime B550-Plus",
      matches_ :=
        [ DMI_EXACT_MATCH .DMI_BOARD_VENDOR "ASUSTeK COMPUTER INC.",
          DMI_EXACT_MATCH .DMI_BOARD_NAME "PRIME B550-PLUS",
          DMI_EXACT_MATCH .DMI_BIOS_VERSION "2006" ] },
    { ident := "", matches_ := [ { slot := .DMI_NONE, exact_match := false, substr := "" } ] } ]

/-- The loop of kernel `dmi_matches` over the elements of `matches`: it stops with
success at the first slot `DMI_NONE` (or at the end of the array) and with
failure at the first slot whose string is absent from the machine or does not
match. -/
def dmi_matches (dmi_ident : dmi_field → Option String) : List dmi_strmatch → Bool
  | [] => true
  | m :: rest =>
    if m.slot = dmi_field.DMI_NONE then true
    else
      match dmi_ident m.slot with
      | none => false
      | some s =>
        if m.exact_match then
          if strcmp s m.substr = 0 then dmi_matches dmi_ident rest else false
        else
          if strstr s m.substr then dmi_matches dmi_ident rest else false

/-- Kernel `dmi_is_end_of_table`: the first element of `matches` has the slot
`DMI_NONE`. -/
def dmi_is_end_of_table (d : dmi_system_id) : Bool :=
  match d.matches_ with
  | [] => true
  | m :: _ => m.slot = dmi_field.DMI_NONE

/-- Kernel `dmi_check_system`: the number of entries before the closing one that
match the machine. -/
def dmi_check_system (dmi_ident : dmi_field → Option String) : List dmi_system_id → Nat
  | [] => 0
  | d :: rest =>
    if dmi_is_end_of_table d then 0
    else (if dmi_matches dmi_ident d.matches_ then 1 else 0) + dmi_check_system dmi_ident rest

/-- The function `asus_primeb550plus_hwmon_check_dmi`; `dmi_ident` gives the DMI strings
of the machine, `none` for a string the firmware does not provide. -/
def asus_primeb550plus_hwmon_check_dmi (dmi_ident : dmi_field → Option String) : Int :=
  if dmi_check_system dmi_ident asus_accepted_dmis ≠ 0 then 0 else -ENODEV

/-! ## Method resolution and chip identification -/

/-- Value of `ACPI_TYPE_METHOD` (`actypes.h`). -/
def ACPI_TYPE_METHOD : Nat := 0x08

/-- The kernel services the binding sequence calls, each reduced to its outcome:
the DMI strings, `acpi_get_handle` (parent handle and path name to the handle
found, `none` for a failing status), `acpi_get_type` (handle to object type,
`none` for a failing status), `devm_kzalloc` (`none` for a null pointer) and
the pointer `devm_hwmon_device_register_with_groups` returns, as an
`unsigned long`. -/
structure kernel_services where
  dmi_ident : dmi_field → Option String
  acpi_get_handle : Nat → String → Option Nat
  acpi_get_type : Nat → Option Nat
  devm_kzalloc : Option Nat
  devm_hwmon_device_register_with_groups : Nat

/-- A `struct acpi_device`: its address, its `handle` and the string
`acpi_device_uid` gives. -/
structure acpi_device where
  address : Nat
  handle : Nat
  uid : String
  deriving DecidableEq, Repr

/-- The function `asus_primeb550plus_hwmon_get_method_handles`: the return value and the
driver data afterwards. -/
def asus_primeb550plus_hwmon_get_method_handles (ks : kernel_services)
    (devdri_data : asus_primeb550plus_hwmon_data) : Int × asus_primeb550plus_hwmon_data :=
  match ks.acpi_get_handle devdri_data.acpi_dev_handle "RHWM" with
  | none => (-ENODEV, devdri_data)
  | some a_hndl =>
    let devdri_data1 := { devdri_data with rhwm_method := a_hndl }
    match ks.acpi_get_type devdri_data1.rhwm_method with
    | none => (- EIO, devdri_data1)
    | some a_type =>
      if a_type ≠ ACPI_TYPE_METHOD then (-ENODEV, devdri_data1)
      else (0, devdri_data1)

/-- An element of `struct asus_primeb550plus_hwmon_supported_superio`. -/
structure asus_primeb550plus_hwmon_supported_superio where
  vendor_id_high : Nat
  chip_id : Nat
  deriving DecidableEq, Repr

/-- The table `asus_primeb550plus_hwmon_supported_superios`. -/
def asus_primeb550plus_hwmon_supported_superios :
    List asus_primeb550plus_hwmon_supported_superio :=
  [ { vendor_id_high := 0x5c, chip_id := 0xc1 } ]

/-- The `for` loop of `asus_primeb550plus_hwmon_check_chip`: 0 at the first element
equal to the pair read, 1 when the table is used up. -/
def check_chip_loop (vendor_id_high chip_id : Nat) :
    List asus_primeb550plus_hwmon_supported_superio → Int
  | [] => 1
  | chip :: rest =>
    if vendor_id_high = chip.vendor_id_high ∧ chip_id = chip.chip_id then 0
    else check_chip_loop vendor_id_high chip_id rest

/-- The function `asus_primeb550plus_hwmon_check_chip`: the return value and the journal.
The messages it logs are left out. -/
def asus_primeb550plus_hwmon_check_chip (fw : acpi_firmware)
    (devdri_data : asus_primeb550plus_hwmon_data) (journal : List acpi_call) :
    Int × List acpi_call :=
  match asus_primeb550plus_hwmon_read_u8 fw devdri_data 0 0x4f journal 0 with
  | (r1, vendor_id_high, journal1) =>
    if r1 ≠ 0 then (1, journal1)
    else
      match asus_primeb550plus_hwmon_read_u8 fw devdri_data 0 0x58 journal1 0 with
      | (r2, chip_id, journal2) =>
        if r2 ≠ 0 then (1, journal2)
        else (check_chip_loop vendor_id_high chip_id
          asus_primeb550plus_hwmon_supported_superios, journal2)

/-! ## Binding sequence -/

/-- Value of `MAX_ERRNO` (`err.h`). -/
def MAX_ERRNO : Nat := 4095

/-- Kernel `IS_ERR` on a pointer given as an `unsigned long` of 64 bits (the
accepted board is an x86-64 one): the pointer lies in the last `MAX_ERRNO`
addresses. -/
def IS_ERR (ptr : Nat) : Bool := decide (18446744073709551616 - MAX_ERRNO ≤ ptr % 18446744073709551616)

/-- Kernel `PTR_ERR_OR_ZERO`: the error number an error pointer carries, 0 for
any other pointer. -/
def PTR_ERR_OR_ZERO (ptr : Nat) : Int :=
  if IS_ERR ptr then to_int ((ptr % 18446744073709551616 : Nat) - 18446744073709551616) else 0

/-- What `asus_primeb550plus_hwmon_add` leaves behind: its return value, the journal
of method evaluations, the driver data attached by `dev_set_drvdata` and the
pointer returned by the registration of the hwmon device, each `none` when the
call was not reached. -/
structure add_result where
  err : Int
  journal : List acpi_call
  drvdata : Option asus_primeb550plus_hwmon_data
  hwmon_device : Option Nat
  deriving DecidableEq, Repr

/-- The function `asus_primeb550plus_hwmon_add`.  The driver data come zeroed from
`devm_kzalloc`; the messages logged are left out. -/
def asus_primeb550plus_hwmon_add (ks : kernel_services) (fw : acpi_firmware)
    (device : acpi_device) (journal : List acpi_call) : add_result :=
  if asus_primeb550plus_hwmon_check_dmi ks.dmi_ident ≠ 0 then
    ⟨asus_primeb550plus_hwmon_check_dmi ks.dmi_ident, journal, none, none⟩
  else if strcmp "ASUSWMI" device.uid ≠ 0 then
    ⟨-ENODEV, journal, none, none⟩
  else
    match ks.devm_kzalloc with
    | none => ⟨-ENOMEM, journal, none, none⟩
    | some _ =>
      let devdri_data : asus_primeb550plus_hwmon_data :=
        { acpi_dev := device.address, device := 0, acpi_dev_handle := device.handle,
          rhwm_method := 0 }
      match asus_primeb550plus_hwmon_get_method_handles ks devdri_data with
      | (err1, devdri_data1) =>
        if err1 ≠ 0 then ⟨err1, journal, none, none⟩
        else
          match asus_primeb550plus_hwmon_check_chip fw devdri_data1 journal with
          | (err2, journal1) =>
            if err2 ≠ 0 then ⟨err2, journal1, none, none⟩
            else
              let devdri_data2 :=
                { devdri_data1 with device := ks.devm_hwmon_device_register_with_groups }
              ⟨PTR_ERR_OR_ZERO ks.devm_hwmon_device_register_with_groups, journal1,
                some devdri_data2, some ks.devm_hwmon_device_register_with_groups⟩

/-! ## Reading channel names -/

/-- The enumeration `enum asus_primeb550plus_hwmon_data_type`, enumerators with the
leading `ASUS_B550PLUS_HWMON_DATA_TYPE_` dropped. -/
inductive asus_primeb550plus_hwmon_data_type where
  | UCHAR_MUL | TEMP_9BIT | TEMP_8BIT | TEMP_14BIT | PWM16
  deriving DecidableEq, Repr

/-- The member `data_type` of a descriptor. -/
def asus_primeb550plus_hwmon_chip_field.data_type
    (chip_field : asus_primeb550plus_hwmon_chip_field) : asus_primeb550plus_hwmon_data_type :=
  match chip_field.data_address with
  | .UCHAR_MUL _ => .UCHAR_MUL
  | .TEMP_9BIT _ => .TEMP_9BIT
  | .TEMP_8BIT _ => .TEMP_8BIT
  | .TEMP_14BIT _ => .TEMP_14BIT
  | .PWM16 _ => .PWM16

/-- The category of a sysfs file name of the form category, number, underscore,
kind (as in temp12_input): its leading letters. -/
def channel_category (name : String) : String :=
  String.mk (name.toList.takeWhile Char.isAlpha)

/-- The number of a sysfs file name of that form: the decimal digits that follow
the leading letters. -/
def channel_number (name : String) : Nat :=
  ((name.toList.dropWhile Char.isAlpha).takeWhile Char.isDigit).foldl
    (fun n c => 10 * n + (c.toNat - 48)) 0

/-- The numbers of the value files (those served by
`asus_primeb550plus_hwmon_sysfs_val_show`) of one category among the registered
attributes, in the order of the array. -/
def channel_numbers (category : String) : List Nat :=
  (asus_primeb550plus_hwmon_attrs.filter (fun a =>
    decide (channel_category a.name = category) &&
    decide (a.callback = show_callback.asus_primeb550plus_hwmon_sysfs_val_show))).map
    (fun a => channel_number a.name)

/-! ## Registers named by the registry -/

/-- The registers (bank, index) a descriptor names, in the order in which its decode
reads them. -/
def asus_primeb550plus_hwmon_chip_field.registers
    (chip_field : asus_primeb550plus_hwmon_chip_field) : List (Nat × Nat) :=
  match chip_field.data_address with
  | .UCHAR_MUL field => [(field.bank_no, field.index_in_bank)]
  | .TEMP_9BIT field =>
    [(field.int_bank_no, field.int_index_in_bank),
      (field.frac_bank_no, field.frac_index_in_bank)]
  | .TEMP_8BIT field => [(field.bank_no, field.index_in_bank)]
  | .TEMP_14BIT field =>
    [(field.int_bank_no, field.int_idx), (field.frac_bank_no, field.frac_idx)]
  | .PWM16 field =>
    [(field.high_bank_no, field.high_idx), (field.low_bank_no, field.low_idx)]

/-- The registers named by the populated entries of
`asus_primeb550plus_hwmon_chip_fields`, in the order of the field ids. -/
def registry_registers : List (Nat × Nat) :=
  (List.range ASUS_B550PLUS_HWMON_FIELD_LIST_MAX).flatMap (fun i =>
    match designated_element asus_primeb550plus_hwmon_chip_fields_init i with
    | some chip_field => chip_field.registers
    | none => [])

/-! ## A scripted firmware -/

/-- A firmware double for concrete runs: the n-th method evaluation returns the
n-th entry of `script`, whatever the handle and the arguments, and fails once
the script is used up. -/
def scripted_firmware (script : List acpi_result) : acpi_firmware :=
  ⟨fun journal _ _ => (script.get? journal.length).getD acpi_result.failure⟩

/-! ## Auxiliary facts -/

theorem toDigits_length_le (n e : Nat) (he : 0 < e) (h : n < 10 ^ e) :
    (Nat.toDigits 10 n).length ≤ e := by
  have := Nat.repr_length n e he h
  simpa [Nat.repr] using this

theorem decimal_length_le (v : Int) (h1 : -10000000000 < v) (h2 : v < 10000000000) :
    (decimal v).length ≤ 11 := by
  unfold decimal
  split
  · have : (Nat.toDigits 10 v.natAbs).length ≤ 10 :=
      toDigits_length_le _ 10 (by norm_num) (by norm_num; omega)
    simp only [List.length_cons]; omega
  · have : (Nat.toDigits 10 v.toNat).length ≤ 10 :=
      toDigits_length_le _ 10 (by norm_num) (by norm_num; omega)
    omega

theorem to_int_range (v : Int) : -2147483648 ≤ to_int v ∧ to_int v < 2147483648 := by
  unfold to_int; split <;> omega

theorem to_int_of_range (v : Int) (h1 : -2147483648 ≤ v) (h2 : v < 2147483648) :
    to_int v = v := by
  unfold to_int; split <;> omega

theorem to_uint_to_int (v : Int) : to_uint (to_int v) = to_uint v := by
  unfold to_uint to_int; split <;> congr 1 <;> omega

theorem to_uint_lt (v : Int) : to_uint v < 4294967296 := by
  unfold to_uint; omega

theorem format_i_length (v : Int) : (format_i v ++ [newline]).length ≤ 12 := by
  have h := to_int_range v
  have := decimal_length_le (to_int v) (by omega) (by omega)
  simp only [format_i, List.length_append, List.length_singleton]; omega

theorem format_u_length (v : Int) : (format_u v ++ [newline]).length ≤ 12 := by
  have h := to_uint_lt v
  have := decimal_length_le (to_uint v) (by omega) (by omega)
  simp only [format_u, List.length_append, List.length_singleton]; omega

theorem scnprintf_fits (buf text : List Char) (size : Nat) (h : text.length < size) :
    scnprintf buf size text = (((text.length : Nat) : Int), text) := by
  unfold scnprintf
  have h0 : size ≠ 0 := by omega
  have ht : List.take (size - 1) text = text := List.take_of_length_le (by omega)
  simp [h0, ht]

theorem read_u8_success (fw : acpi_firmware) (devdri_data : asus_primeb550plus_hwmon_data)
    (bank index : Nat) (journal : List acpi_call) (dest val : Nat)
    (h : fw.evaluate journal devdri_data.rhwm_method [bank, index] = acpi_result.success val)
    (hv : val ≤ 255) :
    asus_primeb550plus_hwmon_read_u8 fw devdri_data bank index journal dest
      = (0, val, journal ++ [⟨devdri_data.rhwm_method, [bank, index], acpi_result.success val⟩]) := by
  have hn : ¬ val > U8_MAX := by unfold U8_MAX; omega
  have hc : to_uchar (val : Int) = val := by unfold to_uchar; omega
  simp [asus_primeb550plus_hwmon_read_u8, acpi_evaluate_integer, h, hn, hc]

theorem read_u8_too_large (fw : acpi_firmware) (devdri_data : asus_primeb550plus_hwmon_data)
    (bank index : Nat) (journal : List acpi_call) (dest val : Nat)
    (h : fw.evaluate journal devdri_data.rhwm_method [bank, index] = acpi_result.success val)
    (hv : 255 < val) :
    asus_primeb550plus_hwmon_read_u8 fw devdri_data bank index journal dest
      = (-1, dest, journal ++ [⟨devdri_data.rhwm_method, [bank, index], acpi_result.success val⟩]) := by
  have hn : val > U8_MAX := by unfold U8_MAX; omega
  simp [asus_primeb550plus_hwmon_read_u8, acpi_evaluate_integer, h, hn]

theorem read_u8_failure (fw : acpi_firmware) (devdri_data : asus_primeb550plus_hwmon_data)
    (bank index : Nat) (journal : List acpi_call) (dest : Nat)
    (h : fw.evaluate journal devdri_data.rhwm_method [bank, index] = acpi_result.failure) :
    asus_primeb550plus_hwmon_read_u8 fw devdri_data bank index journal dest
      = (-1, dest, journal ++ [⟨devdri_data.rhwm_method, [bank, index], acpi_result.failure⟩]) := by
  simp [asus_primeb550plus_hwmon_read_u8, acpi_evaluate_integer, h]

theorem uchar_mul_show_ok (PAGE_SIZE : Nat) (fw : acpi_firmware)
    (devdri_data : asus_primeb550plus_hwmon_data)
    (field : asus_primeb550plus_hwmon_data_type_uchar_mul)
    (journal : List acpi_call) (buf : List Char) (raw : Nat)
    (hpage : 13 ≤ PAGE_SIZE) (hraw : raw ≤ 255)
    (hread : fw.evaluate journal devdri_data.rhwm_method [field.bank_no, field.index_in_bank]
      = acpi_result.success raw) :
    asus_primeb550plus_hwmon_sysfs_val_uchar_mul_show PAGE_SIZE fw devdri_data field journal buf
      = ⟨((format_u (to_int ((raw : Int) * field.multiplier)) ++ [newline]).length : Nat),
         journal ++ [⟨devdri_data.rhwm_method, [field.bank_no, field.index_in_bank],
           acpi_result.success raw⟩],
         format_u (to_int ((raw : Int) * field.multiplier)) ++ [newline]⟩ := by
  have hl := format_u_length (to_int ((raw : Int) * field.multiplier))
  simp only [asus_primeb550plus_hwmon_sysfs_val_uchar_mul_show,
    read_u8_success fw devdri_data _ _ journal 0 raw hread hraw]
  rw [scnprintf_fits _ _ _ (by omega)]
  simp

theorem temp_8bit_show_ok (PAGE_SIZE : Nat) (fw : acpi_firmware)
    (devdri_data : asus_primeb550plus_hwmon_data)
    (field : asus_primeb550plus_hwmon_data_type_temp_8bit)
    (journal : List acpi_call) (buf : List Char) (raw : Nat)
    (hpage : 13 ≤ PAGE_SIZE) (hraw : raw ≤ 255)
    (hread : fw.evaluate journal devdri_data.rhwm_method [field.bank_no, field.index_in_bank]
      = acpi_result.success raw) :
    asus_primeb550plus_hwmon_sysfs_val_temp_8bit_show PAGE_SIZE fw devdri_data field journal buf
      = ⟨((format_i (to_int (to_schar raw * 1000)) ++ [newline]).length : Nat),
         journal ++ [⟨devdri_data.rhwm_method, [field.bank_no, field.index_in_bank],
           acpi_result.success raw⟩],
         format_i (to_int (to_schar raw * 1000)) ++ [newline]⟩ := by
  have hl := format_i_length (to_int (to_schar raw * 1000))
  simp only [asus_primeb550plus_hwmon_sysfs_val_temp_8bit_show,
    read_u8_success fw devdri_data _ _ journal 0 raw hread hraw]
  rw [scnprintf_fits _ _ _ (by omega)]
  simp

theorem temp_9bit_show_ok (PAGE_SIZE : Nat) (fw : acpi_firmware)
    (devdri_data : asus_primeb550plus_hwmon_data)
    (field : asus_primeb550plus_hwmon_data_type_temp_9bit)
    (journal : List acpi_call) (buf : List Char) (raw_int raw_frac : Nat)
    (hpage : 13 ≤ PAGE_SIZE) (hint : raw_int ≤ 255) (hfrac : raw_frac ≤ 255)
    (hread1 : fw.evaluate journal devdri_data.rhwm_method
      [field.int_bank_no, field.int_index_in_bank] = acpi_result.success raw_int)
    (hread2 : fw.evaluate
      (journal ++ [⟨devdri_data.rhwm_method, [field.int_bank_no, field.int_index_in_bank],
        acpi_result.success raw_int⟩])
      devdri_data.rhwm_method [field.frac_bank_no, field.frac_index_in_bank]
      = acpi_result.success raw_frac) :
    asus_primeb550plus_hwmon_sysfs_val_temp_9bit_show PAGE_SIZE fw devdri_data field journal buf
      = ⟨((format_i (to_int (to_schar raw_int * 1000
            + not_not (raw_frac &&& 0x80) * (if to_schar raw_int ≥ 0 then 500 else -500)))
            ++ [newline]).length : Nat),
         journal ++ [⟨devdri_data.rhwm_method, [field.int_bank_no, field.int_index_in_bank],
             acpi_result.success raw_int⟩]
           ++ [⟨devdri_data.rhwm_method, [field.frac_bank_no, field.frac_index_in_bank],
             acpi_result.success raw_frac⟩],
         format_i (to_int (to_schar raw_int * 1000
            + not_not (raw_frac &&& 0x80) * (if to_schar raw_int ≥ 0 then 500 else -500)))
            ++ [newline]⟩ := by
  have hl := format_i_length (to_int (to_schar raw_int * 1000
            + not_not (raw_frac &&& 0x80) * (if to_schar raw_int ≥ 0 then 500 else -500)))
  simp only [asus_primeb550plus_hwmon_sysfs_val_temp_9bit_show,
    read_u8_success fw devdri_data _ _ journal 0 raw_int hread1 hint,
    read_u8_success fw devdri_data _ _ _ 0 raw_frac hread2 hfrac]
  rw [scnprintf_fits _ _ _ (by omega)]
  simp

theorem temp_14bit_show_ok (PAGE_SIZE : Nat) (fw : acpi_firmware)
    (devdri_data : asus_primeb550plus_hwmon_data)
    (field : asus_primeb550plus_hwmon_data_type_temp_14bit)
    (journal : List acpi_call) (buf : List Char) (raw_int raw_frac : Nat)
    (hpage : 13 ≤ PAGE_SIZE) (hint : raw_int ≤ 255) (hfrac : raw_frac ≤ 255)
    (hread1 : fw.evaluate journal devdri_data.rhwm_method
      [field.int_bank_no, field.int_idx] = acpi_result.success raw_int)
    (hread2 : fw.evaluate
      (journal ++ [⟨devdri_data.rhwm_method, [field.int_bank_no, field.int_idx],
        acpi_result.success raw_int⟩])
      devdri_data.rhwm_method [field.frac_bank_no, field.frac_idx]
      = acpi_result.success raw_frac) :
    asus_primeb550plus_hwmon_sysfs_val_temp_14bit_show PAGE_SIZE fw devdri_data field journal buf
      = ⟨((format_i (to_int ((raw_int : Int) * 1000 + ((raw_frac >>> 2 : Nat) : Int)))
            ++ [newline]).length : Nat),
         journal ++ [⟨devdri_data.rhwm_method, [field.int_bank_no, field.int_idx],
             acpi_result.success raw_int⟩]
           ++ [⟨devdri_data.rhwm_method, [field.frac_bank_no, field.frac_idx],
             acpi_result.success raw_frac⟩],
         format_i (to_int ((raw_int : Int) * 1000 + ((raw_frac >>> 2 : Nat) : Int)))
            ++ [newline]⟩ := by
  have hl := format_i_length (to_int ((raw_int : Int) * 1000 + ((raw_frac >>> 2 : Nat) : Int)))
  simp only [asus_primeb550plus_hwmon_sysfs_val_temp_14bit_show,
    read_u8_success fw devdri_data _ _ journal 0 raw_int hread1 hint,
    read_u8_success fw devdri_data _ _ _ 0 raw_frac hread2 hfrac]
  rw [scnprintf_fits _ _ _ (by omega)]
  simp

theorem pwm16_show_ok (PAGE_SIZE : Nat) (fw : acpi_firmware)
    (devdri_data : asus_primeb550plus_hwmon_data)
    (field : asus_primeb550plus_hwmon_data_type_pwm16)
    (journal : List acpi_call) (buf : List Char) (raw_high raw_low : Nat)
    (hpage : 13 ≤ PAGE_SIZE) (hhigh : raw_high ≤ 255) (hlow : raw_low ≤ 255)
    (hread1 : fw.evaluate journal devdri_data.rhwm_method
      [field.high_bank_no, field.high_idx] = acpi_result.success raw_high)
    (hread2 : fw.evaluate
      (journal ++ [⟨devdri_data.rhwm_method, [field.high_bank_no, field.high_idx],
        acpi_result.success raw_high⟩])
      devdri_data.rhwm_method [field.low_bank_no, field.low_idx]
      = acpi_result.success raw_low) :
    asus_primeb550plus_hwmon_sysfs_val_pwm16_show PAGE_SIZE fw devdri_data field journal buf
      = ⟨((format_u (to_int (((raw_high <<< 8 : Nat) : Int) + (raw_low : Int)))
            ++ [newline]).length : Nat),
         journal ++ [⟨devdri_data.rhwm_method, [field.high_bank_no, field.high_idx],
             acpi_result.success raw_high⟩]
           ++ [⟨devdri_data.rhwm_method, [field.low_bank_no, field.low_idx],
             acpi_result.success raw_low⟩],
         format_u (to_int (((raw_high <<< 8 : Nat) : Int) + (raw_low : Int)))
            ++ [newline]⟩ := by
  have hl := format_u_length (to_int (((raw_high <<< 8 : Nat) : Int) + (raw_low : Int)))
  simp only [asus_primeb550plus_hwmon_sysfs_val_pwm16_show,
    read_u8_success fw devdri_data _ _ journal 0 raw_high hread1 hhigh,
    read_u8_success fw devdri_data _ _ _ 0 raw_low hread2 hlow]
  rw [scnprintf_fits _ _ _ (by omega)]
  simp

theorem to_schar_byte (raw : Nat) (h : raw ≤ 255) :
    to_schar raw = if raw < 128 then (raw : Int) else (raw : Int) - 256 := by
  unfold to_schar; split <;> split <;> omega

set_option maxRecDepth 100000 in
theorem not_not_top_bit (raw : Nat) (h : raw ≤ 255) :
    not_not (raw &&& 0x80) = if raw.testBit 7 = true then 1 else 0 := by
  have key : ∀ n : Nat, n < 256 →
      not_not (n &&& 0x80) = if n.testBit 7 = true then 1 else 0 := by
    unfold not_not; decide
  exact key raw (by omega)

theorem format_i_to_int (v : Int) (h1 : -2147483648 ≤ v) (h2 : v < 2147483648) :
    format_i (to_int v) = decimal v := by
  unfold format_i; rw [to_int_of_range v h1 h2, to_int_of_range v h1 h2]

theorem format_u_to_int (v : Int) : format_u (to_int v) = decimal (v % 4294967296) := by
  unfold format_u
  rw [to_uint_to_int]
  unfold to_uint
  congr 1
  omega

/-! ## Register read primitive -/

/-- C7: `asus_primeb550plus_hwmon_read_u8` returns 0 exactly when the platform
invocation succeeds with an integer of at most 255, and then the destination
byte is that integer; in every other case (failed invocation, or an integer
above 255) it returns the same value -1 and leaves the destination as it was.
It always evaluates the method exactly once, with the two bytes bank, index. -/
theorem read_u8_contract (fw : acpi_firmware) (devdri_data : asus_primeb550plus_hwmon_data)
    (bank index : Nat) (journal : List acpi_call) (dest : Nat) :
    ((asus_primeb550plus_hwmon_read_u8 fw devdri_data bank index journal dest).1 = 0 ↔
      ∃ val, fw.evaluate journal devdri_data.rhwm_method [bank, index]
        = acpi_result.success val ∧ val ≤ 255) ∧
    (∀ val, fw.evaluate journal devdri_data.rhwm_method [bank, index]
        = acpi_result.success val → val ≤ 255 →
      (asus_primeb550plus_hwmon_read_u8 fw devdri_data bank index journal dest).2.1 = val) ∧
    ((asus_primeb550plus_hwmon_read_u8 fw devdri_data bank index journal dest).1 ≠ 0 →
      (asus_primeb550plus_hwmon_read_u8 fw devdri_data bank index journal dest).1 = -1 ∧
      (asus_primeb550plus_hwmon_read_u8 fw devdri_data bank index journal dest).2.1 = dest) ∧
    (asus_primeb550plus_hwmon_read_u8 fw devdri_data bank index journal dest).2.2
      = journal ++ [⟨devdri_data.rhwm_method, [bank, index],
          fw.evaluate journal devdri_data.rhwm_method [bank, index]⟩] := by
  cases h : fw.evaluate journal devdri_data.rhwm_method [bank, index] with
  | failure =>
    rw [read_u8_failure fw devdri_data bank index journal dest h]
    simp
  | success val =>
    by_cases hv : val ≤ 255
    · rw [read_u8_success fw devdri_data bank index journal dest val h hv]
      simp [hv]
    · rw [read_u8_too_large fw devdri_data bank index journal dest val h (by omega)]
      simp [hv]

/-- Witness of C7: a method returning 200 is read as the byte 200; a method returning 256
and a failing method are both reported by -1 with the destination (here 7) unchanged. -/
theorem read_u8_contract_witness :
    (asus_primeb550plus_hwmon_read_u8 (scripted_firmware [acpi_result.success 200])
        ⟨0, 0, 0, 0⟩ 4 0x80 [] 7).2.1 = 200 ∧
    (asus_primeb550plus_hwmon_read_u8 (scripted_firmware [acpi_result.success 256])
        ⟨0, 0, 0, 0⟩ 4 0x80 [] 7).1 = -1 ∧
    (asus_primeb550plus_hwmon_read_u8 (scripted_firmware [acpi_result.success 256])
        ⟨0, 0, 0, 0⟩ 4 0x80 [] 7).2.1 = 7 ∧
    (asus_primeb550plus_hwmon_read_u8 (scripted_firmware [])
        ⟨0, 0, 0, 0⟩ 4 0x80 [] 7).1 = -1 ∧
    (asus_primeb550plus_hwmon_read_u8 (scripted_firmware [])
        ⟨0, 0, 0, 0⟩ 4 0x80 [] 7).2.1 = 7 := by
  have h1 := (read_u8_contract (scripted_firmware [acpi_result.success 200])
    ⟨0, 0, 0, 0⟩ 4 0x80 [] 7).2.1 200 (by decide) (by decide)
  have h2 := (read_u8_contract (scripted_firmware [acpi_result.success 256])
    ⟨0, 0, 0, 0⟩ 4 0x80 [] 7).2.2.1 (by decide)
  have h3 := (read_u8_contract (scripted_firmware [])
    ⟨0, 0, 0, 0⟩ 4 0x80 [] 7).2.2.1 (by decide)
  exact ⟨h1, h2.1, h2.2, h3.1, h3.2⟩

/-! ## Decoders -/

/-- C1 (as amended): for every raw byte in [0,255] returned by the register read and
every multiplier, the UcharMul decode writes the unsigned decimal rendering of
`raw * multiplier` reduced modulo 2^32, followed by a newline; this is
`raw * multiplier` itself whenever `0 ≤ raw * multiplier < 2^32`. -/
theorem uchar_mul_show_value (PAGE_SIZE : Nat) (fw : acpi_firmware)
    (devdri_data : asus_primeb550plus_hwmon_data)
    (field : asus_primeb550plus_hwmon_data_type_uchar_mul)
    (journal : List acpi_call) (buf : List Char) (raw : Nat)
    (hpage : 13 ≤ PAGE_SIZE) (hraw : raw ≤ 255)
    (hread : fw.evaluate journal devdri_data.rhwm_method [field.bank_no, field.index_in_bank]
      = acpi_result.success raw) :
    (asus_primeb550plus_hwmon_sysfs_val_uchar_mul_show PAGE_SIZE fw devdri_data field
        journal buf).buf
      = decimal (((raw : Int) * field.multiplier) % 4294967296) ++ [newline] ∧
    (0 ≤ (raw : Int) * field.multiplier → (raw : Int) * field.multiplier < 4294967296 →
      (asus_primeb550plus_hwmon_sysfs_val_uchar_mul_show PAGE_SIZE fw devdri_data field
        journal buf).buf
      = decimal ((raw : Int) * field.multiplier) ++ [newline]) := by
  rw [uchar_mul_show_ok PAGE_SIZE fw devdri_data field journal buf raw hpage hraw hread]
  simp only [format_u_to_int]
  refine ⟨trivial, fun h0 h1 => ?_⟩
  rw [Int.emod_eq_of_lt h0 h1]

/-- Witness of C1 (as amended): the descriptor of cpuvcore (bank 4, index 0x80,
multiplier 8) with the register returning 10 gives the line 80. -/
theorem uchar_mul_show_value_witness :
    (asus_primeb550plus_hwmon_sysfs_val_uchar_mul_show 4096
      (scripted_firmware [acpi_result.success 10]) ⟨0, 0, 0, 0⟩ ⟨4, 0x80, 8⟩ [] []).buf
      = "80".toList ++ [newline] :=
  ((uchar_mul_show_value 4096 (scripted_firmware [acpi_result.success 10]) ⟨0, 0, 0, 0⟩
    ⟨4, 0x80, 8⟩ [] [] 10 (by decide) (by decide) (by decide)).2
      (by decide) (by decide)).trans (by decide)

/-- Counterexample to C1 as stated: with the multiplier -1 and the raw byte 1 the
product is -1 but the decode writes 4294967295; with the multiplier 2147483647
and the raw byte 255 the product is 547608329985 but the decode writes
2147483393. -/
theorem uchar_mul_show_value_counterexample :
    (asus_primeb550plus_hwmon_sysfs_val_uchar_mul_show 4096
      (scripted_firmware [acpi_result.success 1]) ⟨0, 0, 0, 0⟩ ⟨4, 0x80, -1⟩ [] []).buf
      = "4294967295".toList ++ [newline] ∧
    (asus_primeb550plus_hwmon_sysfs_val_uchar_mul_show 4096
      (scripted_firmware [acpi_result.success 1]) ⟨0, 0, 0, 0⟩ ⟨4, 0x80, -1⟩ [] []).buf
      ≠ decimal ((1 : Int) * (-1)) ++ [newline] ∧
    (asus_primeb550plus_hwmon_sysfs_val_uchar_mul_show 4096
      (scripted_firmware [acpi_result.success 255]) ⟨0, 0, 0, 0⟩ ⟨4, 0x80, 2147483647⟩ [] []).buf
      = "2147483393".toList ++ [newline] ∧
    (asus_primeb550plus_hwmon_sysfs_val_uchar_mul_show 4096
      (scripted_firmware [acpi_result.success 255]) ⟨0, 0, 0, 0⟩ ⟨4, 0x80, 2147483647⟩ [] []).buf
      ≠ decimal ((255 : Int) * 2147483647) ++ [newline] := by
  decide

/-- C2: for every pair of successfully read bytes (raw_int, raw_frac) the Temp9Bit
decode writes `s * 1000 + c`, where `s` is raw_int read as a signed 8-bit
two's-complement integer and `c` is 0 when bit 7 of raw_frac is clear, 500 when
it is set and `s ≥ 0`, and -500 when it is set and `s < 0`. -/
theorem temp_9bit_show_value (PAGE_SIZE : Nat) (fw : acpi_firmware)
    (devdri_data : asus_primeb550plus_hwmon_data)
    (field : asus_primeb550plus_hwmon_data_type_temp_9bit)
    (journal : List acpi_call) (buf : List Char) (raw_int raw_frac : Nat) (s : Int)
    (hpage : 13 ≤ PAGE_SIZE) (hint : raw_int ≤ 255) (hfrac : raw_frac ≤ 255)
    (hread1 : fw.evaluate journal devdri_data.rhwm_method
      [field.int_bank_no, field.int_index_in_bank] = acpi_result.success raw_int)
    (hread2 : fw.evaluate
      (journal ++ [⟨devdri_data.rhwm_method, [field.int_bank_no, field.int_index_in_bank],
        acpi_result.success raw_int⟩])
      devdri_data.rhwm_method [field.frac_bank_no, field.frac_index_in_bank]
      = acpi_result.success raw_frac)
    (hs : s = if raw_int < 128 then (raw_int : Int) else (raw_int : Int) - 256) :
    (asus_primeb550plus_hwmon_sysfs_val_temp_9bit_show PAGE_SIZE fw devdri_data field
        journal buf).buf
      = decimal (s * 1000
          + (if raw_frac.testBit 7 = true then (if 0 ≤ s then 500 else -500) else 0))
        ++ [newline] := by
  rw [temp_9bit_show_ok PAGE_SIZE fw devdri_data field journal buf raw_int raw_frac hpage
    hint hfrac hread1 hread2]
  simp only [to_schar_byte raw_int hint, not_not_top_bit raw_frac hfrac, ← hs]
  have hr : -128 ≤ s ∧ s ≤ 127 := by rw [hs]; split <;> omega
  have he : s * 1000 + (if raw_frac.testBit 7 = true then (1 : Int) else 0)
        * (if s ≥ 0 then 500 else -500)
      = s * 1000 + (if raw_frac.testBit 7 = true then (if 0 ≤ s then 500 else -500) else 0) := by
    split <;> simp
  rw [he, format_i_to_int]
  · split_ifs <;> omega
  · split_ifs <;> omega

/-- Witness of C2: the three readings of the specification, on the descriptor of temp1:
(25, 0x80) gives 25500, (25, 0x00) gives 25000 and (246, 0x80) gives -10500. -/
theorem temp_9bit_show_value_witness :
    (asus_primeb550plus_hwmon_sysfs_val_temp_9bit_show 4096
      (scripted_firmware [acpi_result.success 25, acpi_result.success 0x80])
      ⟨0, 0, 0, 0⟩ ⟨0, 0x73, 0, 0x74⟩ [] []).buf = "25500".toList ++ [newline] ∧
    (asus_primeb550plus_hwmon_sysfs_val_temp_9bit_show 4096
      (scripted_firmware [acpi_result.success 25, acpi_result.success 0x00])
      ⟨0, 0, 0, 0⟩ ⟨0, 0x73, 0, 0x74⟩ [] []).buf = "25000".toList ++ [newline] ∧
    (asus_primeb550plus_hwmon_sysfs_val_temp_9bit_show 4096
      (scripted_firmware [acpi_result.success 246, acpi_result.success 0x80])
      ⟨0, 0, 0, 0⟩ ⟨0, 0x73, 0, 0x74⟩ [] []).buf = "-10500".toList ++ [newline] :=
  ⟨(temp_9bit_show_value 4096
      (scripted_firmware [acpi_result.success 25, acpi_result.success 0x80])
      ⟨0, 0, 0, 0⟩ ⟨0, 0x73, 0, 0x74⟩ [] [] 25 0x80 25 (by decide) (by decide) (by decide)
      (by decide) (by decide) (by decide)).trans (by decide),
   (temp_9bit_show_value 4096
      (scripted_firmware [acpi_result.success 25, acpi_result.success 0x00])
      ⟨0, 0, 0, 0⟩ ⟨0, 0x73, 0, 0x74⟩ [] [] 25 0x00 25 (by decide) (by decide) (by decide)
      (by decide) (by decide) (by decide)).trans (by decide),
   (temp_9bit_show_value 4096
      (scripted_firmware [acpi_result.success 246, acpi_result.success 0x80])
      ⟨0, 0, 0, 0⟩ ⟨0, 0x73, 0, 0x74⟩ [] [] 246 0x80 (-10) (by decide) (by decide) (by decide)
      (by decide) (by decide) (by decide)).trans (by decide)⟩

/-- C3: for every successfully read byte raw in [0,255] the Temp8Bit decode writes
`s * 1000`, where `s` is raw read as a signed 8-bit two's-complement integer
(`raw` below 128, `raw - 256` from 128 on). -/
theorem temp_8bit_show_value (PAGE_SIZE : Nat) (fw : acpi_firmware)
    (devdri_data : asus_primeb550plus_hwmon_data)
    (field : asus_primeb550plus_hwmon_data_type_temp_8bit)
    (journal : List acpi_call) (buf : List Char) (raw : Nat)
    (hpage : 13 ≤ PAGE_SIZE) (hraw : raw ≤ 255)
    (hread : fw.evaluate journal devdri_data.rhwm_method [field.bank_no, field.index_in_bank]
      = acpi_result.success raw) :
    (asus_primeb550plus_hwmon_sysfs_val_temp_8bit_show PAGE_SIZE fw devdri_data field
        journal buf).buf
      = decimal ((if raw < 128 then (raw : Int) else (raw : Int) - 256) * 1000)
        ++ [newline] := by
  rw [temp_8bit_show_ok PAGE_SIZE fw devdri_data field journal buf raw hpage hraw hread]
  simp only [to_schar_byte raw hraw]
  rw [format_i_to_int]
  · split <;> omega
  · split <;> omega

/-- Witness of C3: the three readings of the specification, on the descriptor of systin:
0 gives 0, 200 gives -56000 and 50 gives 50000. -/
theorem temp_8bit_show_value_witness :
    (asus_primeb550plus_hwmon_sysfs_val_temp_8bit_show 4096
      (scripted_firmware [acpi_result.success 0])
      ⟨0, 0, 0, 0⟩ ⟨4, 0x90⟩ [] []).buf = "0".toList ++ [newline] ∧
    (asus_primeb550plus_hwmon_sysfs_val_temp_8bit_show 4096
      (scripted_firmware [acpi_result.success 200])
      ⟨0, 0, 0, 0⟩ ⟨4, 0x90⟩ [] []).buf = "-56000".toList ++ [newline] ∧
    (asus_primeb550plus_hwmon_sysfs_val_temp_8bit_show 4096
      (scripted_firmware [acpi_result.success 50])
      ⟨0, 0, 0, 0⟩ ⟨4, 0x90⟩ [] []).buf = "50000".toList ++ [newline] :=
  ⟨(temp_8bit_show_value 4096 (scripted_firmware [acpi_result.success 0])
      ⟨0, 0, 0, 0⟩ ⟨4, 0x90⟩ [] [] 0 (by decide) (by decide) (by decide)).trans (by decide),
   (temp_8bit_show_value 4096 (scripted_firmware [acpi_result.success 200])
      ⟨0, 0, 0, 0⟩ ⟨4, 0x90⟩ [] [] 200 (by decide) (by decide) (by decide)).trans (by decide),
   (temp_8bit_show_value 4096 (scripted_firmware [acpi_result.success 50])
      ⟨0, 0, 0, 0⟩ ⟨4, 0x90⟩ [] [] 50 (by decide) (by decide) (by decide)).trans (by decide)⟩

/-- C4: for every pair of successfully read bytes (raw_int, raw_frac) the Temp14Bit
decode writes `raw_int * 1000 + raw_frac / 4` with raw_int taken unsigned, a
natural number and so never negative; from raw_int = 128 on, a Temp8Bit decode
reading the same byte writes the negative value `(raw_int - 256) * 1000`
instead. -/
theorem temp_14bit_show_value (PAGE_SIZE : Nat) (fw : acpi_firmware)
    (devdri_data : asus_primeb550plus_hwmon_data)
    (field : asus_primeb550plus_hwmon_data_type_temp_14bit)
    (journal : List acpi_call) (buf : List Char) (raw_int raw_frac : Nat)
    (hpage : 13 ≤ PAGE_SIZE) (hint : raw_int ≤ 255) (hfrac : raw_frac ≤ 255)
    (hread1 : fw.evaluate journal devdri_data.rhwm_method
      [field.int_bank_no, field.int_idx] = acpi_result.success raw_int)
    (hread2 : fw.evaluate
      (journal ++ [⟨devdri_data.rhwm_method, [field.int_bank_no, field.int_idx],
        acpi_result.success raw_int⟩])
      devdri_data.rhwm_method [field.frac_bank_no, field.frac_idx]
      = acpi_result.success raw_frac) :
    (asus_primeb550plus_hwmon_sysfs_val_temp_14bit_show PAGE_SIZE fw devdri_data field
        journal buf).buf
      = decimal ((raw_int * 1000 + raw_frac / 4 : Nat) : Int) ++ [newline] ∧
    (∀ field8 : asus_primeb550plus_hwmon_data_type_temp_8bit, 128 ≤ raw_int →
      fw.evaluate journal devdri_data.rhwm_method [field8.bank_no, field8.index_in_bank]
        = acpi_result.success raw_int →
      (asus_primeb550plus_hwmon_sysfs_val_temp_8bit_show PAGE_SIZE fw devdri_data field8
          journal buf).buf
        = decimal (((raw_int : Int) - 256) * 1000) ++ [newline] ∧
      ((raw_int : Int) - 256) * 1000 < 0) := by
  constructor
  · rw [temp_14bit_show_ok PAGE_SIZE fw devdri_data field journal buf raw_int raw_frac hpage
      hint hfrac hread1 hread2]
    simp only [Nat.shiftRight_eq_div_pow]
    rw [format_i_to_int]
    · congr 2
    · omega
    · have : raw_frac / 2 ^ 2 ≤ 63 := by omega
      omega
  · intro field8 h128 hread8
    rw [temp_8bit_show_ok PAGE_SIZE fw devdri_data field8 journal buf raw_int hpage hint hread8]
    simp only [to_schar_byte raw_int hint]
    have hn : ¬ raw_int < 128 := by omega
    simp only [hn, if_false]
    rw [format_i_to_int]
    · exact ⟨rfl, by omega⟩
    · omega
    · omega

/-- Witness of C4: on the descriptor of the cpu temperature, (40, 192) gives 40048. -/
theorem temp_14bit_show_value_witness :
    (asus_primeb550plus_hwmon_sysfs_val_temp_14bit_show 4096
      (scripted_firmware [acpi_result.success 40, acpi_result.success 192])
      ⟨0, 0, 0, 0⟩ ⟨4, 0x02, 4, 0x03⟩ [] []).buf = "40048".toList ++ [newline] :=
  (temp_14bit_show_value 4096
      (scripted_firmware [acpi_result.success 40, acpi_result.success 192])
      ⟨0, 0, 0, 0⟩ ⟨4, 0x02, 4, 0x03⟩ [] [] 40 192 (by decide) (by decide) (by decide)
      (by decide) (by decide)).1.trans (by decide)

/-- C5: for every pair of successfully read bytes (high, low) the Pwm16 decode writes
`(high << 8) | low`, which is `256 * high + low` and lies in [0, 65535]: the
addition of the code and the bitwise or of the specification agree on bytes. -/
theorem pwm16_show_value (PAGE_SIZE : Nat) (fw : acpi_firmware)
    (devdri_data : asus_primeb550plus_hwmon_data)
    (field : asus_primeb550plus_hwmon_data_type_pwm16)
    (journal : List acpi_call) (buf : List Char) (raw_high raw_low : Nat)
    (hpage : 13 ≤ PAGE_SIZE) (hhigh : raw_high ≤ 255) (hlow : raw_low ≤ 255)
    (hread1 : fw.evaluate journal devdri_data.rhwm_method
      [field.high_bank_no, field.high_idx] = acpi_result.success raw_high)
    (hread2 : fw.evaluate
      (journal ++ [⟨devdri_data.rhwm_method, [field.high_bank_no, field.high_idx],
        acpi_result.success raw_high⟩])
      devdri_data.rhwm_method [field.low_bank_no, field.low_idx]
      = acpi_result.success raw_low) :
    (asus_primeb550plus_hwmon_sysfs_val_pwm16_show PAGE_SIZE fw devdri_data field
        journal buf).buf
      = decimal (((raw_high <<< 8) ||| raw_low : Nat) : Int) ++ [newline] ∧
    (raw_high <<< 8) ||| raw_low = 256 * raw_high + raw_low ∧
    256 * raw_high + raw_low ≤ 65535 := by
  have hor : (raw_high <<< 8) ||| raw_low = 256 * raw_high + raw_low := by
    have := Nat.mul_add_lt_is_or (show raw_low < 2 ^ 8 by omega) raw_high
    rw [Nat.shiftLeft_eq, Nat.mul_comm raw_high (2 ^ 8), ← this]
  refine ⟨?_, hor, by omega⟩
  rw [pwm16_show_ok PAGE_SIZE fw devdri_data field journal buf raw_high raw_low hpage
    hhigh hlow hread1 hread2]
  rw [format_u_to_int, hor]
  have hsh : raw_high <<< 8 = 256 * raw_high := by rw [Nat.shiftLeft_eq]; omega
  rw [hsh]
  show decimal ((((256 * raw_high : Nat) : Int) + (raw_low : Int)) % 4294967296) ++ [newline]
    = decimal ((256 * raw_high + raw_low : Nat) : Int) ++ [newline]
  congr 2
  omega

/-- Witness of C5: on the descriptor of sysfan, (0x01, 0x2C) gives 300. -/
theorem pwm16_show_value_witness :
    (asus_primeb550plus_hwmon_sysfs_val_pwm16_show 4096
      (scripted_firmware [acpi_result.success 0x01, acpi_result.success 0x2C])
      ⟨0, 0, 0, 0⟩ ⟨4, 0xc0, 4, 0xc1⟩ [] []).buf = "300".toList ++ [newline] :=
  (pwm16_show_value 4096
      (scripted_firmware [acpi_result.success 0x01, acpi_result.success 0x2C])
      ⟨0, 0, 0, 0⟩ ⟨4, 0xc0, 4, 0xc1⟩ [] [] 0x01 0x2C (by decide) (by decide) (by decide)
      (by decide) (by decide)).1.trans (by decide)

theorem read_u8_cases (fw : acpi_firmware) (devdri_data : asus_primeb550plus_hwmon_data)
    (bank index : Nat) (journal : List acpi_call) (dest : Nat) :
    (∃ val, val ≤ 255 ∧
      asus_primeb550plus_hwmon_read_u8 fw devdri_data bank index journal dest
        = (0, val, journal ++ [⟨devdri_data.rhwm_method, [bank, index],
            acpi_result.success val⟩])) ∨
    (∃ r, (r = acpi_result.failure ∨ ∃ val, r = acpi_result.success val ∧ 255 < val) ∧
      asus_primeb550plus_hwmon_read_u8 fw devdri_data bank index journal dest
        = (-1, dest, journal ++ [⟨devdri_data.rhwm_method, [bank, index], r⟩])) := by
  cases h : fw.evaluate journal devdri_data.rhwm_method [bank, index] with
  | failure =>
    exact Or.inr ⟨_, Or.inl rfl, read_u8_failure fw devdri_data bank index journal dest h⟩
  | success val =>
    by_cases hv : val ≤ 255
    · exact Or.inl ⟨val, hv, read_u8_success fw devdri_data bank index journal dest val h hv⟩
    · exact Or.inr ⟨_, Or.inr ⟨val, rfl, by omega⟩,
        read_u8_too_large fw devdri_data bank index journal dest val h (by omega)⟩

theorem scnprintf_ret_nonneg (buf text : List Char) (size : Nat) :
    0 ≤ (scnprintf buf size text).1 := by
  unfold scnprintf; split <;> simp

/-! ## Failure of a register read -/

/-- C6: in a value read, for every decode kind and every field, if one of the register
reads issued by the decode fails (the invocation fails or returns more than
255) then the read returns a negative value and leaves the buffer as it was;
so a non-negative return, or a changed buffer, means that every register read
the decode issued succeeded. -/
theorem sysfs_val_show_read_failure (PAGE_SIZE : Nat) (fw : acpi_firmware)
    (beyond : Int → Option asus_primeb550plus_hwmon_chip_field)
    (dev : device) (attr : Option sensor_device_attribute)
    (journal : List acpi_call) (buf : List Char) (r : show_result)
    (hr : r = asus_primeb550plus_hwmon_sysfs_val_show PAGE_SIZE fw beyond dev attr journal buf) :
    ((∃ c ∈ r.journal.drop journal.length,
        c.result = acpi_result.failure ∨ ∃ val, c.result = acpi_result.success val ∧ 255 < val) →
      r.ret < 0 ∧ r.buf = buf) ∧
    (0 ≤ r.ret → ∀ c ∈ r.journal.drop journal.length,
      ∃ val, c.result = acpi_result.success val ∧ val ≤ 255) ∧
    (r.buf ≠ buf → ∀ c ∈ r.journal.drop journal.length,
      ∃ val, c.result = acpi_result.success val ∧ val ≤ 255) := by
  subst hr
  unfold asus_primeb550plus_hwmon_sysfs_val_show
  cases asus_primeb550plus_hwmon_chip_field_from_dev_attr beyond attr with
  | none => simp
  | some chip_field =>
    simp only []
    cases chip_field.data_address with
    | UCHAR_MUL field =>
      simp only [asus_primeb550plus_hwmon_sysfs_val_uchar_mul_show]
      rcases read_u8_cases fw dev.driver_data field.bank_no field.index_in_bank journal 0
        with ⟨v, hv, h⟩ | ⟨r, hr, h⟩
      · simp [h, hv, scnprintf_ret_nonneg]
      · rcases hr with rfl | ⟨v, rfl, hv⟩ <;> simp [h]
    | TEMP_9BIT field =>
      simp only [asus_primeb550plus_hwmon_sysfs_val_temp_9bit_show]
      rcases read_u8_cases fw dev.driver_data field.int_bank_no field.int_index_in_bank journal 0
        with ⟨v1, hv1, h1⟩ | ⟨r1, hr1, h1⟩
      · rcases read_u8_cases fw dev.driver_data field.frac_bank_no field.frac_index_in_bank
            (journal ++ [⟨dev.driver_data.rhwm_method, [field.int_bank_no, field.int_index_in_bank],
              acpi_result.success v1⟩]) 0
          with ⟨v2, hv2, h2⟩ | ⟨r2, hr2, h2⟩
        · simp [h1, h2, hv1, hv2, scnprintf_ret_nonneg]
        · rcases hr2 with rfl | ⟨v2, rfl, hv2⟩ <;> simp [h1, h2, hv1]
      · rcases hr1 with rfl | ⟨v1, rfl, hv1⟩ <;> simp [h1]
    | TEMP_8BIT field =>
      simp only [asus_primeb550plus_hwmon_sysfs_val_temp_8bit_show]
      rcases read_u8_cases fw dev.driver_data field.bank_no field.index_in_bank journal 0
        with ⟨v, hv, h⟩ | ⟨r, hr, h⟩
      · simp [h, hv, scnprintf_ret_nonneg]
      · rcases hr with rfl | ⟨v, rfl, hv⟩ <;> simp [h]
    | TEMP_14BIT field =>
      simp only [asus_primeb550plus_hwmon_sysfs_val_temp_14bit_show]
      rcases read_u8_cases fw dev.driver_data field.int_bank_no field.int_idx journal 0
        with ⟨v1, hv1, h1⟩ | ⟨r1, hr1, h1⟩
      · rcases read_u8_cases fw dev.driver_data field.frac_bank_no field.frac_idx
            (journal ++ [⟨dev.driver_data.rhwm_method, [field.int_bank_no, field.int_idx],
              acpi_result.success v1⟩]) 0
          with ⟨v2, hv2, h2⟩ | ⟨r2, hr2, h2⟩
        · simp [h1, h2, hv1, hv2, scnprintf_ret_nonneg]
        · rcases hr2 with rfl | ⟨v2, rfl, hv2⟩ <;> simp [h1, h2, hv1]
      · rcases hr1 with rfl | ⟨v1, rfl, hv1⟩ <;> simp [h1]
    | PWM16 field =>
      simp only [asus_primeb550plus_hwmon_sysfs_val_pwm16_show]
      rcases read_u8_cases fw dev.driver_data field.high_bank_no field.high_idx journal 0
        with ⟨v1, hv1, h1⟩ | ⟨r1, hr1, h1⟩
      · rcases read_u8_cases fw dev.driver_data field.low_bank_no field.low_idx
            (journal ++ [⟨dev.driver_data.rhwm_method, [field.high_bank_no, field.high_idx],
              acpi_result.success v1⟩]) 0
          with ⟨v2, hv2, h2⟩ | ⟨r2, hr2, h2⟩
        · simp [h1, h2, hv1, hv2, scnprintf_ret_nonneg]
        · rcases hr2 with rfl | ⟨v2, rfl, hv2⟩ <;> simp [h1, h2, hv1]
      · rcases hr1 with rfl | ⟨v1, rfl, hv1⟩ <;> simp [h1]


/-- Witness of C6: on the attribute temp1_input the integer register returns 25 and the
read of the fraction register fails; the value read returns a negative value
and the buffer keeps its old content. -/
theorem sysfs_val_show_read_failure_witness :
    (asus_primeb550plus_hwmon_sysfs_val_show 4096
      (scripted_firmware [acpi_result.success 25, acpi_result.failure]) (fun _ => none)
      ⟨⟨0, 0, 0, 7⟩⟩ (some ⟨"temp1_input", .asus_primeb550plus_hwmon_sysfs_val_show, 16⟩)
      [] "old".toList).ret < 0 ∧
    (asus_primeb550plus_hwmon_sysfs_val_show 4096
      (scripted_firmware [acpi_result.success 25, acpi_result.failure]) (fun _ => none)
      ⟨⟨0, 0, 0, 7⟩⟩ (some ⟨"temp1_input", .asus_primeb550plus_hwmon_sysfs_val_show, 16⟩)
      [] "old".toList).buf = "old".toList :=
  (sysfs_val_show_read_failure 4096
    (scripted_firmware [acpi_result.success 25, acpi_result.failure]) (fun _ => none)
    ⟨⟨0, 0, 0, 7⟩⟩ (some ⟨"temp1_input", .asus_primeb550plus_hwmon_sysfs_val_show, 16⟩)
    [] "old".toList _ rfl).1
    ⟨⟨7, [0, 0x74], acpi_result.failure⟩, by decide, Or.inl rfl⟩

/-! ## Registry lookup -/

theorem sysfs_val_show_of_none (PAGE_SIZE : Nat) (fw : acpi_firmware)
    (beyond : Int → Option asus_primeb550plus_hwmon_chip_field)
    (dev : device) (attr : Option sensor_device_attribute)
    (journal : List acpi_call) (buf : List Char)
    (h : asus_primeb550plus_hwmon_chip_field_from_dev_attr beyond attr = none) :
    asus_primeb550plus_hwmon_sysfs_val_show PAGE_SIZE fw beyond dev attr journal buf
      = ⟨-1, journal, buf⟩ := by
  simp [asus_primeb550plus_hwmon_sysfs_val_show, h]

theorem field_list_max_eq : ASUS_B550PLUS_HWMON_FIELD_LIST_MAX = 43 := by decide

/-- C8 (as amended): the lookup applies no range check, so for a field id outside
0 .. ASUS_B550PLUS_HWMON_FIELD_LIST_MAX-1 it yields the word lying beyond the
array; when that word is null the value read returns -1, issues no register
read and leaves the buffer as it was. -/
theorem sysfs_val_show_out_of_range (PAGE_SIZE : Nat) (fw : acpi_firmware)
    (beyond : Int → Option asus_primeb550plus_hwmon_chip_field)
    (dev : device) (s_dev_attr : sensor_device_attribute)
    (journal : List acpi_call) (buf : List Char)
    (hrange : s_dev_attr.index < 0 ∨
      (ASUS_B550PLUS_HWMON_FIELD_LIST_MAX : Int) ≤ s_dev_attr.index) :
    asus_primeb550plus_hwmon_chip_field_from_dev_attr beyond (some s_dev_attr)
      = beyond s_dev_attr.index ∧
    (beyond s_dev_attr.index = none →
      asus_primeb550plus_hwmon_sysfs_val_show PAGE_SIZE fw beyond dev (some s_dev_attr)
        journal buf = ⟨-1, journal, buf⟩) := by
  have hl : asus_primeb550plus_hwmon_chip_field_from_dev_attr beyond (some s_dev_attr)
      = beyond s_dev_attr.index := by
    have hn : ¬ (0 ≤ s_dev_attr.index ∧
        s_dev_attr.index < (ASUS_B550PLUS_HWMON_FIELD_LIST_MAX : Int)) := by omega
    simp only [asus_primeb550plus_hwmon_chip_field_from_dev_attr,
      asus_primeb550plus_hwmon_chip_fields, hn, if_false]
  refine ⟨hl, fun hb => ?_⟩
  exact sysfs_val_show_of_none PAGE_SIZE fw beyond dev (some s_dev_attr) journal buf
    (hl.trans hb)

/-- Witness of C8 (as amended): the id 43 with null words beyond the array; the value read
returns -1 and the journal stays empty. -/
theorem sysfs_val_show_out_of_range_witness :
    asus_primeb550plus_hwmon_sysfs_val_show 4096
      (scripted_firmware [acpi_result.success 10]) (fun _ => none) ⟨⟨0, 0, 0, 7⟩⟩
      (some ⟨"x_input", .asus_primeb550plus_hwmon_sysfs_val_show, 43⟩) [] []
      = ⟨-1, [], []⟩ :=
  (sysfs_val_show_out_of_range 4096 (scripted_firmware [acpi_result.success 10])
    (fun _ => none) ⟨⟨0, 0, 0, 7⟩⟩
    ⟨"x_input", .asus_primeb550plus_hwmon_sysfs_val_show, 43⟩ [] [] (by decide)).2 rfl

/-- Counterexample to C8 as stated: the id 43 lies outside the valid range; when the word
beyond the array points to a descriptor (here a UcharMul one), the lookup
yields that descriptor and the value read issues a register read and succeeds. -/
theorem sysfs_val_show_out_of_range_counterexample :
    ¬ ((43 : Int) < (ASUS_B550PLUS_HWMON_FIELD_LIST_MAX : Int)) ∧
    asus_primeb550plus_hwmon_chip_field_from_dev_attr
      (fun i => if i = 43 then some (ASUS_B550PLUS_HWMON_FIELD_UCHAR_MUL "x" 4 0x80 8) else none)
      (some ⟨"x_input", .asus_primeb550plus_hwmon_sysfs_val_show, 43⟩)
      = some (ASUS_B550PLUS_HWMON_FIELD_UCHAR_MUL "x" 4 0x80 8) ∧
    asus_primeb550plus_hwmon_sysfs_val_show 4096
      (scripted_firmware [acpi_result.success 10])
      (fun i => if i = 43 then some (ASUS_B550PLUS_HWMON_FIELD_UCHAR_MUL "x" 4 0x80 8) else none)
      ⟨⟨0, 0, 0, 7⟩⟩
      (some ⟨"x_input", .asus_primeb550plus_hwmon_sysfs_val_show, 43⟩) [] []
      = ⟨3, [⟨7, [4, 0x80], acpi_result.success 10⟩], "80".toList ++ [newline]⟩ := by
  decide


/-! ## Population of the registry -/

set_option maxRecDepth 100000 in
theorem attrs_eq_sensor_dev_attr : asus_primeb550plus_hwmon_attrs = sensor_dev_attr := by
  decide

theorem sensor_dev_attr_not_cpu_temp : ∀ a ∈ sensor_dev_attr, a.index ≠ 29 := by
  decide

theorem designated_populated :
    ∀ i : Nat, i < 43 → i ≠ 29 →
      (designated_element asus_primeb550plus_hwmon_chip_fields_init i).isSome = true := by
  decide

theorem chip_fields_in_range (beyond : Int → Option asus_primeb550plus_hwmon_chip_field)
    (i : Nat) (h : i < 43) :
    asus_primeb550plus_hwmon_chip_fields beyond i
      = designated_element asus_primeb550plus_hwmon_chip_fields_init i := by
  have hr : 0 ≤ (i : Int) ∧ (i : Int) < (ASUS_B550PLUS_HWMON_FIELD_LIST_MAX : Int) := by
    rw [field_list_max_eq]; omega
  simp only [asus_primeb550plus_hwmon_chip_fields, hr, and_self, if_true, Int.toNat_ofNat]

/-- C9 (as amended): for every field id i with 0 <= i < ASUS_B550PLUS_HWMON_FIELD_LIST_MAX
other than ASUS_B550PLUS_HWMON_FIELD_LIST_CPU_TEMP, the entry
asus_primeb550plus_hwmon_chip_fields[i] is a present descriptor; the entry of
CPU_TEMP is null, and no sensor attribute of the driver carries that id. -/
theorem chip_fields_populated_except_cpu_temp
    (beyond : Int → Option asus_primeb550plus_hwmon_chip_field) (i : Nat)
    (hlt : i < ASUS_B550PLUS_HWMON_FIELD_LIST_MAX)
    (hne : i ≠ asus_primeb550plus_hwmon_field_list.CPU_TEMP.value) :
    (asus_primeb550plus_hwmon_chip_fields beyond i).isSome = true ∧
    asus_primeb550plus_hwmon_chip_fields beyond
      asus_primeb550plus_hwmon_field_list.CPU_TEMP.value = none ∧
    (∀ a ∈ asus_primeb550plus_hwmon_attrs,
      a.index ≠ asus_primeb550plus_hwmon_field_list.CPU_TEMP.value) := by
  have hmax := field_list_max_eq
  have hcpu : asus_primeb550plus_hwmon_field_list.CPU_TEMP.value = 29 := by decide
  rw [hcpu] at hne ⊢
  refine ⟨?_, ?_, by rw [attrs_eq_sensor_dev_attr]; exact sensor_dev_attr_not_cpu_temp⟩
  · rw [chip_fields_in_range beyond i (by omega)]
    exact designated_populated i (by omega) hne
  · rw [chip_fields_in_range beyond 29 (by omega)]
    decide

/-- Witness of C9 (as amended): the entry of CPUVCORE (id 0) is present. -/
theorem chip_fields_populated_except_cpu_temp_witness :
    (asus_primeb550plus_hwmon_chip_fields (fun _ => none) (0 : Nat)).isSome = true :=
  (chip_fields_populated_except_cpu_temp (fun _ => none) 0 (by decide) (by decide)).1

/-- Counterexample to C9 as stated: the enumerator ASUS_B550PLUS_HWMON_FIELD_LIST_CPU_TEMP has
the value 29, below ASUS_B550PLUS_HWMON_FIELD_LIST_MAX = 43, and no initializer
designates it: its entry of the registry is null. -/
theorem chip_fields_populated_counterexample :
    asus_primeb550plus_hwmon_field_list.CPU_TEMP.value = 29 ∧
    29 < ASUS_B550PLUS_HWMON_FIELD_LIST_MAX ∧
    designated_element asus_primeb550plus_hwmon_chip_fields_init 29 = none ∧
    asus_primeb550plus_hwmon_chip_fields (fun _ => none) 29 = none := by
  decide

/-! ## Exposed attributes and the registry -/

set_option maxRecDepth 100000 in
theorem sensor_dev_attr_designated :
    ∀ a ∈ sensor_dev_attr,
      0 ≤ a.index ∧ a.index < 43 ∧
      (designated_element asus_primeb550plus_hwmon_chip_fields_init a.index.toNat).isSome
        = true := by
  decide

set_option maxRecDepth 100000 in
theorem sensor_dev_attr_names :
    sensor_dev_attr.map (fun a => a.name)
      = ((List.range 16).map (fun n => "in" ++ toString n)
          ++ (List.range 19).map (fun n => "temp" ++ toString (n + 1))
          ++ (List.range 7).map (fun n => "fan" ++ toString (n + 1))).flatMap
        (fun c => [c ++ "_input", c ++ "_label"]) := by
  decide

theorem strscpy_ret_ne (dest src : List Char) (count : Nat) :
    (strscpy dest src count).1 ≠ -1 := by
  unfold strscpy E2BIG
  split_ifs
  · show (-7 : Int) ≠ -1
    decide
  · show ((src.length : Nat) : Int) ≠ -1
    omega
  · show (-7 : Int) ≠ -1
    decide

/-- C10: every sensor attribute the driver declares and registers (in0..in15,
temp1..temp19, fan1..fan7, each with _input and _label) carries a field index
within 0 .. ASUS_B550PLUS_HWMON_FIELD_LIST_MAX-1 for which the registry lookup
yields a present descriptor, whatever lies beyond the array; so neither the
value read nor the label read of an exposed channel takes the branch for an
absent descriptor, and a label read never returns the -1 of that branch. -/
theorem exposed_attrs_have_descriptor
    (beyond : Int → Option asus_primeb550plus_hwmon_chip_field) :
    (∀ a ∈ asus_primeb550plus_hwmon_attrs,
      0 ≤ a.index ∧ a.index < (ASUS_B550PLUS_HWMON_FIELD_LIST_MAX : Int) ∧
      (asus_primeb550plus_hwmon_chip_field_from_dev_attr beyond (some a)).isSome = true ∧
      ∀ (PAGE_SIZE : Nat) (journal : List acpi_call) (buf : List Char),
        (asus_primeb550plus_hwmon_sysfs_label_show PAGE_SIZE beyond (some a)
          journal buf).ret ≠ -1) ∧
    asus_primeb550plus_hwmon_attrs = sensor_dev_attr ∧
    asus_primeb550plus_hwmon_attrs.map (fun a => a.name)
      = ((List.range 16).map (fun n => "in" ++ toString n)
          ++ (List.range 19).map (fun n => "temp" ++ toString (n + 1))
          ++ (List.range 7).map (fun n => "fan" ++ toString (n + 1))).flatMap
        (fun c => [c ++ "_input", c ++ "_label"]) := by
  refine ⟨fun a ha => ?_, attrs_eq_sensor_dev_attr,
    by rw [attrs_eq_sensor_dev_attr]; exact sensor_dev_attr_names⟩
  obtain ⟨h0, h1, h2⟩ := sensor_dev_attr_designated a (attrs_eq_sensor_dev_attr ▸ ha)
  have hi : a.index = ((a.index.toNat : Nat) : Int) := by omega
  have hsome : (asus_primeb550plus_hwmon_chip_field_from_dev_attr beyond (some a)).isSome
      = true := by
    unfold asus_primeb550plus_hwmon_chip_field_from_dev_attr
    simp only []
    rw [hi, chip_fields_in_range beyond a.index.toNat (by omega)]
    exact h2
  rw [field_list_max_eq]
  refine ⟨h0, by omega, hsome, fun PAGE_SIZE journal buf => ?_⟩
  obtain ⟨chip_field, hf⟩ := Option.isSome_iff_exists.mp hsome
  simp only [asus_primeb550plus_hwmon_sysfs_label_show, hf]
  exact strscpy_ret_ne buf chip_field.label PAGE_SIZE

/-! ## Platform acceptance -/

theorem strcmp_eq_zero (a b : String) : strcmp a b = 0 ↔ a = b := by
  unfold strcmp
  by_cases h : a = b
  · simp [h]
  · simp only [h, if_false, iff_false]
    split <;> decide

theorem check_dmi_eq (dmi_ident : dmi_field → Option String) :
    asus_primeb550plus_hwmon_check_dmi dmi_ident
      = if dmi_ident dmi_field.DMI_BOARD_VENDOR = some "ASUSTeK COMPUTER INC." ∧
          dmi_ident dmi_field.DMI_BOARD_NAME = some "PRIME B550-PLUS" ∧
          dmi_ident dmi_field.DMI_BIOS_VERSION = some "2006" then 0 else -ENODEV := by
  simp only [asus_primeb550plus_hwmon_check_dmi, asus_accepted_dmis, dmi_check_system,
    dmi_is_end_of_table, dmi_matches, DMI_EXACT_MATCH]
  cases h1 : dmi_ident dmi_field.DMI_BOARD_VENDOR <;>
  cases h2 : dmi_ident dmi_field.DMI_BOARD_NAME <;>
  cases h3 : dmi_ident dmi_field.DMI_BIOS_VERSION <;>
  simp [strcmp_eq_zero]

/-- C11: the platform check returns 0 exactly when the board vendor, the board name and
the BIOS version of the machine are all present and equal to the three strings
of the accepted entry (ASUSTeK COMPUTER INC., PRIME B550-PLUS, 2006), which is
the only entry of the accepted list before its closing one; a machine that
differs in at least one of the three is rejected with -ENODEV. -/
theorem check_dmi_accepts_iff (dmi_ident : dmi_field → Option String) :
    (asus_primeb550plus_hwmon_check_dmi dmi_ident = 0 ↔
      dmi_ident dmi_field.DMI_BOARD_VENDOR = some "ASUSTeK COMPUTER INC." ∧
      dmi_ident dmi_field.DMI_BOARD_NAME = some "PRIME B550-PLUS" ∧
      dmi_ident dmi_field.DMI_BIOS_VERSION = some "2006") ∧
    (asus_primeb550plus_hwmon_check_dmi dmi_ident = 0 ↔
      ∃ d ∈ asus_accepted_dmis, dmi_is_end_of_table d = false ∧
        ∀ m ∈ d.matches_, dmi_ident m.slot = some m.substr) ∧
    (¬ (dmi_ident dmi_field.DMI_BOARD_VENDOR = some "ASUSTeK COMPUTER INC." ∧
        dmi_ident dmi_field.DMI_BOARD_NAME = some "PRIME B550-PLUS" ∧
        dmi_ident dmi_field.DMI_BIOS_VERSION = some "2006") →
      asus_primeb550plus_hwmon_check_dmi dmi_ident = -ENODEV) := by
  have key := check_dmi_eq dmi_ident
  have hne : -ENODEV ≠ (0 : Int) := by decide
  refine ⟨?_, ?_, ?_⟩
  · rw [key]; split_ifs with h <;> simp [h, hne]
  · rw [key]
    simp only [asus_accepted_dmis, dmi_is_end_of_table, DMI_EXACT_MATCH]
    split_ifs with h <;> simp [h, hne]
  · intro h; rw [key]; simp [h]

/-- Witness of C11: a machine with the three accepted strings is accepted; the same machine
with the BIOS version 2007 is rejected with -ENODEV. -/
theorem check_dmi_accepts_iff_witness :
    asus_primeb550plus_hwmon_check_dmi (fun slot =>
      match slot with
      | .DMI_BOARD_VENDOR => some "ASUSTeK COMPUTER INC."
      | .DMI_BOARD_NAME => some "PRIME B550-PLUS"
      | .DMI_BIOS_VERSION => some "2006"
      | .DMI_NONE => none) = 0 ∧
    asus_primeb550plus_hwmon_check_dmi (fun slot =>
      match slot with
      | .DMI_BOARD_VENDOR => some "ASUSTeK COMPUTER INC."
      | .DMI_BOARD_NAME => some "PRIME B550-PLUS"
      | .DMI_BIOS_VERSION => some "2007"
      | .DMI_NONE => none) = -ENODEV :=
  ⟨(check_dmi_accepts_iff _).1.mpr ⟨rfl, rfl, rfl⟩,
   (check_dmi_accepts_iff _).2.2 (by decide)⟩

/-! ## Chip identification -/

theorem read_u8_eval_cases (fw : acpi_firmware) (devdri_data : asus_primeb550plus_hwmon_data)
    (bank index : Nat) (journal : List acpi_call) (dest : Nat) :
    (∃ val, val ≤ 255 ∧
      fw.evaluate journal devdri_data.rhwm_method [bank, index] = acpi_result.success val ∧
      asus_primeb550plus_hwmon_read_u8 fw devdri_data bank index journal dest
        = (0, val, journal ++ [⟨devdri_data.rhwm_method, [bank, index],
            acpi_result.success val⟩])) ∨
    (∃ r, (r = acpi_result.failure ∨ ∃ val, r = acpi_result.success val ∧ 255 < val) ∧
      fw.evaluate journal devdri_data.rhwm_method [bank, index] = r ∧
      asus_primeb550plus_hwmon_read_u8 fw devdri_data bank index journal dest
        = (-1, dest, journal ++ [⟨devdri_data.rhwm_method, [bank, index], r⟩])) := by
  cases h : fw.evaluate journal devdri_data.rhwm_method [bank, index] with
  | failure =>
    exact Or.inr ⟨_, Or.inl rfl, rfl, read_u8_failure fw devdri_data bank index journal dest h⟩
  | success val =>
    by_cases hv : val ≤ 255
    · exact Or.inl ⟨val, hv, rfl,
        read_u8_success fw devdri_data bank index journal dest val h hv⟩
    · exact Or.inr ⟨_, Or.inr ⟨val, rfl, by omega⟩, rfl,
        read_u8_too_large fw devdri_data bank index journal dest val h (by omega)⟩

theorem check_chip_cases (fw : acpi_firmware)
    (devdri_data : asus_primeb550plus_hwmon_data) (journal : List acpi_call) :
    (fw.evaluate journal devdri_data.rhwm_method [0, 0x4f] = acpi_result.success 0x5c ∧
      fw.evaluate (journal ++ [⟨devdri_data.rhwm_method, [0, 0x4f], acpi_result.success 0x5c⟩])
        devdri_data.rhwm_method [0, 0x58] = acpi_result.success 0xc1 ∧
      asus_primeb550plus_hwmon_check_chip fw devdri_data journal
        = (0, journal ++ [⟨devdri_data.rhwm_method, [0, 0x4f], acpi_result.success 0x5c⟩,
            ⟨devdri_data.rhwm_method, [0, 0x58], acpi_result.success 0xc1⟩])) ∨
    (¬ (fw.evaluate journal devdri_data.rhwm_method [0, 0x4f] = acpi_result.success 0x5c ∧
        fw.evaluate (journal ++ [⟨devdri_data.rhwm_method, [0, 0x4f],
            acpi_result.success 0x5c⟩])
          devdri_data.rhwm_method [0, 0x58] = acpi_result.success 0xc1) ∧
      (asus_primeb550plus_hwmon_check_chip fw devdri_data journal).1 = 1 ∧
      ∃ calls, (asus_primeb550plus_hwmon_check_chip fw devdri_data journal).2
          = journal ++ calls ∧
        (calls.map (fun c => c.args) = [[0, 0x4f]] ∨
          calls.map (fun c => c.args) = [[0, 0x4f], [0, 0x58]])) := by
  simp only [asus_primeb550plus_hwmon_check_chip, asus_primeb550plus_hwmon_supported_superios,
    check_chip_loop]
  rcases read_u8_eval_cases fw devdri_data 0 0x4f journal 0
    with ⟨v1, hv1, e1, h1⟩ | ⟨r1, hr1, e1, h1⟩
  · rcases read_u8_eval_cases fw devdri_data 0 0x58
        (journal ++ [⟨devdri_data.rhwm_method, [0, 0x4f], acpi_result.success v1⟩]) 0
      with ⟨v2, hv2, e2, h2⟩ | ⟨r2, hr2, e2, h2⟩
    · by_cases hv : v1 = 0x5c
      · subst hv
        by_cases hw : v2 = 0xc1
        · subst hw
          simp [h1, h2, e1, e2]
        · refine Or.inr ⟨by simp [e1, e2, hw], by simp [h1, h2, hw],
            [⟨devdri_data.rhwm_method, [0, 0x4f], acpi_result.success 0x5c⟩,
            ⟨devdri_data.rhwm_method, [0, 0x58], acpi_result.success v2⟩], ?_, Or.inr rfl⟩
          simp [h1, h2]
      · refine Or.inr ⟨by simp [e1, hv], by simp [h1, h2, hv],
          [⟨devdri_data.rhwm_method, [0, 0x4f], acpi_result.success v1⟩,
            ⟨devdri_data.rhwm_method, [0, 0x58], acpi_result.success v2⟩], ?_, Or.inr rfl⟩
        simp [h1, h2]
    · refine Or.inr ⟨?_, by simp [h1, h2],
        [⟨devdri_data.rhwm_method, [0, 0x4f], acpi_result.success v1⟩,
            ⟨devdri_data.rhwm_method, [0, 0x58], r2⟩], ?_, Or.inr rfl⟩
      · rintro ⟨a, b⟩
        rw [e1] at a
        injection a with a
        subst a
        rw [e2] at b
        rcases hr2 with rfl | ⟨v2, rfl, hv2⟩
        · cases b
        · injection b with b; omega
      · simp [h1, h2]
  · refine Or.inr ⟨?_, by simp [h1],
      [⟨devdri_data.rhwm_method, [0, 0x4f], r1⟩], ?_, Or.inl rfl⟩
    · rintro ⟨a, -⟩
      rw [e1] at a
      rcases hr1 with rfl | ⟨v1, rfl, hv1⟩
      · cases a
      · injection a with a; omega
    · simp [h1]

/-- C12: `asus_primeb550plus_hwmon_check_chip` reads register (0, 0x4f) and then, when
that read succeeded, register (0, 0x58); it returns 0 exactly when both reads
succeed and give the pair (0x5c, 0xc1), the only entry of the accepted-chip
list, and returns 1 after a failed read or for any other pair. -/
theorem check_chip_contract (fw : acpi_firmware)
    (devdri_data : asus_primeb550plus_hwmon_data) (journal : List acpi_call) :
    ((asus_primeb550plus_hwmon_check_chip fw devdri_data journal).1 = 0 ↔
      fw.evaluate journal devdri_data.rhwm_method [0, 0x4f] = acpi_result.success 0x5c ∧
      fw.evaluate (journal ++ [⟨devdri_data.rhwm_method, [0, 0x4f], acpi_result.success 0x5c⟩])
        devdri_data.rhwm_method [0, 0x58] = acpi_result.success 0xc1) ∧
    ((asus_primeb550plus_hwmon_check_chip fw devdri_data journal).1 ≠ 0 →
      (asus_primeb550plus_hwmon_check_chip fw devdri_data journal).1 = 1) ∧
    ((asus_primeb550plus_hwmon_check_chip fw devdri_data journal).1 = 0 ↔
      ∃ chip ∈ asus_primeb550plus_hwmon_supported_superios,
        fw.evaluate journal devdri_data.rhwm_method [0, 0x4f]
          = acpi_result.success chip.vendor_id_high ∧
        fw.evaluate (journal ++ [⟨devdri_data.rhwm_method, [0, 0x4f],
            acpi_result.success chip.vendor_id_high⟩])
          devdri_data.rhwm_method [0, 0x58] = acpi_result.success chip.chip_id) ∧
    (((asus_primeb550plus_hwmon_check_chip fw devdri_data journal).2.drop journal.length).map
        (fun c => c.args) = [[0, 0x4f]] ∨
      ((asus_primeb550plus_hwmon_check_chip fw devdri_data journal).2.drop journal.length).map
        (fun c => c.args) = [[0, 0x4f], [0, 0x58]]) := by
  rcases check_chip_cases fw devdri_data journal with ⟨a, b, h⟩ | ⟨hn, h1, calls, hc, ha⟩
  · rw [h]
    simp [a, b, asus_primeb550plus_hwmon_supported_superios]
  · rw [hc, h1]
    simp only [asus_primeb550plus_hwmon_supported_superios, List.mem_singleton,
      exists_eq_left, List.drop_left]
    simp [hn, ha]

/-- Witness of C12: probe bytes (0x5c, 0xc1) are accepted; a failing second read gives 1. -/
theorem check_chip_contract_witness :
    (asus_primeb550plus_hwmon_check_chip
      (scripted_firmware [acpi_result.success 0x5c, acpi_result.success 0xc1])
      ⟨0, 0, 0, 7⟩ []).1 = 0 ∧
    (asus_primeb550plus_hwmon_check_chip
      (scripted_firmware [acpi_result.success 0x5c, acpi_result.failure])
      ⟨0, 0, 0, 7⟩ []).1 = 1 :=
  ⟨(check_chip_contract
      (scripted_firmware [acpi_result.success 0x5c, acpi_result.success 0xc1])
      ⟨0, 0, 0, 7⟩ []).1.mpr ⟨by decide, by decide⟩,
   (check_chip_contract
      (scripted_firmware [acpi_result.success 0x5c, acpi_result.failure])
      ⟨0, 0, 0, 7⟩ []).2.1 (by decide)⟩

/-! ## Binding sequence -/

theorem get_method_handles_cases (ks : kernel_services)
    (devdri_data : asus_primeb550plus_hwmon_data) :
    (∃ h, ks.acpi_get_handle devdri_data.acpi_dev_handle "RHWM" = some h ∧
      ks.acpi_get_type h = some ACPI_TYPE_METHOD ∧
      asus_primeb550plus_hwmon_get_method_handles ks devdri_data
        = (0, { devdri_data with rhwm_method := h })) ∨
    (¬ (∃ h, ks.acpi_get_handle devdri_data.acpi_dev_handle "RHWM" = some h ∧
        ks.acpi_get_type h = some ACPI_TYPE_METHOD) ∧
      (asus_primeb550plus_hwmon_get_method_handles ks devdri_data).1 ≠ 0) := by
  unfold asus_primeb550plus_hwmon_get_method_handles
  cases h1 : ks.acpi_get_handle devdri_data.acpi_dev_handle "RHWM" with
  | none => right; simp [ENODEV]
  | some h =>
    cases h2 : ks.acpi_get_type h with
    | none => right; simp [h2, EIO]
    | some t =>
      by_cases ht : t = ACPI_TYPE_METHOD
      · left; subst ht; exact ⟨h, rfl, h2, by simp [h2]⟩
      · right; simp [h2, ht, ENODEV]

theorem add_gate_fails (ks : kernel_services) (fw : acpi_firmware)
    (device : acpi_device) (journal : List acpi_call)
    (h : ¬ ((ks.dmi_ident dmi_field.DMI_BOARD_VENDOR = some "ASUSTeK COMPUTER INC." ∧
        ks.dmi_ident dmi_field.DMI_BOARD_NAME = some "PRIME B550-PLUS" ∧
        ks.dmi_ident dmi_field.DMI_BIOS_VERSION = some "2006") ∧
      device.uid = "ASUSWMI" ∧
      ks.devm_kzalloc ≠ none ∧
      ∃ m, ks.acpi_get_handle device.handle "RHWM" = some m ∧
        ks.acpi_get_type m = some ACPI_TYPE_METHOD)) :
    (asus_primeb550plus_hwmon_add ks fw device journal).err ≠ 0 ∧
    (asus_primeb550plus_hwmon_add ks fw device journal).journal = journal ∧
    (asus_primeb550plus_hwmon_add ks fw device journal).drvdata = none ∧
    (asus_primeb550plus_hwmon_add ks fw device journal).hwmon_device = none := by
  unfold asus_primeb550plus_hwmon_add
  rw [check_dmi_eq]
  by_cases hd : ks.dmi_ident dmi_field.DMI_BOARD_VENDOR = some "ASUSTeK COMPUTER INC." ∧
      ks.dmi_ident dmi_field.DMI_BOARD_NAME = some "PRIME B550-PLUS" ∧
      ks.dmi_ident dmi_field.DMI_BIOS_VERSION = some "2006"
  · simp only [hd, and_self, if_true, ne_eq, not_true_eq_false, if_false]
    by_cases hu : device.uid = "ASUSWMI"
    · have hs : strcmp "ASUSWMI" device.uid = 0 := (strcmp_eq_zero _ _).2 hu.symm
      simp only [hs, not_true_eq_false, if_false]
      cases hk : ks.devm_kzalloc with
      | none => simp [ENOMEM]
      | some p =>
        simp only []
        rcases get_method_handles_cases ks
            { acpi_dev := device.address, device := 0, acpi_dev_handle := device.handle,
              rhwm_method := 0 }
          with ⟨m, g1, g2, g3⟩ | ⟨gn, ge⟩
        · exact absurd ⟨hd, hu, by simp [hk], m, g1, g2⟩ h
        · simp [ge]
    · have hs : strcmp "ASUSWMI" device.uid ≠ 0 :=
        fun e => hu ((strcmp_eq_zero _ _).1 e).symm
      simp [hs, ENODEV]
  · simp [hd, ENODEV]

theorem add_gate_passes (ks : kernel_services) (fw : acpi_firmware)
    (device : acpi_device) (journal : List acpi_call) (m : Nat)
    (hd : ks.dmi_ident dmi_field.DMI_BOARD_VENDOR = some "ASUSTeK COMPUTER INC." ∧
      ks.dmi_ident dmi_field.DMI_BOARD_NAME = some "PRIME B550-PLUS" ∧
      ks.dmi_ident dmi_field.DMI_BIOS_VERSION = some "2006")
    (hu : device.uid = "ASUSWMI")
    (hk : ks.devm_kzalloc ≠ none)
    (g1 : ks.acpi_get_handle device.handle "RHWM" = some m)
    (g2 : ks.acpi_get_type m = some ACPI_TYPE_METHOD) :
    asus_primeb550plus_hwmon_add ks fw device journal
      = if (asus_primeb550plus_hwmon_check_chip fw ⟨device.address, 0, device.handle, m⟩
            journal).1 ≠ 0 then
          ⟨(asus_primeb550plus_hwmon_check_chip fw ⟨device.address, 0, device.handle, m⟩
              journal).1,
            (asus_primeb550plus_hwmon_check_chip fw ⟨device.address, 0, device.handle, m⟩
              journal).2, none, none⟩
        else
          ⟨PTR_ERR_OR_ZERO ks.devm_hwmon_device_register_with_groups,
            (asus_primeb550plus_hwmon_check_chip fw ⟨device.address, 0, device.handle, m⟩
              journal).2,
            some ⟨device.address, ks.devm_hwmon_device_register_with_groups, device.handle, m⟩,
            some ks.devm_hwmon_device_register_with_groups⟩ := by
  unfold asus_primeb550plus_hwmon_add
  rw [check_dmi_eq]
  have hs : strcmp "ASUSWMI" device.uid = 0 := (strcmp_eq_zero _ _).2 hu.symm
  simp only [hd, and_self, if_true, ne_eq, not_true_eq_false, if_false, hs]
  cases hk2 : ks.devm_kzalloc with
  | none => exact absurd hk2 hk
  | some p =>
    simp [asus_primeb550plus_hwmon_get_method_handles, g1, g2]


/-- C13: in `asus_primeb550plus_hwmon_add` a register read is issued only when the
platform fingerprint is the accepted one, the device identity string is exactly
ASUSWMI, and the method RHWM was resolved and found to be of method type; when
one of these checks fails, add returns a non-zero value and has issued no
register read. -/
theorem add_reads_only_after_checks (ks : kernel_services) (fw : acpi_firmware)
    (device : acpi_device) (journal : List acpi_call) :
    ((asus_primeb550plus_hwmon_add ks fw device journal).journal ≠ journal →
      (ks.dmi_ident dmi_field.DMI_BOARD_VENDOR = some "ASUSTeK COMPUTER INC." ∧
        ks.dmi_ident dmi_field.DMI_BOARD_NAME = some "PRIME B550-PLUS" ∧
        ks.dmi_ident dmi_field.DMI_BIOS_VERSION = some "2006") ∧
      device.uid = "ASUSWMI" ∧
      ∃ m, ks.acpi_get_handle device.handle "RHWM" = some m ∧
        ks.acpi_get_type m = some ACPI_TYPE_METHOD) ∧
    (¬ ((ks.dmi_ident dmi_field.DMI_BOARD_VENDOR = some "ASUSTeK COMPUTER INC." ∧
        ks.dmi_ident dmi_field.DMI_BOARD_NAME = some "PRIME B550-PLUS" ∧
        ks.dmi_ident dmi_field.DMI_BIOS_VERSION = some "2006") ∧
      device.uid = "ASUSWMI" ∧
      ∃ m, ks.acpi_get_handle device.handle "RHWM" = some m ∧
        ks.acpi_get_type m = some ACPI_TYPE_METHOD) →
      (asus_primeb550plus_hwmon_add ks fw device journal).err ≠ 0 ∧
      (asus_primeb550plus_hwmon_add ks fw device journal).journal = journal) := by
  have key : ¬ ((ks.dmi_ident dmi_field.DMI_BOARD_VENDOR = some "ASUSTeK COMPUTER INC." ∧
        ks.dmi_ident dmi_field.DMI_BOARD_NAME = some "PRIME B550-PLUS" ∧
        ks.dmi_ident dmi_field.DMI_BIOS_VERSION = some "2006") ∧
      device.uid = "ASUSWMI" ∧
      ∃ m, ks.acpi_get_handle device.handle "RHWM" = some m ∧
        ks.acpi_get_type m = some ACPI_TYPE_METHOD) →
      (asus_primeb550plus_hwmon_add ks fw device journal).err ≠ 0 ∧
      (asus_primeb550plus_hwmon_add ks fw device journal).journal = journal := by
    intro hn
    have h := add_gate_fails ks fw device journal (fun hg => hn ⟨hg.1, hg.2.1, hg.2.2.2⟩)
    exact ⟨h.1, h.2.1⟩
  refine ⟨fun hj => ?_, key⟩
  by_contra hn
  exact hj (key hn).2

/-- Witness of C13: an accepted machine whose device identity is ASUSWM1: add returns -ENODEV
and the journal of register reads stays empty. -/
theorem add_reads_only_after_checks_witness :
    (asus_primeb550plus_hwmon_add
      ⟨fun slot =>
          match slot with
          | .DMI_BOARD_VENDOR => some "ASUSTeK COMPUTER INC."
          | .DMI_BOARD_NAME => some "PRIME B550-PLUS"
          | .DMI_BIOS_VERSION => some "2006"
          | .DMI_NONE => none,
        fun _ _ => some 7, fun _ => some ACPI_TYPE_METHOD, some 1, 1000⟩
      (scripted_firmware [acpi_result.success 0x5c, acpi_result.success 0xc1])
      ⟨1, 2, "ASUSWM1"⟩ []).err ≠ 0 ∧
    (asus_primeb550plus_hwmon_add
      ⟨fun slot =>
          match slot with
          | .DMI_BOARD_VENDOR => some "ASUSTeK COMPUTER INC."
          | .DMI_BOARD_NAME => some "PRIME B550-PLUS"
          | .DMI_BIOS_VERSION => some "2006"
          | .DMI_NONE => none,
        fun _ _ => some 7, fun _ => some ACPI_TYPE_METHOD, some 1, 1000⟩
      (scripted_firmware [acpi_result.success 0x5c, acpi_result.success 0xc1])
      ⟨1, 2, "ASUSWM1"⟩ []).journal = [] :=
  (add_reads_only_after_checks _ _ ⟨1, 2, "ASUSWM1"⟩ []).2
    (fun h => absurd h.2.1 (by decide))

/-- C14: `asus_primeb550plus_hwmon_add` reaches the registration of the sensor device only
when the platform check, the device-identity check, the allocation, the method
resolution and the chip identification (both probe reads succeed and give
(0x5c, 0xc1)) have all succeeded, and then it returns what the registration
gives; when one of them fails it returns a non-zero value and the sensor
device is not registered. -/
theorem add_no_partial_activation (ks : kernel_services) (fw : acpi_firmware)
    (device : acpi_device) (journal : List acpi_call) :
    ((asus_primeb550plus_hwmon_add ks fw device journal).hwmon_device ≠ none →
      (ks.dmi_ident dmi_field.DMI_BOARD_VENDOR = some "ASUSTeK COMPUTER INC." ∧
        ks.dmi_ident dmi_field.DMI_BOARD_NAME = some "PRIME B550-PLUS" ∧
        ks.dmi_ident dmi_field.DMI_BIOS_VERSION = some "2006") ∧
      device.uid = "ASUSWMI" ∧
      ks.devm_kzalloc ≠ none ∧
      ∃ m, ks.acpi_get_handle device.handle "RHWM" = some m ∧
        ks.acpi_get_type m = some ACPI_TYPE_METHOD ∧
        fw.evaluate journal m [0, 0x4f] = acpi_result.success 0x5c ∧
        fw.evaluate (journal ++ [⟨m, [0, 0x4f], acpi_result.success 0x5c⟩]) m [0, 0x58]
          = acpi_result.success 0xc1) ∧
    (¬ ((ks.dmi_ident dmi_field.DMI_BOARD_VENDOR = some "ASUSTeK COMPUTER INC." ∧
        ks.dmi_ident dmi_field.DMI_BOARD_NAME = some "PRIME B550-PLUS" ∧
        ks.dmi_ident dmi_field.DMI_BIOS_VERSION = some "2006") ∧
      device.uid = "ASUSWMI" ∧
      ks.devm_kzalloc ≠ none ∧
      ∃ m, ks.acpi_get_handle device.handle "RHWM" = some m ∧
        ks.acpi_get_type m = some ACPI_TYPE_METHOD ∧
        fw.evaluate journal m [0, 0x4f] = acpi_result.success 0x5c ∧
        fw.evaluate (journal ++ [⟨m, [0, 0x4f], acpi_result.success 0x5c⟩]) m [0, 0x58]
          = acpi_result.success 0xc1) →
      (asus_primeb550plus_hwmon_add ks fw device journal).err ≠ 0 ∧
      (asus_primeb550plus_hwmon_add ks fw device journal).hwmon_device = none) ∧
    ((asus_primeb550plus_hwmon_add ks fw device journal).hwmon_device ≠ none →
      (asus_primeb550plus_hwmon_add ks fw device journal).hwmon_device
        = some ks.devm_hwmon_device_register_with_groups ∧
      (asus_primeb550plus_hwmon_add ks fw device journal).err
        = PTR_ERR_OR_ZERO ks.devm_hwmon_device_register_with_groups) := by
  have key : ¬ ((ks.dmi_ident dmi_field.DMI_BOARD_VENDOR = some "ASUSTeK COMPUTER INC." ∧
        ks.dmi_ident dmi_field.DMI_BOARD_NAME = some "PRIME B550-PLUS" ∧
        ks.dmi_ident dmi_field.DMI_BIOS_VERSION = some "2006") ∧
      device.uid = "ASUSWMI" ∧
      ks.devm_kzalloc ≠ none ∧
      ∃ m, ks.acpi_get_handle device.handle "RHWM" = some m ∧
        ks.acpi_get_type m = some ACPI_TYPE_METHOD ∧
        fw.evaluate journal m [0, 0x4f] = acpi_result.success 0x5c ∧
        fw.evaluate (journal ++ [⟨m, [0, 0x4f], acpi_result.success 0x5c⟩]) m [0, 0x58]
          = acpi_result.success 0xc1) →
      (asus_primeb550plus_hwmon_add ks fw device journal).err ≠ 0 ∧
      (asus_primeb550plus_hwmon_add ks fw device journal).hwmon_device = none := by
    intro hn
    by_cases hg : (ks.dmi_ident dmi_field.DMI_BOARD_VENDOR = some "ASUSTeK COMPUTER INC." ∧
        ks.dmi_ident dmi_field.DMI_BOARD_NAME = some "PRIME B550-PLUS" ∧
        ks.dmi_ident dmi_field.DMI_BIOS_VERSION = some "2006") ∧
      device.uid = "ASUSWMI" ∧
      ks.devm_kzalloc ≠ none ∧
      ∃ m, ks.acpi_get_handle device.handle "RHWM" = some m ∧
        ks.acpi_get_type m = some ACPI_TYPE_METHOD
    · obtain ⟨hd, hu, hk, m, g1, g2⟩ := hg
      rw [add_gate_passes ks fw device journal m hd hu hk g1 g2]
      rcases check_chip_cases fw ⟨device.address, 0, device.handle, m⟩ journal
        with ⟨a, b, _⟩ | ⟨_, h1, _⟩
      · exact absurd ⟨hd, hu, hk, m, g1, g2, a, b⟩ hn
      · simp [h1]
    · have h := add_gate_fails ks fw device journal hg
      exact ⟨h.1, h.2.2.2⟩
  have reach : (asus_primeb550plus_hwmon_add ks fw device journal).hwmon_device ≠ none →
      (ks.dmi_ident dmi_field.DMI_BOARD_VENDOR = some "ASUSTeK COMPUTER INC." ∧
        ks.dmi_ident dmi_field.DMI_BOARD_NAME = some "PRIME B550-PLUS" ∧
        ks.dmi_ident dmi_field.DMI_BIOS_VERSION = some "2006") ∧
      device.uid = "ASUSWMI" ∧
      ks.devm_kzalloc ≠ none ∧
      ∃ m, ks.acpi_get_handle device.handle "RHWM" = some m ∧
        ks.acpi_get_type m = some ACPI_TYPE_METHOD ∧
        fw.evaluate journal m [0, 0x4f] = acpi_result.success 0x5c ∧
        fw.evaluate (journal ++ [⟨m, [0, 0x4f], acpi_result.success 0x5c⟩]) m [0, 0x58]
          = acpi_result.success 0xc1 := by
    intro hr
    by_contra hn
    exact hr (key hn).2
  refine ⟨reach, key, fun hr => ?_⟩
  obtain ⟨hd, hu, hk, m, g1, g2, a, b⟩ := reach hr
  rw [add_gate_passes ks fw device journal m hd hu hk g1 g2]
  rcases check_chip_cases fw ⟨device.address, 0, device.handle, m⟩ journal
    with ⟨_, _, h⟩ | ⟨hn, _, _⟩
  · simp [h]
  · exact absurd ⟨a, b⟩ hn

/-- Witness of C14: on an accepted machine with the right identity and method, the chip pair
(0x5c, 0xc0) is not recognised: add returns a non-zero value and the sensor
device is not registered. -/
theorem add_no_partial_activation_witness :
    (asus_primeb550plus_hwmon_add
      ⟨fun slot =>
          match slot with
          | .DMI_BOARD_VENDOR => some "ASUSTeK COMPUTER INC."
          | .DMI_BOARD_NAME => some "PRIME B550-PLUS"
          | .DMI_BIOS_VERSION => some "2006"
          | .DMI_NONE => none,
        fun _ _ => some 7, fun _ => some ACPI_TYPE_METHOD, some 1, 1000⟩
      (scripted_firmware [acpi_result.success 0x5c, acpi_result.success 0xc0])
      ⟨1, 2, "ASUSWMI"⟩ []).err ≠ 0 ∧
    (asus_primeb550plus_hwmon_add
      ⟨fun slot =>
          match slot with
          | .DMI_BOARD_VENDOR => some "ASUSTeK COMPUTER INC."
          | .DMI_BOARD_NAME => some "PRIME B550-PLUS"
          | .DMI_BIOS_VERSION => some "2006"
          | .DMI_NONE => none,
        fun _ _ => some 7, fun _ => some ACPI_TYPE_METHOD, some 1, 1000⟩
      (scripted_firmware [acpi_result.success 0x5c, acpi_result.success 0xc0])
      ⟨1, 2, "ASUSWMI"⟩ []).hwmon_device = none :=
  (add_no_partial_activation _ _ ⟨1, 2, "ASUSWMI"⟩ []).2.1
    (fun h => by
      obtain ⟨_, _, _, m, g1, _, _, b⟩ := h
      have hm : m = 7 := by injection g1 with g1; exact g1.symm
      subst hm
      exact absurd b (by decide))


/-! ## End to end -/

theorem chip_fields_cpuvcore (beyond : Int → Option asus_primeb550plus_hwmon_chip_field) :
    asus_primeb550plus_hwmon_chip_fields beyond
        asus_primeb550plus_hwmon_field_list.CPUVCORE.value
      = some (ASUS_B550PLUS_HWMON_FIELD_UCHAR_MUL "cpuvcore" 4 0x80 8) := by
  have h0 : (asus_primeb550plus_hwmon_field_list.CPUVCORE.value : Int) = ((0 : Nat) : Int) := by
    decide
  rw [h0, chip_fields_in_range beyond 0 (by decide)]
  decide

/-- C17: when `asus_primeb550plus_hwmon_add` has returned 0, the fingerprint was the
accepted one, the identity was ASUSWMI, the method RHWM was resolved and the
probe bytes were (0x5c, 0xc1); a later value read of the exposed channel
in0_input (cpuvcore, multiplier 8), on the device carrying the driver data add
attached, with its register (4, 0x80) returning 10, issues that one read
through the resolved method, writes the line 80 and returns 3. -/
theorem add_then_read_in0 (PAGE_SIZE : Nat) (ks : kernel_services) (fw : acpi_firmware)
    (beyond : Int → Option asus_primeb550plus_hwmon_chip_field)
    (acpi_dev : acpi_device) (journal0 journal : List acpi_call) (dev : device)
    (buf : List Char)
    (hpage : 13 ≤ PAGE_SIZE)
    (hadd : (asus_primeb550plus_hwmon_add ks fw acpi_dev journal0).err = 0)
    (hdev : (asus_primeb550plus_hwmon_add ks fw acpi_dev journal0).drvdata
      = some dev.driver_data)
    (hread : fw.evaluate journal dev.driver_data.rhwm_method [4, 0x80]
      = acpi_result.success 10) :
    ((ks.dmi_ident dmi_field.DMI_BOARD_VENDOR = some "ASUSTeK COMPUTER INC." ∧
        ks.dmi_ident dmi_field.DMI_BOARD_NAME = some "PRIME B550-PLUS" ∧
        ks.dmi_ident dmi_field.DMI_BIOS_VERSION = some "2006") ∧
      acpi_dev.uid = "ASUSWMI" ∧
      ks.acpi_get_handle acpi_dev.handle "RHWM" = some dev.driver_data.rhwm_method ∧
      ks.acpi_get_type dev.driver_data.rhwm_method = some ACPI_TYPE_METHOD ∧
      fw.evaluate journal0 dev.driver_data.rhwm_method [0, 0x4f] = acpi_result.success 0x5c ∧
      fw.evaluate (journal0 ++ [⟨dev.driver_data.rhwm_method, [0, 0x4f],
          acpi_result.success 0x5c⟩]) dev.driver_data.rhwm_method [0, 0x58]
        = acpi_result.success 0xc1) ∧
    (⟨"in0_input", show_callback.asus_primeb550plus_hwmon_sysfs_val_show,
        asus_primeb550plus_hwmon_field_list.CPUVCORE.value⟩ : sensor_device_attribute)
      ∈ asus_primeb550plus_hwmon_attrs ∧
    asus_primeb550plus_hwmon_sysfs_val_show PAGE_SIZE fw beyond dev
        (some ⟨"in0_input", show_callback.asus_primeb550plus_hwmon_sysfs_val_show,
          asus_primeb550plus_hwmon_field_list.CPUVCORE.value⟩) journal buf
      = ⟨3, journal ++ [⟨dev.driver_data.rhwm_method, [4, 0x80], acpi_result.success 10⟩],
          "80".toList ++ [newline]⟩ := by
  have hgate : (ks.dmi_ident dmi_field.DMI_BOARD_VENDOR = some "ASUSTeK COMPUTER INC." ∧
        ks.dmi_ident dmi_field.DMI_BOARD_NAME = some "PRIME B550-PLUS" ∧
        ks.dmi_ident dmi_field.DMI_BIOS_VERSION = some "2006") ∧
      acpi_dev.uid = "ASUSWMI" ∧
      ks.devm_kzalloc ≠ none ∧
      ∃ m, ks.acpi_get_handle acpi_dev.handle "RHWM" = some m ∧
        ks.acpi_get_type m = some ACPI_TYPE_METHOD := by
    by_contra hn
    exact (add_gate_fails ks fw acpi_dev journal0 hn).1 hadd
  obtain ⟨hd, hu, hk, m, g1, g2⟩ := hgate
  rw [add_gate_passes ks fw acpi_dev journal0 m hd hu hk g1 g2] at hadd hdev
  have hm : dev.driver_data.rhwm_method = m ∧
      fw.evaluate journal0 m [0, 0x4f] = acpi_result.success 0x5c ∧
      fw.evaluate (journal0 ++ [⟨m, [0, 0x4f], acpi_result.success 0x5c⟩]) m [0, 0x58]
        = acpi_result.success 0xc1 := by
    rcases check_chip_cases fw ⟨acpi_dev.address, 0, acpi_dev.handle, m⟩ journal0
      with ⟨a, b, h⟩ | ⟨_, h1, _⟩
    · refine ⟨?_, a, b⟩
      simp only [h, ne_eq, not_true_eq_false, if_false, Option.some.injEq] at hdev
      rw [← hdev]
    · simp [h1] at hadd
  obtain ⟨hm, a, b⟩ := hm
  refine ⟨⟨hd, hu, by rw [hm]; exact g1, by rw [hm]; exact g2, by rw [hm]; exact a,
    by rw [hm]; exact b⟩, ?_, ?_⟩
  · rw [attrs_eq_sensor_dev_attr]
    decide
  · simp only [asus_primeb550plus_hwmon_sysfs_val_show,
      asus_primeb550plus_hwmon_chip_field_from_dev_attr, chip_fields_cpuvcore,
      ASUS_B550PLUS_HWMON_FIELD_UCHAR_MUL]
    rw [uchar_mul_show_ok PAGE_SIZE fw dev.driver_data ⟨4, 0x80, 8⟩ journal buf 10 hpage
      (by decide) hread]
    have hf : format_u (to_int (((10 : Nat) : Int) * 8)) = "80".toList := by decide
    simp only [hf]
    rfl

/-- Witness of C17: an accepted machine, identity ASUSWMI, a method RHWM with handle 7, a
firmware answering 0x5c, 0xc1 to the probe and then 10: add returns 0 and the
value read of in0_input writes the line 80. -/
theorem add_then_read_in0_witness :
    asus_primeb550plus_hwmon_sysfs_val_show 4096
        (scripted_firmware
          [acpi_result.success 0x5c, acpi_result.success 0xc1, acpi_result.success 10])
        (fun _ => none) ⟨⟨1, 1000, 2, 7⟩⟩
        (some ⟨"in0_input", show_callback.asus_primeb550plus_hwmon_sysfs_val_show,
          asus_primeb550plus_hwmon_field_list.CPUVCORE.value⟩)
        [⟨7, [0, 0x4f], acpi_result.success 0x5c⟩, ⟨7, [0, 0x58], acpi_result.success 0xc1⟩]
        []
      = ⟨3, [⟨7, [0, 0x4f], acpi_result.success 0x5c⟩,
            ⟨7, [0, 0x58], acpi_result.success 0xc1⟩,
            ⟨7, [4, 0x80], acpi_result.success 10⟩],
          "80".toList ++ [newline]⟩ :=
  (add_then_read_in0 4096
    ⟨fun slot =>
        match slot with
        | .DMI_BOARD_VENDOR => some "ASUSTeK COMPUTER INC."
        | .DMI_BOARD_NAME => some "PRIME B550-PLUS"
        | .DMI_BIOS_VERSION => some "2006"
        | .DMI_NONE => none,
      fun _ _ => some 7, fun _ => some ACPI_TYPE_METHOD, some 1, 1000⟩
    (scripted_firmware
      [acpi_result.success 0x5c, acpi_result.success 0xc1, acpi_result.success 10])
    (fun _ => none) ⟨1, 2, "ASUSWMI"⟩ []
    [⟨7, [0, 0x4f], acpi_result.success 0x5c⟩, ⟨7, [0, 0x58], acpi_result.success 0xc1⟩]
    ⟨⟨1, 1000, 2, 7⟩⟩ [] (by decide) (by decide) (by decide) (by decide)).2.2


/-! ## Channel numbering and categories -/

set_option maxRecDepth 100000 in
theorem sensor_dev_attr_channels :
    sensor_dev_attr.map (fun a => (channel_category a.name, channel_number a.name, a.callback))
      = ((List.range 16).map (fun n => ("in", n))
          ++ (List.range 19).map (fun n => ("temp", n + 1))
          ++ (List.range 7).map (fun n => ("fan", n + 1))).flatMap
        (fun c => [(c.1, c.2, show_callback.asus_primeb550plus_hwmon_sysfs_val_show),
          (c.1, c.2, show_callback.asus_primeb550plus_hwmon_sysfs_label_show)]) := by
  decide

set_option maxRecDepth 100000 in
theorem sensor_dev_attr_numbers :
    ((sensor_dev_attr.filter (fun a =>
        decide (channel_category a.name = "in") &&
        decide (a.callback = show_callback.asus_primeb550plus_hwmon_sysfs_val_show))).map
        (fun a => channel_number a.name) = List.range 16) ∧
    ((sensor_dev_attr.filter (fun a =>
        decide (channel_category a.name = "temp") &&
        decide (a.callback = show_callback.asus_primeb550plus_hwmon_sysfs_val_show))).map
        (fun a => channel_number a.name) = (List.range 19).map (fun n => n + 1)) ∧
    ((sensor_dev_attr.filter (fun a =>
        decide (channel_category a.name = "fan") &&
        decide (a.callback = show_callback.asus_primeb550plus_hwmon_sysfs_val_show))).map
        (fun a => channel_number a.name) = (List.range 7).map (fun n => n + 1)) := by
  decide

set_option maxRecDepth 100000 in
theorem sensor_dev_attr_spelling :
    ∀ a ∈ sensor_dev_attr,
      a.name = channel_category a.name ++ toString (channel_number a.name)
        ++ (if a.callback = show_callback.asus_primeb550plus_hwmon_sysfs_val_show
            then "_input" else "_label") := by
  decide

/-- C15 (as amended): the numbers of the declared channels are contiguous in each
category; they run from 1 for temp (1..19) and fan (1..7) but from 0 for in
(0..15).  Every registered attribute is spelled category, number, then _input
or _label, each channel having both. -/
theorem channel_numbering :
    channel_numbers "in" = List.range 16 ∧
    channel_numbers "temp" = (List.range 19).map (fun n => n + 1) ∧
    channel_numbers "fan" = (List.range 7).map (fun n => n + 1) ∧
    (∀ a ∈ asus_primeb550plus_hwmon_attrs,
      a.name = channel_category a.name ++ toString (channel_number a.name)
        ++ (if a.callback = show_callback.asus_primeb550plus_hwmon_sysfs_val_show
            then "_input" else "_label")) ∧
    asus_primeb550plus_hwmon_attrs.map
        (fun a => (channel_category a.name, channel_number a.name, a.callback))
      = ((List.range 16).map (fun n => ("in", n))
          ++ (List.range 19).map (fun n => ("temp", n + 1))
          ++ (List.range 7).map (fun n => ("fan", n + 1))).flatMap
        (fun c => [(c.1, c.2, show_callback.asus_primeb550plus_hwmon_sysfs_val_show),
          (c.1, c.2, show_callback.asus_primeb550plus_hwmon_sysfs_label_show)]) := by
  unfold channel_numbers
  rw [attrs_eq_sensor_dev_attr]
  exact ⟨sensor_dev_attr_numbers.1, sensor_dev_attr_numbers.2.1, sensor_dev_attr_numbers.2.2,
    sensor_dev_attr_spelling, sensor_dev_attr_channels⟩

/-- Counterexample to C15 as stated: the category in has 16 channels, so its numbers would
have to be 1..16; but in0_input is a registered attribute, the channel numbers
of in start at 0, and 16 is not among them. -/
theorem channel_numbering_counterexample :
    (channel_numbers "in").length = 16 ∧
    (∃ a ∈ asus_primeb550plus_hwmon_attrs, a.name = "in0_input") ∧
    0 ∈ channel_numbers "in" ∧
    16 ∉ channel_numbers "in" ∧
    channel_numbers "in" ≠ (List.range 16).map (fun n => n + 1) := by
  unfold channel_numbers
  rw [attrs_eq_sensor_dev_attr, sensor_dev_attr_numbers.1]
  refine ⟨by decide, ?_, by decide, by decide, by decide⟩
  exact ⟨⟨"in0_input", show_callback.asus_primeb550plus_hwmon_sysfs_val_show, 0⟩,
    by decide, rfl⟩


set_option maxRecDepth 100000 in
theorem sensor_dev_attr_kinds :
    ∀ a ∈ sensor_dev_attr,
      (channel_category a.name = "in" ∨ channel_category a.name = "temp" ∨
        channel_category a.name = "fan") ∧
      (channel_category a.name = "in" →
        (designated_element asus_primeb550plus_hwmon_chip_fields_init a.index.toNat).map
          (fun f => f.data_type) = some asus_primeb550plus_hwmon_data_type.UCHAR_MUL) ∧
      (channel_category a.name = "temp" →
        (designated_element asus_primeb550plus_hwmon_chip_fields_init a.index.toNat).map
            (fun f => f.data_type) = some asus_primeb550plus_hwmon_data_type.TEMP_9BIT ∨
        (designated_element asus_primeb550plus_hwmon_chip_fields_init a.index.toNat).map
            (fun f => f.data_type) = some asus_primeb550plus_hwmon_data_type.TEMP_8BIT ∨
        (designated_element asus_primeb550plus_hwmon_chip_fields_init a.index.toNat).map
            (fun f => f.data_type) = some asus_primeb550plus_hwmon_data_type.TEMP_14BIT) ∧
      (channel_category a.name = "fan" →
        (designated_element asus_primeb550plus_hwmon_chip_fields_init a.index.toNat).map
          (fun f => f.data_type) = some asus_primeb550plus_hwmon_data_type.PWM16) := by
  decide

set_option maxRecDepth 100000 in
theorem designated_exposed :
    ∀ i : Nat, i < 43 →
      ∀ t ∈ (designated_element asus_primeb550plus_hwmon_chip_fields_init i).map
          (fun f => f.data_type),
        ∃ a ∈ sensor_dev_attr, a.index = (i : Int) ∧
          a.callback = show_callback.asus_primeb550plus_hwmon_sysfs_val_show ∧
          channel_category a.name
            = (match t with
              | .UCHAR_MUL => "in"
              | .PWM16 => "fan"
              | _ => "temp") := by
  decide

/-- C16: every registered channel named in maps to a registry field of kind UcharMul,
every channel named temp to a field of kind Temp9Bit, Temp8Bit or Temp14Bit,
and every channel named fan to a field of kind Pwm16 (there is no other
category); conversely every populated field of the registry is exposed by a
value file of the matching category: in for UcharMul, fan for Pwm16, temp for
the three temperature kinds. -/
theorem channel_category_matches_kind
    (beyond : Int → Option asus_primeb550plus_hwmon_chip_field) :
    (∀ a ∈ asus_primeb550plus_hwmon_attrs,
      (channel_category a.name = "in" ∨ channel_category a.name = "temp" ∨
        channel_category a.name = "fan") ∧
      (channel_category a.name = "in" →
        (asus_primeb550plus_hwmon_chip_field_from_dev_attr beyond (some a)).map
          (fun f => f.data_type) = some asus_primeb550plus_hwmon_data_type.UCHAR_MUL) ∧
      (channel_category a.name = "temp" →
        (asus_primeb550plus_hwmon_chip_field_from_dev_attr beyond (some a)).map
            (fun f => f.data_type) = some asus_primeb550plus_hwmon_data_type.TEMP_9BIT ∨
        (asus_primeb550plus_hwmon_chip_field_from_dev_attr beyond (some a)).map
            (fun f => f.data_type) = some asus_primeb550plus_hwmon_data_type.TEMP_8BIT ∨
        (asus_primeb550plus_hwmon_chip_field_from_dev_attr beyond (some a)).map
            (fun f => f.data_type) = some asus_primeb550plus_hwmon_data_type.TEMP_14BIT) ∧
      (channel_category a.name = "fan" →
        (asus_primeb550plus_hwmon_chip_field_from_dev_attr beyond (some a)).map
          (fun f => f.data_type) = some asus_primeb550plus_hwmon_data_type.PWM16)) ∧
    (∀ i : Nat, i < ASUS_B550PLUS_HWMON_FIELD_LIST_MAX →
      ∀ chip_field, asus_primeb550plus_hwmon_chip_fields beyond i = some chip_field →
        ∃ a ∈ asus_primeb550plus_hwmon_attrs, a.index = (i : Int) ∧
          a.callback = show_callback.asus_primeb550plus_hwmon_sysfs_val_show ∧
          channel_category a.name
            = (match chip_field.data_type with
              | .UCHAR_MUL => "in"
              | .PWM16 => "fan"
              | _ => "temp")) := by
  rw [attrs_eq_sensor_dev_attr, field_list_max_eq]
  constructor
  · intro a ha
    obtain ⟨h0, h1, _⟩ := sensor_dev_attr_designated a ha
    have hi : a.index = ((a.index.toNat : Nat) : Int) := by omega
    have hl : asus_primeb550plus_hwmon_chip_field_from_dev_attr beyond (some a)
        = designated_element asus_primeb550plus_hwmon_chip_fields_init a.index.toNat := by
      have hc := chip_fields_in_range beyond a.index.toNat (by omega)
      rw [← hi] at hc
      simpa only [asus_primeb550plus_hwmon_chip_field_from_dev_attr] using hc
    rw [hl]
    exact sensor_dev_attr_kinds a ha
  · intro i hi chip_field hf
    rw [chip_fields_in_range beyond i hi] at hf
    exact designated_exposed i hi chip_field.data_type (by simp [hf])


/-! ## Determinism -/

/-- C18: two value reads of the same attribute (same registry, same page size) whose
register reads return the same sequence of results (bytes or failures) return
the same value and leave the same text: either both write the same line, or
neither writes and each buffer stays as it was.  The firmware, the device, the
journal before the read and the old buffer content may all differ. -/
theorem sysfs_val_show_deterministic (PAGE_SIZE : Nat)
    (beyond : Int → Option asus_primeb550plus_hwmon_chip_field)
    (attr : Option sensor_device_attribute)
    (fw1 fw2 : acpi_firmware) (dev1 dev2 : device)
    (journal1 journal2 : List acpi_call) (buf1 buf2 : List Char)
    (h : ((asus_primeb550plus_hwmon_sysfs_val_show PAGE_SIZE fw1 beyond dev1 attr
          journal1 buf1).journal.drop journal1.length).map (fun c => c.result)
      = ((asus_primeb550plus_hwmon_sysfs_val_show PAGE_SIZE fw2 beyond dev2 attr
          journal2 buf2).journal.drop journal2.length).map (fun c => c.result)) :
    (asus_primeb550plus_hwmon_sysfs_val_show PAGE_SIZE fw1 beyond dev1 attr
        journal1 buf1).ret
      = (asus_primeb550plus_hwmon_sysfs_val_show PAGE_SIZE fw2 beyond dev2 attr
        journal2 buf2).ret ∧
    ((asus_primeb550plus_hwmon_sysfs_val_show PAGE_SIZE fw1 beyond dev1 attr
        journal1 buf1).buf
      = (asus_primeb550plus_hwmon_sysfs_val_show PAGE_SIZE fw2 beyond dev2 attr
        journal2 buf2).buf ∨
      ((asus_primeb550plus_hwmon_sysfs_val_show PAGE_SIZE fw1 beyond dev1 attr
          journal1 buf1).buf = buf1 ∧
        (asus_primeb550plus_hwmon_sysfs_val_show PAGE_SIZE fw2 beyond dev2 attr
          journal2 buf2).buf = buf2)) := by
  unfold asus_primeb550plus_hwmon_sysfs_val_show at h ⊢
  revert h
  cases asus_primeb550plus_hwmon_chip_field_from_dev_attr beyond attr with
  | none => simp
  | some chip_field =>
    simp only []
    cases chip_field.data_address with
    | UCHAR_MUL field =>
      intro h
      simp only [asus_primeb550plus_hwmon_sysfs_val_uchar_mul_show] at h ⊢
      rcases read_u8_cases fw1 dev1.driver_data field.bank_no field.index_in_bank journal1 0
        with ⟨v1, hv1, h1⟩ | ⟨r1, hr1, h1⟩ <;>
      rcases read_u8_cases fw2 dev2.driver_data field.bank_no field.index_in_bank journal2 0
        with ⟨v2, hv2, h2⟩ | ⟨r2, hr2, h2⟩
      · simp [h1, h2] at h ⊢
        subst h
        simp [scnprintf]
        split_ifs <;> simp
      · rcases hr2 with rfl | ⟨w, rfl, hw⟩ <;> simp [h1, h2] at h ⊢
        omega
      · rcases hr1 with rfl | ⟨w, rfl, hw⟩ <;> simp [h1, h2] at h ⊢
        omega
      · simp [h1, h2]
    | TEMP_9BIT field =>
      intro h
      simp only [asus_primeb550plus_hwmon_sysfs_val_temp_9bit_show] at h ⊢
      rcases read_u8_cases fw1 dev1.driver_data field.int_bank_no field.int_index_in_bank journal1 0
        with ⟨v1, hv1, h1⟩ | ⟨r1, hr1, h1⟩ <;>
      rcases read_u8_cases fw2 dev2.driver_data field.int_bank_no field.int_index_in_bank journal2 0
        with ⟨v2, hv2, h2⟩ | ⟨r2, hr2, h2⟩
      · rcases read_u8_cases fw1 dev1.driver_data field.frac_bank_no field.frac_index_in_bank
            (journal1 ++ [⟨dev1.driver_data.rhwm_method, [field.int_bank_no, field.int_index_in_bank],
              acpi_result.success v1⟩]) 0
          with ⟨w1, hw1, k1⟩ | ⟨s1, hs1, k1⟩ <;>
        rcases read_u8_cases fw2 dev2.driver_data field.frac_bank_no field.frac_index_in_bank
            (journal2 ++ [⟨dev2.driver_data.rhwm_method, [field.int_bank_no, field.int_index_in_bank],
              acpi_result.success v2⟩]) 0
          with ⟨w2, hw2, k2⟩ | ⟨s2, hs2, k2⟩
        · simp [h1, h2, k1, k2] at h ⊢
          obtain ⟨rfl, rfl⟩ := h
          simp [scnprintf]
          split_ifs <;> simp
        · rcases hs2 with rfl | ⟨w, rfl, hw⟩ <;> simp [h1, h2, k1, k2] at h ⊢
          omega
        · rcases hs1 with rfl | ⟨w, rfl, hw⟩ <;> simp [h1, h2, k1, k2] at h ⊢
          omega
        · simp [h1, h2, k1, k2]
      · rcases read_u8_cases fw1 dev1.driver_data field.frac_bank_no field.frac_index_in_bank
            (journal1 ++ [⟨dev1.driver_data.rhwm_method, [field.int_bank_no, field.int_index_in_bank],
              acpi_result.success v1⟩]) 0
          with ⟨w1, hw1, k1⟩ | ⟨s1, hs1, k1⟩ <;>
        simp [h1, h2, k1] at h ⊢
      · rcases read_u8_cases fw2 dev2.driver_data field.frac_bank_no field.frac_index_in_bank
            (journal2 ++ [⟨dev2.driver_data.rhwm_method, [field.int_bank_no, field.int_index_in_bank],
              acpi_result.success v2⟩]) 0
          with ⟨w2, hw2, k2⟩ | ⟨s2, hs2, k2⟩ <;>
        simp [h1, h2, k2] at h ⊢
      · simp [h1, h2]
    | TEMP_8BIT field =>
      intro h
      simp only [asus_primeb550plus_hwmon_sysfs_val_temp_8bit_show] at h ⊢
      rcases read_u8_cases fw1 dev1.driver_data field.bank_no field.index_in_bank journal1 0
        with ⟨v1, hv1, h1⟩ | ⟨r1, hr1, h1⟩ <;>
      rcases read_u8_cases fw2 dev2.driver_data field.bank_no field.index_in_bank journal2 0
        with ⟨v2, hv2, h2⟩ | ⟨r2, hr2, h2⟩
      · simp [h1, h2] at h ⊢
        subst h
        simp [scnprintf]
        split_ifs <;> simp
      · rcases hr2 with rfl | ⟨w, rfl, hw⟩ <;> simp [h1, h2] at h ⊢
        omega
      · rcases hr1 with rfl | ⟨w, rfl, hw⟩ <;> simp [h1, h2] at h ⊢
        omega
      · simp [h1, h2]
    | TEMP_14BIT field =>
      intro h
      simp only [asus_primeb550plus_hwmon_sysfs_val_temp_14bit_show] at h ⊢
      rcases read_u8_cases fw1 dev1.driver_data field.int_bank_no field.int_idx journal1 0
        with ⟨v1, hv1, h1⟩ | ⟨r1, hr1, h1⟩ <;>
      rcases read_u8_cases fw2 dev2.driver_data field.int_bank_no field.int_idx journal2 0
        with ⟨v2, hv2, h2⟩ | ⟨r2, hr2, h2⟩
      · rcases read_u8_cases fw1 dev1.driver_data field.frac_bank_no field.frac_idx
            (journal1 ++ [⟨dev1.driver_data.rhwm_method, [field.int_bank_no, field.int_idx],
              acpi_result.success v1⟩]) 0
          with ⟨w1, hw1, k1⟩ | ⟨s1, hs1, k1⟩ <;>
        rcases read_u8_cases fw2 dev2.driver_data field.frac_bank_no field.frac_idx
            (journal2 ++ [⟨dev2.driver_data.rhwm_method, [field.int_bank_no, field.int_idx],
              acpi_result.success v2⟩]) 0
          with ⟨w2, hw2, k2⟩ | ⟨s2, hs2, k2⟩
        · simp [h1, h2, k1, k2] at h ⊢
          obtain ⟨rfl, rfl⟩ := h
          simp [scnprintf]
          split_ifs <;> simp
        · rcases hs2 with rfl | ⟨w, rfl, hw⟩ <;> simp [h1, h2, k1, k2] at h ⊢
          omega
        · rcases hs1 with rfl | ⟨w, rfl, hw⟩ <;> simp [h1, h2, k1, k2] at h ⊢
          omega
        · simp [h1, h2, k1, k2]
      · rcases read_u8_cases fw1 dev1.driver_data field.frac_bank_no field.frac_idx
            (journal1 ++ [⟨dev1.driver_data.rhwm_method, [field.int_bank_no, field.int_idx],
              acpi_result.success v1⟩]) 0
          with ⟨w1, hw1, k1⟩ | ⟨s1, hs1, k1⟩ <;>
        simp [h1, h2, k1] at h ⊢
      · rcases read_u8_cases fw2 dev2.driver_data field.frac_bank_no field.frac_idx
            (journal2 ++ [⟨dev2.driver_data.rhwm_method, [field.int_bank_no, field.int_idx],
              acpi_result.success v2⟩]) 0
          with ⟨w2, hw2, k2⟩ | ⟨s2, hs2, k2⟩ <;>
        simp [h1, h2, k2] at h ⊢
      · simp [h1, h2]
    | PWM16 field =>
      intro h
      simp only [asus_primeb550plus_hwmon_sysfs_val_pwm16_show] at h ⊢
      rcases read_u8_cases fw1 dev1.driver_data field.high_bank_no field.high_idx journal1 0
        with ⟨v1, hv1, h1⟩ | ⟨r1, hr1, h1⟩ <;>
      rcases read_u8_cases fw2 dev2.driver_data field.high_bank_no field.high_idx journal2 0
        with ⟨v2, hv2, h2⟩ | ⟨r2, hr2, h2⟩
      · rcases read_u8_cases fw1 dev1.driver_data field.low_bank_no field.low_idx
            (journal1 ++ [⟨dev1.driver_data.rhwm_method, [field.high_bank_no, field.high_idx],
              acpi_result.success v1⟩]) 0
          with ⟨w1, hw1, k1⟩ | ⟨s1, hs1, k1⟩ <;>
        rcases read_u8_cases fw2 dev2.driver_data field.low_bank_no field.low_idx
            (journal2 ++ [⟨dev2.driver_data.rhwm_method, [field.high_bank_no, field.high_idx],
              acpi_result.success v2⟩]) 0
          with ⟨w2, hw2, k2⟩ | ⟨s2, hs2, k2⟩
        · simp [h1, h2, k1, k2] at h ⊢
          obtain ⟨rfl, rfl⟩ := h
          simp [scnprintf]
          split_ifs <;> simp
        · rcases hs2 with rfl | ⟨w, rfl, hw⟩ <;> simp [h1, h2, k1, k2] at h ⊢
          omega
        · rcases hs1 with rfl | ⟨w, rfl, hw⟩ <;> simp [h1, h2, k1, k2] at h ⊢
          omega
        · simp [h1, h2, k1, k2]
      · rcases read_u8_cases fw1 dev1.driver_data field.low_bank_no field.low_idx
            (journal1 ++ [⟨dev1.driver_data.rhwm_method, [field.high_bank_no, field.high_idx],
              acpi_result.success v1⟩]) 0
          with ⟨w1, hw1, k1⟩ | ⟨s1, hs1, k1⟩ <;>
        simp [h1, h2, k1] at h ⊢
      · rcases read_u8_cases fw2 dev2.driver_data field.low_bank_no field.low_idx
            (journal2 ++ [⟨dev2.driver_data.rhwm_method, [field.high_bank_no, field.high_idx],
              acpi_result.success v2⟩]) 0
          with ⟨w2, hw2, k2⟩ | ⟨s2, hs2, k2⟩ <;>
        simp [h1, h2, k2] at h ⊢
      · simp [h1, h2]

/-- Witness of C18: two reads of temp1_input through different methods, firmwares and
journals, both observing the bytes 25 and 0x80, return the same value. -/
theorem sysfs_val_show_deterministic_witness :
    (asus_primeb550plus_hwmon_sysfs_val_show 4096
        (scripted_firmware [acpi_result.success 25, acpi_result.success 0x80])
        (fun _ => none) ⟨⟨0, 0, 0, 7⟩⟩
        (some ⟨"temp1_input", .asus_primeb550plus_hwmon_sysfs_val_show, 16⟩)
        [] "old".toList).ret
      = (asus_primeb550plus_hwmon_sysfs_val_show 4096
        (scripted_firmware
          [acpi_result.failure, acpi_result.success 25, acpi_result.success 0x80])
        (fun _ => none) ⟨⟨0, 0, 0, 9⟩⟩
        (some ⟨"temp1_input", .asus_primeb550plus_hwmon_sysfs_val_show, 16⟩)
        [⟨9, [4, 0x80], acpi_result.failure⟩] []).ret :=
  (sysfs_val_show_deterministic 4096 (fun _ => none)
    (some ⟨"temp1_input", .asus_primeb550plus_hwmon_sysfs_val_show, 16⟩)
    (scripted_firmware [acpi_result.success 25, acpi_result.success 0x80])
    (scripted_firmware [acpi_result.failure, acpi_result.success 25, acpi_result.success 0x80])
    ⟨⟨0, 0, 0, 7⟩⟩ ⟨⟨0, 0, 0, 9⟩⟩ [] [⟨9, [4, 0x80], acpi_result.failure⟩]
    "old".toList [] (by decide)).1

/-! ## Register reads of a decode -/

/-- C19: a UcharMul or Temp8Bit decode issues exactly one register read, at the (bank,
index) of its descriptor; a Temp9Bit, Temp14Bit or Pwm16 decode reads the
integer (high) register first and, only when that read succeeded, the fraction
(low) register second: two reads after a successful first read, one read after
a failed one. -/
theorem decode_read_sequence (PAGE_SIZE : Nat) (fw : acpi_firmware)
    (devdri_data : asus_primeb550plus_hwmon_data) (journal : List acpi_call)
    (buf : List Char) :
    (∀ field : asus_primeb550plus_hwmon_data_type_uchar_mul,
      (asus_primeb550plus_hwmon_sysfs_val_uchar_mul_show PAGE_SIZE fw devdri_data field
          journal buf).journal
        = journal ++ [⟨devdri_data.rhwm_method, [field.bank_no, field.index_in_bank],
            fw.evaluate journal devdri_data.rhwm_method
              [field.bank_no, field.index_in_bank]⟩]) ∧
    (∀ field : asus_primeb550plus_hwmon_data_type_temp_8bit,
      (asus_primeb550plus_hwmon_sysfs_val_temp_8bit_show PAGE_SIZE fw devdri_data field
          journal buf).journal
        = journal ++ [⟨devdri_data.rhwm_method, [field.bank_no, field.index_in_bank],
            fw.evaluate journal devdri_data.rhwm_method
              [field.bank_no, field.index_in_bank]⟩]) ∧
    (∀ field : asus_primeb550plus_hwmon_data_type_temp_9bit,
      ((∃ val, val ≤ 255 ∧ fw.evaluate journal devdri_data.rhwm_method
            [field.int_bank_no, field.int_index_in_bank] = acpi_result.success val) →
        (asus_primeb550plus_hwmon_sysfs_val_temp_9bit_show PAGE_SIZE fw devdri_data field
            journal buf).journal
          = journal ++ [⟨devdri_data.rhwm_method, [field.int_bank_no, field.int_index_in_bank],
              fw.evaluate journal devdri_data.rhwm_method [field.int_bank_no, field.int_index_in_bank]⟩,
            ⟨devdri_data.rhwm_method, [field.frac_bank_no, field.frac_index_in_bank],
              fw.evaluate (journal ++ [⟨devdri_data.rhwm_method, [field.int_bank_no, field.int_index_in_bank],
                  fw.evaluate journal devdri_data.rhwm_method [field.int_bank_no, field.int_index_in_bank]⟩])
                devdri_data.rhwm_method [field.frac_bank_no, field.frac_index_in_bank]⟩]) ∧
      (¬ (∃ val, val ≤ 255 ∧ fw.evaluate journal devdri_data.rhwm_method
            [field.int_bank_no, field.int_index_in_bank] = acpi_result.success val) →
        (asus_primeb550plus_hwmon_sysfs_val_temp_9bit_show PAGE_SIZE fw devdri_data field
            journal buf).journal
          = journal ++ [⟨devdri_data.rhwm_method, [field.int_bank_no, field.int_index_in_bank],
              fw.evaluate journal devdri_data.rhwm_method [field.int_bank_no, field.int_index_in_bank]⟩])) ∧
    (∀ field : asus_primeb550plus_hwmon_data_type_temp_14bit,
      ((∃ val, val ≤ 255 ∧ fw.evaluate journal devdri_data.rhwm_method
            [field.int_bank_no, field.int_idx] = acpi_result.success val) →
        (asus_primeb550plus_hwmon_sysfs_val_temp_14bit_show PAGE_SIZE fw devdri_data field
            journal buf).journal
          = journal ++ [⟨devdri_data.rhwm_method, [field.int_bank_no, field.int_idx],
              fw.evaluate journal devdri_data.rhwm_method [field.int_bank_no, field.int_idx]⟩,
            ⟨devdri_data.rhwm_method, [field.frac_bank_no, field.frac_idx],
              fw.evaluate (journal ++ [⟨devdri_data.rhwm_method, [field.int_bank_no, field.int_idx],
                  fw.evaluate journal devdri_data.rhwm_method [field.int_bank_no, field.int_idx]⟩])
                devdri_data.rhwm_method [field.frac_bank_no, field.frac_idx]⟩]) ∧
      (¬ (∃ val, val ≤ 255 ∧ fw.evaluate journal devdri_data.rhwm_method
            [field.int_bank_no, field.int_idx] = acpi_result.success val) →
        (asus_primeb550plus_hwmon_sysfs_val_temp_14bit_show PAGE_SIZE fw devdri_data field
            journal buf).journal
          = journal ++ [⟨devdri_data.rhwm_method, [field.int_bank_no, field.int_idx],
              fw.evaluate journal devdri_data.rhwm_method [field.int_bank_no, field.int_idx]⟩])) ∧
    (∀ field : asus_primeb550plus_hwmon_data_type_pwm16,
      ((∃ val, val ≤ 255 ∧ fw.evaluate journal devdri_data.rhwm_method
            [field.high_bank_no, field.high_idx] = acpi_result.success val) →
        (asus_primeb550plus_hwmon_sysfs_val_pwm16_show PAGE_SIZE fw devdri_data field
            journal buf).journal
          = journal ++ [⟨devdri_data.rhwm_method, [field.high_bank_no, field.high_idx],
              fw.evaluate journal devdri_data.rhwm_method [field.high_bank_no, field.high_idx]⟩,
            ⟨devdri_data.rhwm_method, [field.low_bank_no, field.low_idx],
              fw.evaluate (journal ++ [⟨devdri_data.rhwm_method, [field.high_bank_no, field.high_idx],
                  fw.evaluate journal devdri_data.rhwm_method [field.high_bank_no, field.high_idx]⟩])
                devdri_data.rhwm_method [field.low_bank_no, field.low_idx]⟩]) ∧
      (¬ (∃ val, val ≤ 255 ∧ fw.evaluate journal devdri_data.rhwm_method
            [field.high_bank_no, field.high_idx] = acpi_result.success val) →
        (asus_primeb550plus_hwmon_sysfs_val_pwm16_show PAGE_SIZE fw devdri_data field
            journal buf).journal
          = journal ++ [⟨devdri_data.rhwm_method, [field.high_bank_no, field.high_idx],
              fw.evaluate journal devdri_data.rhwm_method [field.high_bank_no, field.high_idx]⟩])) := by
  refine ⟨?_, ?_, ?_, ?_, ?_⟩
  · intro field
    simp only [asus_primeb550plus_hwmon_sysfs_val_uchar_mul_show]
    rcases read_u8_eval_cases fw devdri_data field.bank_no field.index_in_bank journal 0
      with ⟨v, hv, e, h⟩ | ⟨r, hr, e, h⟩
    · simp [h, e]
    · simp [h, e]
  · intro field
    simp only [asus_primeb550plus_hwmon_sysfs_val_temp_8bit_show]
    rcases read_u8_eval_cases fw devdri_data field.bank_no field.index_in_bank journal 0
      with ⟨v, hv, e, h⟩ | ⟨r, hr, e, h⟩
    · simp [h, e]
    · simp [h, e]
  · intro field
    simp only [asus_primeb550plus_hwmon_sysfs_val_temp_9bit_show]
    rcases read_u8_eval_cases fw devdri_data field.int_bank_no field.int_index_in_bank journal 0
      with ⟨v, hv, e, h⟩ | ⟨r, hr, e, h⟩
    · have hex : ∃ val, val ≤ 255 ∧ acpi_result.success v = acpi_result.success val :=
        ⟨v, hv, rfl⟩
      rcases read_u8_eval_cases fw devdri_data field.frac_bank_no field.frac_index_in_bank
          (journal ++ [⟨devdri_data.rhwm_method, [field.int_bank_no, field.int_index_in_bank],
            acpi_result.success v⟩]) 0
        with ⟨w, hw, e2, h2⟩ | ⟨s, hs, e2, h2⟩
      · simp only [e, hex, not_true_eq_false]
        simp [h, h2, e2]
      · simp only [e, hex, not_true_eq_false]
        simp [h, h2, e2]
    · have hnex : ¬ ∃ val, val ≤ 255 ∧ r = acpi_result.success val := by
        rintro ⟨val, hval, rfl⟩
        rcases hr with hr | ⟨w, hw, hlt⟩
        · cases hr
        · injection hw with hw; omega
      simp only [e, hnex, not_false_eq_true]
      simp [h]
  · intro field
    simp only [asus_primeb550plus_hwmon_sysfs_val_temp_14bit_show]
    rcases read_u8_eval_cases fw devdri_data field.int_bank_no field.int_idx journal 0
      with ⟨v, hv, e, h⟩ | ⟨r, hr, e, h⟩
    · have hex : ∃ val, val ≤ 255 ∧ acpi_result.success v = acpi_result.success val :=
        ⟨v, hv, rfl⟩
      rcases read_u8_eval_cases fw devdri_data field.frac_bank_no field.frac_idx
          (journal ++ [⟨devdri_data.rhwm_method, [field.int_bank_no, field.int_idx],
            acpi_result.success v⟩]) 0
        with ⟨w, hw, e2, h2⟩ | ⟨s, hs, e2, h2⟩
      · simp only [e, hex, not_true_eq_false]
        simp [h, h2, e2]
      · simp only [e, hex, not_true_eq_false]
        simp [h, h2, e2]
    · have hnex : ¬ ∃ val, val ≤ 255 ∧ r = acpi_result.success val := by
        rintro ⟨val, hval, rfl⟩
        rcases hr with hr | ⟨w, hw, hlt⟩
        · cases hr
        · injection hw with hw; omega
      simp only [e, hnex, not_false_eq_true]
      simp [h]
  · intro field
    simp only [asus_primeb550plus_hwmon_sysfs_val_pwm16_show]
    rcases read_u8_eval_cases fw devdri_data field.high_bank_no field.high_idx journal 0
      with ⟨v, hv, e, h⟩ | ⟨r, hr, e, h⟩
    · have hex : ∃ val, val ≤ 255 ∧ acpi_result.success v = acpi_result.success val :=
        ⟨v, hv, rfl⟩
      rcases read_u8_eval_cases fw devdri_data field.low_bank_no field.low_idx
          (journal ++ [⟨devdri_data.rhwm_method, [field.high_bank_no, field.high_idx],
            acpi_result.success v⟩]) 0
        with ⟨w, hw, e2, h2⟩ | ⟨s, hs, e2, h2⟩
      · simp only [e, hex, not_true_eq_false]
        simp [h, h2, e2]
      · simp only [e, hex, not_true_eq_false]
        simp [h, h2, e2]
    · have hnex : ¬ ∃ val, val ≤ 255 ∧ r = acpi_result.success val := by
        rintro ⟨val, hval, rfl⟩
        rcases hr with hr | ⟨w, hw, hlt⟩
        · cases hr
        · injection hw with hw; omega
      simp only [e, hnex, not_false_eq_true]
      simp [h]

/-- Witness of C19: on the descriptor of temp1 a failing read of the integer register (0, 0x73)
is the only read; after a successful one the fraction register (0, 0x74) is
read second. -/
theorem decode_read_sequence_witness :
    (asus_primeb550plus_hwmon_sysfs_val_temp_9bit_show 4096
      (scripted_firmware [acpi_result.failure, acpi_result.success 0x80])
      ⟨0, 0, 0, 7⟩ ⟨0, 0x73, 0, 0x74⟩ [] []).journal
      = [⟨7, [0, 0x73], acpi_result.failure⟩] ∧
    (asus_primeb550plus_hwmon_sysfs_val_temp_9bit_show 4096
      (scripted_firmware [acpi_result.success 25, acpi_result.success 0x80])
      ⟨0, 0, 0, 7⟩ ⟨0, 0x73, 0, 0x74⟩ [] []).journal
      = [⟨7, [0, 0x73], acpi_result.success 25⟩, ⟨7, [0, 0x74], acpi_result.success 0x80⟩] :=
  ⟨((decode_read_sequence 4096
      (scripted_firmware [acpi_result.failure, acpi_result.success 0x80])
      ⟨0, 0, 0, 7⟩ [] []).2.2.1 ⟨0, 0x73, 0, 0x74⟩).2
      (by
        rintro ⟨val, _, h⟩
        have h2 : acpi_result.failure = acpi_result.success val := h
        cases h2),
   ((decode_read_sequence 4096
      (scripted_firmware [acpi_result.success 25, acpi_result.success 0x80])
      ⟨0, 0, 0, 7⟩ [] []).2.2.1 ⟨0, 0x73, 0, 0x74⟩).1 ⟨25, by decide, by decide⟩⟩

/-! ## Output line -/

theorem digitChar_isDigit : ∀ m : Nat, m < 10 → (Nat.digitChar m).isDigit = true := by
  decide

theorem toDigitsCore_isDigit (fuel : Nat) :
    ∀ (n : Nat) (ds : List Char), (∀ c ∈ ds, c.isDigit = true) →
      ∀ c ∈ Nat.toDigitsCore 10 fuel n ds, c.isDigit = true := by
  induction fuel with
  | zero => intro n ds hds c hc; exact hds c (by simpa [Nat.toDigitsCore] using hc)
  | succ fuel ih =>
    intro n ds hds c hc
    have hd : ∀ c ∈ Nat.digitChar (n % 10) :: ds, c.isDigit = true := by
      intro c hc
      rcases List.mem_cons.1 hc with rfl | hc
      · exact digitChar_isDigit _ (Nat.mod_lt _ (by decide))
      · exact hds c hc
    simp only [Nat.toDigitsCore] at hc
    split at hc
    · exact hd c hc
    · exact ih _ _ hd c hc

theorem toDigits_isDigit (n : Nat) : ∀ c ∈ Nat.toDigits 10 n, c.isDigit = true :=
  toDigitsCore_isDigit _ n [] (by simp)

theorem newline_not_mem_decimal (v : Int) : newline ∉ decimal v := by
  intro h
  unfold decimal at h
  split at h
  · rcases List.mem_cons.1 h with h | h
    · exact absurd h (by decide)
    · exact absurd (toDigits_isDigit _ _ h) (by decide)
  · exact absurd (toDigits_isDigit _ _ h) (by decide)

theorem scnprintf_line (buf : List Char) (PAGE_SIZE : Nat) (v : Int)
    (hpage : 13 ≤ PAGE_SIZE) (h1 : -10000000000 < v) (h2 : v < 10000000000) :
    scnprintf buf PAGE_SIZE (decimal v ++ [newline])
      = (((decimal v).length : Int) + 1, decimal v ++ [newline]) := by
  have hl := decimal_length_le v h1 h2
  rw [scnprintf_fits _ _ _ (by simp only [List.length_append, List.length_singleton]; omega)]
  simp

theorem scnprintf_format_i (buf : List Char) (PAGE_SIZE : Nat) (arg : Int)
    (hpage : 13 ≤ PAGE_SIZE) :
    scnprintf buf PAGE_SIZE (format_i arg ++ [newline])
      = (((decimal (to_int arg)).length : Int) + 1, decimal (to_int arg) ++ [newline]) := by
  have h := to_int_range arg
  exact scnprintf_line buf PAGE_SIZE (to_int arg) hpage (by omega) (by omega)

theorem scnprintf_format_u (buf : List Char) (PAGE_SIZE : Nat) (arg : Int)
    (hpage : 13 ≤ PAGE_SIZE) :
    scnprintf buf PAGE_SIZE (format_u arg ++ [newline])
      = (((decimal ((to_uint arg : Nat) : Int)).length : Int) + 1,
          decimal ((to_uint arg : Nat) : Int) ++ [newline]) := by
  have h := to_uint_lt arg
  exact scnprintf_line buf PAGE_SIZE (to_uint arg) hpage (by omega) (by omega)

theorem to_int_bounds (v : Int) : -2147483648 ≤ to_int v ∧ to_int v < 4294967296 := by
  have h := to_int_range v
  omega

theorem to_uint_bounds (v : Int) :
    (0 : Int) ≤ ((to_uint v : Nat) : Int) ∧ ((to_uint v : Nat) : Int) < 4294967296 := by
  have h := to_uint_lt v
  omega

theorem sysfs_val_show_line_of_nonneg (PAGE_SIZE : Nat) (fw : acpi_firmware)
    (beyond : Int → Option asus_primeb550plus_hwmon_chip_field)
    (dev : device) (attr : Option sensor_device_attribute)
    (journal : List acpi_call) (buf : List Char)
    (hpage : 13 ≤ PAGE_SIZE)
    (hok : 0 ≤ (asus_primeb550plus_hwmon_sysfs_val_show PAGE_SIZE fw beyond dev attr
      journal buf).ret) :
    ∃ chip_field value,
      asus_primeb550plus_hwmon_chip_field_from_dev_attr beyond attr = some chip_field ∧
      (asus_primeb550plus_hwmon_sysfs_val_show PAGE_SIZE fw beyond dev attr
        journal buf).buf = decimal value ++ [newline] ∧
      newline ∉ decimal value ∧
      (asus_primeb550plus_hwmon_sysfs_val_show PAGE_SIZE fw beyond dev attr
        journal buf).ret = ((decimal value).length : Int) + 1 ∧
      (asus_primeb550plus_hwmon_sysfs_val_show PAGE_SIZE fw beyond dev attr
        journal buf).ret
        = (((asus_primeb550plus_hwmon_sysfs_val_show PAGE_SIZE fw beyond dev attr
          journal buf).buf.length : Nat) : Int) ∧
      ((chip_field.data_type = asus_primeb550plus_hwmon_data_type.UCHAR_MUL ∨
          chip_field.data_type = asus_primeb550plus_hwmon_data_type.PWM16) →
        0 ≤ value ∧ value < 4294967296) ∧
      (-2147483648 ≤ value ∧ value < 4294967296) := by
  unfold asus_primeb550plus_hwmon_sysfs_val_show at hok ⊢
  revert hok
  cases hl : asus_primeb550plus_hwmon_chip_field_from_dev_attr beyond attr with
  | none => intro hok; simp at hok
  | some chip_field =>
    obtain ⟨data_address, label⟩ := chip_field
    simp only []
    cases data_address with
    | UCHAR_MUL field =>
      intro hok
      simp only [asus_primeb550plus_hwmon_sysfs_val_uchar_mul_show] at hok ⊢
      rcases read_u8_cases fw dev.driver_data field.bank_no field.index_in_bank journal 0
        with ⟨v, hv, h⟩ | ⟨r, hr, h⟩
      · simp only [h, ne_eq, not_true_eq_false, if_false, scnprintf_format_u _ _ _ hpage]
        refine ⟨_, _, rfl, rfl, newline_not_mem_decimal _, rfl, by simp, ?_, ?_⟩
        · intro _; exact to_uint_bounds _
        · exact ⟨le_trans (by decide) (to_uint_bounds _).1, (to_uint_bounds _).2⟩
      · simp [h] at hok
    | TEMP_9BIT field =>
      intro hok
      simp only [asus_primeb550plus_hwmon_sysfs_val_temp_9bit_show] at hok ⊢
      rcases read_u8_cases fw dev.driver_data field.int_bank_no field.int_index_in_bank journal 0
        with ⟨v, hv, h⟩ | ⟨r, hr, h⟩
      · rcases read_u8_cases fw dev.driver_data field.frac_bank_no field.frac_index_in_bank
            (journal ++ [⟨dev.driver_data.rhwm_method, [field.int_bank_no, field.int_index_in_bank],
              acpi_result.success v⟩]) 0
          with ⟨w, hw, h2⟩ | ⟨s, hs, h2⟩
        · simp only [h, h2, ne_eq, not_true_eq_false, if_false, scnprintf_format_i _ _ _ hpage]
          refine ⟨_, _, rfl, rfl, newline_not_mem_decimal _, rfl, by simp, ?_, ?_⟩
          · intro hk; simp [asus_primeb550plus_hwmon_chip_field.data_type] at hk
          · exact to_int_bounds _
        · simp [h, h2] at hok
      · simp [h] at hok
    | TEMP_8BIT field =>
      intro hok
      simp only [asus_primeb550plus_hwmon_sysfs_val_temp_8bit_show] at hok ⊢
      rcases read_u8_cases fw dev.driver_data field.bank_no field.index_in_bank journal 0
        with ⟨v, hv, h⟩ | ⟨r, hr, h⟩
      · simp only [h, ne_eq, not_true_eq_false, if_false, scnprintf_format_i _ _ _ hpage]
        refine ⟨_, _, rfl, rfl, newline_not_mem_decimal _, rfl, by simp, ?_, ?_⟩
        · intro hk; simp [asus_primeb550plus_hwmon_chip_field.data_type] at hk
        · exact to_int_bounds _
      · simp [h] at hok
    | TEMP_14BIT field =>
      intro hok
      simp only [asus_primeb550plus_hwmon_sysfs_val_temp_14bit_show] at hok ⊢
      rcases read_u8_cases fw dev.driver_data field.int_bank_no field.int_idx journal 0
        with ⟨v, hv, h⟩ | ⟨r, hr, h⟩
      · rcases read_u8_cases fw dev.driver_data field.frac_bank_no field.frac_idx
            (journal ++ [⟨dev.driver_data.rhwm_method, [field.int_bank_no, field.int_idx],
              acpi_result.success v⟩]) 0
          with ⟨w, hw, h2⟩ | ⟨s, hs, h2⟩
        · simp only [h, h2, ne_eq, not_true_eq_false, if_false, scnprintf_format_i _ _ _ hpage]
          refine ⟨_, _, rfl, rfl, newline_not_mem_decimal _, rfl, by simp, ?_, ?_⟩
          · intro hk; simp [asus_primeb550plus_hwmon_chip_field.data_type] at hk
          · exact to_int_bounds _
        · simp [h, h2] at hok
      · simp [h] at hok
    | PWM16 field =>
      intro hok
      simp only [asus_primeb550plus_hwmon_sysfs_val_pwm16_show] at hok ⊢
      rcases read_u8_cases fw dev.driver_data field.high_bank_no field.high_idx journal 0
        with ⟨v, hv, h⟩ | ⟨r, hr, h⟩
      · rcases read_u8_cases fw dev.driver_data field.low_bank_no field.low_idx
            (journal ++ [⟨dev.driver_data.rhwm_method, [field.high_bank_no, field.high_idx],
              acpi_result.success v⟩]) 0
          with ⟨w, hw, h2⟩ | ⟨s, hs, h2⟩
        · simp only [h, h2, ne_eq, not_true_eq_false, if_false, scnprintf_format_u _ _ _ hpage]
          refine ⟨_, _, rfl, rfl, newline_not_mem_decimal _, rfl, by simp, ?_, ?_⟩
          · intro _; exact to_uint_bounds _
          · exact ⟨le_trans (by decide) (to_uint_bounds _).1, (to_uint_bounds _).2⟩
        · simp [h, h2] at hok
      · simp [h] at hok

/-! ## Range of the registry voltages -/

set_option maxRecDepth 100000 in
theorem designated_multipliers :
    ∀ i : Nat, i < 43 →
      (match designated_element asus_primeb550plus_hwmon_chip_fields_init i with
        | some f =>
          (match f.data_address with
            | .UCHAR_MUL uchar_mul =>
              decide (uchar_mul.multiplier = 8 ∨ uchar_mul.multiplier = 16)
            | _ => true)
        | none => true) = true := by
  decide

/-- C21: every UcharMul field present in the registry has the multiplier 8 or 16, so
for every raw byte in [0,255] the product raw * multiplier lies in [0, 4080]:
the 32-bit int multiplication does not wrap, the value fetched by %u is the
product itself, and the decode writes exactly the decimal digits of the
product. -/
theorem registry_uchar_mul_exact (PAGE_SIZE : Nat) (fw : acpi_firmware)
    (beyond : Int → Option asus_primeb550plus_hwmon_chip_field)
    (devdri_data : asus_primeb550plus_hwmon_data) (i : Nat)
    (chip_field : asus_primeb550plus_hwmon_chip_field)
    (field : asus_primeb550plus_hwmon_data_type_uchar_mul)
    (journal : List acpi_call) (buf : List Char) (raw : Nat)
    (hi : i < ASUS_B550PLUS_HWMON_FIELD_LIST_MAX)
    (hf : asus_primeb550plus_hwmon_chip_fields beyond i = some chip_field)
    (hk : chip_field.data_address = asus_primeb550plus_hwmon_data_address.UCHAR_MUL field)
    (hpage : 13 ≤ PAGE_SIZE) (hraw : raw ≤ 255)
    (hread : fw.evaluate journal devdri_data.rhwm_method [field.bank_no, field.index_in_bank]
      = acpi_result.success raw) :
    (field.multiplier = 8 ∨ field.multiplier = 16) ∧
    0 ≤ (raw : Int) * field.multiplier ∧ (raw : Int) * field.multiplier ≤ 4080 ∧
    to_int ((raw : Int) * field.multiplier) = (raw : Int) * field.multiplier ∧
    ((to_uint (to_int ((raw : Int) * field.multiplier)) : Nat) : Int)
      = (raw : Int) * field.multiplier ∧
    (asus_primeb550plus_hwmon_sysfs_val_uchar_mul_show PAGE_SIZE fw devdri_data field
        journal buf).buf
      = decimal ((raw : Int) * field.multiplier) ++ [newline] := by
  rw [field_list_max_eq] at hi
  rw [chip_fields_in_range beyond i hi] at hf
  have hm := designated_multipliers i hi
  rw [hf] at hm
  simp only [hk, decide_eq_true_eq] at hm
  have h0 : 0 ≤ (raw : Int) * field.multiplier ∧ (raw : Int) * field.multiplier ≤ 4080 := by
    rcases hm with h | h <;> rw [h] <;> omega
  have hti : to_int ((raw : Int) * field.multiplier) = (raw : Int) * field.multiplier :=
    to_int_of_range _ (by omega) (by omega)
  have htu : ((to_uint (to_int ((raw : Int) * field.multiplier)) : Nat) : Int)
      = (raw : Int) * field.multiplier := by
    rw [hti]; unfold to_uint; omega
  refine ⟨hm, h0.1, h0.2, hti, htu, ?_⟩
  rw [uchar_mul_show_ok PAGE_SIZE fw devdri_data field journal buf raw hpage hraw hread]
  simp only [format_u, htu]

/-- Witness of C21: the registry entry of avsb (id 2, multiplier 16) with the raw byte 255
writes the line 4080. -/
theorem registry_uchar_mul_exact_witness :
    (asus_primeb550plus_hwmon_sysfs_val_uchar_mul_show 4096
      (scripted_firmware [acpi_result.success 255]) ⟨0, 0, 0, 7⟩ ⟨4, 0x82, 2 * 8⟩ [] []).buf
      = "4080".toList ++ [newline] :=
  (registry_uchar_mul_exact 4096 (scripted_firmware [acpi_result.success 255])
    (fun _ => none) ⟨0, 0, 0, 7⟩ 2 (ASUS_B550PLUS_HWMON_FIELD_UCHAR_MUL "avsb" 4 0x82 (2 * 8))
    ⟨4, 0x82, 2 * 8⟩ [] [] 255 (by decide) (by decide) rfl (by decide) (by decide)
    (by decide)).2.2.2.2.2.trans (by decide)


/-! ## Values of the half-degree temperatures -/

theorem temp_9bit_show_eq (PAGE_SIZE : Nat) (fw : acpi_firmware)
    (devdri_data : asus_primeb550plus_hwmon_data)
    (field : asus_primeb550plus_hwmon_data_type_temp_9bit)
    (journal : List acpi_call) (buf : List Char) (raw_int raw_frac : Nat)
    (hpage : 13 ≤ PAGE_SIZE) (hint : raw_int ≤ 255) (hfrac : raw_frac ≤ 255)
    (hread1 : fw.evaluate journal devdri_data.rhwm_method
      [field.int_bank_no, field.int_index_in_bank] = acpi_result.success raw_int)
    (hread2 : fw.evaluate
      (journal ++ [⟨devdri_data.rhwm_method, [field.int_bank_no, field.int_index_in_bank],
        acpi_result.success raw_int⟩])
      devdri_data.rhwm_method [field.frac_bank_no, field.frac_index_in_bank]
      = acpi_result.success raw_frac) :
    (asus_primeb550plus_hwmon_sysfs_val_temp_9bit_show PAGE_SIZE fw devdri_data field
        journal buf).buf
      = decimal ((if raw_int < 128 then (raw_int : Int) else (raw_int : Int) - 256) * 1000
          + (if raw_frac.testBit 7 = true then (if raw_int < 128 then 500 else -500) else 0))
        ++ [newline] ∧
    (asus_primeb550plus_hwmon_sysfs_val_temp_9bit_show PAGE_SIZE fw devdri_data field
        journal buf).ret
      = (((decimal ((if raw_int < 128 then (raw_int : Int) else (raw_int : Int) - 256) * 1000
          + (if raw_frac.testBit 7 = true then (if raw_int < 128 then 500 else -500) else 0))
        ++ [newline]).length : Nat) : Int) := by
  rw [temp_9bit_show_ok PAGE_SIZE fw devdri_data field journal buf raw_int raw_frac hpage
    hint hfrac hread1 hread2]
  simp only [to_schar_byte raw_int hint, not_not_top_bit raw_frac hfrac]
  have he : (if raw_int < 128 then (raw_int : Int) else (raw_int : Int) - 256) * 1000
        + (if raw_frac.testBit 7 = true then (1 : Int) else 0)
          * (if (if raw_int < 128 then (raw_int : Int) else (raw_int : Int) - 256) ≥ 0
              then 500 else -500)
      = (if raw_int < 128 then (raw_int : Int) else (raw_int : Int) - 256) * 1000
        + (if raw_frac.testBit 7 = true then (if raw_int < 128 then 500 else -500) else 0) := by
    split_ifs <;> omega
  rw [he, format_i_to_int]
  · exact ⟨rfl, rfl⟩
  · split_ifs <;> omega
  · split_ifs <;> omega

theorem temp_8bit_show_eq (PAGE_SIZE : Nat) (fw : acpi_firmware)
    (devdri_data : asus_primeb550plus_hwmon_data)
    (field : asus_primeb550plus_hwmon_data_type_temp_8bit)
    (journal : List acpi_call) (buf : List Char) (raw : Nat)
    (hpage : 13 ≤ PAGE_SIZE) (hraw : raw ≤ 255)
    (hread : fw.evaluate journal devdri_data.rhwm_method [field.bank_no, field.index_in_bank]
      = acpi_result.success raw) :
    (asus_primeb550plus_hwmon_sysfs_val_temp_8bit_show PAGE_SIZE fw devdri_data field
        journal buf).buf
      = decimal ((if raw < 128 then (raw : Int) else (raw : Int) - 256) * 1000)
        ++ [newline] ∧
    (asus_primeb550plus_hwmon_sysfs_val_temp_8bit_show PAGE_SIZE fw devdri_data field
        journal buf).ret
      = (((decimal ((if raw < 128 then (raw : Int) else (raw : Int) - 256) * 1000)
        ++ [newline]).length : Nat) : Int) := by
  rw [temp_8bit_show_ok PAGE_SIZE fw devdri_data field journal buf raw hpage hraw hread]
  simp only [to_schar_byte raw hraw]
  rw [format_i_to_int]
  · exact ⟨rfl, rfl⟩
  · split_ifs <;> omega
  · split_ifs <;> omega

/-- C22: every Temp9Bit result is an integer multiple of 500 between -128500 and 127500, and
no pair of input bytes gives a value strictly between -1000 and 0: the reading
-500 cannot occur, since raw_int = 255 with the fraction top bit set decodes
to -1500 and raw_int = 0 with it set decodes to 500. -/
theorem temp_9bit_show_grid (PAGE_SIZE : Nat) (fw : acpi_firmware)
    (devdri_data : asus_primeb550plus_hwmon_data)
    (field : asus_primeb550plus_hwmon_data_type_temp_9bit)
    (journal : List acpi_call) (buf : List Char) (raw_int raw_frac : Nat)
    (hpage : 13 ≤ PAGE_SIZE) (hint : raw_int ≤ 255) (hfrac : raw_frac ≤ 255)
    (hread1 : fw.evaluate journal devdri_data.rhwm_method
      [field.int_bank_no, field.int_index_in_bank] = acpi_result.success raw_int)
    (hread2 : fw.evaluate
      (journal ++ [⟨devdri_data.rhwm_method, [field.int_bank_no, field.int_index_in_bank],
        acpi_result.success raw_int⟩])
      devdri_data.rhwm_method [field.frac_bank_no, field.frac_index_in_bank]
      = acpi_result.success raw_frac) :
    ∃ value : Int,
      (asus_primeb550plus_hwmon_sysfs_val_temp_9bit_show PAGE_SIZE fw devdri_data field
        journal buf).buf = decimal value ++ [newline] ∧
      (500 : Int) ∣ value ∧
      -128500 ≤ value ∧ value ≤ 127500 ∧
      ¬ (-1000 < value ∧ value < 0) ∧
      value ≠ -500 ∧
      (raw_int = 255 → raw_frac.testBit 7 = true → value = -1500) ∧
      (raw_int = 0 → raw_frac.testBit 7 = true → value = 500) := by
  refine ⟨_, (temp_9bit_show_eq PAGE_SIZE fw devdri_data field journal buf raw_int raw_frac
    hpage hint hfrac hread1 hread2).1, ?_, ?_, ?_, ?_, ?_, ?_, ?_⟩
  · apply Int.dvd_of_emod_eq_zero
    split_ifs <;> omega
  · split_ifs <;> omega
  · split_ifs <;> omega
  · split_ifs <;> omega
  · split_ifs <;> omega
  · intro h1 h2
    subst h1
    simp [h2]
  · intro h1 h2
    subst h1
    simp [h2]

/-- Witness of C22: on the descriptor of temp1, (255, 0x80) gives -1500 and (0, 0x80) gives
500. -/
theorem temp_9bit_show_grid_witness :
    (∃ value : Int,
      (asus_primeb550plus_hwmon_sysfs_val_temp_9bit_show 4096
        (scripted_firmware [acpi_result.success 255, acpi_result.success 0x80])
        ⟨0, 0, 0, 7⟩ ⟨0, 0x73, 0, 0x74⟩ [] []).buf = decimal value ++ [newline] ∧
      value = -1500) ∧
    (∃ value : Int,
      (asus_primeb550plus_hwmon_sysfs_val_temp_9bit_show 4096
        (scripted_firmware [acpi_result.success 0, acpi_result.success 0x80])
        ⟨0, 0, 0, 7⟩ ⟨0, 0x73, 0, 0x74⟩ [] []).buf = decimal value ++ [newline] ∧
      value = 500) := by
  obtain ⟨v1, hb1, _, _, _, _, _, h1, _⟩ := temp_9bit_show_grid 4096
    (scripted_firmware [acpi_result.success 255, acpi_result.success 0x80])
    ⟨0, 0, 0, 7⟩ ⟨0, 0x73, 0, 0x74⟩ [] [] 255 0x80 (by decide) (by decide) (by decide)
    (by decide) (by decide)
  obtain ⟨v2, hb2, _, _, _, _, _, _, h2⟩ := temp_9bit_show_grid 4096
    (scripted_firmware [acpi_result.success 0, acpi_result.success 0x80])
    ⟨0, 0, 0, 7⟩ ⟨0, 0x73, 0, 0x74⟩ [] [] 0 0x80 (by decide) (by decide) (by decide)
    (by decide) (by decide)
  exact ⟨⟨v1, hb1, h1 rfl (by decide)⟩, ⟨v2, hb2, h2 rfl (by decide)⟩⟩


/-- C23: for every integer byte and every fraction byte whose top bit is clear, the Temp9Bit
decode writes and returns what the Temp8Bit decode of the integer byte writes
and returns; and two Temp9Bit decodes whose fraction bytes differ only in their
low seven bits (same bit 7) write and return the same. -/
theorem temp_9bit_refines_temp_8bit (PAGE_SIZE : Nat) (fw fw2 : acpi_firmware)
    (devdri_data : asus_primeb550plus_hwmon_data)
    (field : asus_primeb550plus_hwmon_data_type_temp_9bit)
    (field8 : asus_primeb550plus_hwmon_data_type_temp_8bit)
    (journal : List acpi_call) (buf : List Char) (raw_int raw_frac raw_frac2 : Nat)
    (hpage : 13 ≤ PAGE_SIZE) (hint : raw_int ≤ 255) (hfrac : raw_frac ≤ 255)
    (hfrac2 : raw_frac2 ≤ 255)
    (hread1 : fw.evaluate journal devdri_data.rhwm_method
      [field.int_bank_no, field.int_index_in_bank] = acpi_result.success raw_int)
    (hread2 : fw.evaluate
      (journal ++ [⟨devdri_data.rhwm_method, [field.int_bank_no, field.int_index_in_bank],
        acpi_result.success raw_int⟩])
      devdri_data.rhwm_method [field.frac_bank_no, field.frac_index_in_bank]
      = acpi_result.success raw_frac)
    (hread8 : fw.evaluate journal devdri_data.rhwm_method
      [field8.bank_no, field8.index_in_bank] = acpi_result.success raw_int)
    (hread1b : fw2.evaluate journal devdri_data.rhwm_method
      [field.int_bank_no, field.int_index_in_bank] = acpi_result.success raw_int)
    (hread2b : fw2.evaluate
      (journal ++ [⟨devdri_data.rhwm_method, [field.int_bank_no, field.int_index_in_bank],
        acpi_result.success raw_int⟩])
      devdri_data.rhwm_method [field.frac_bank_no, field.frac_index_in_bank]
      = acpi_result.success raw_frac2) :
    (raw_frac.testBit 7 = false →
      (asus_primeb550plus_hwmon_sysfs_val_temp_9bit_show PAGE_SIZE fw devdri_data field
          journal buf).buf
        = (asus_primeb550plus_hwmon_sysfs_val_temp_8bit_show PAGE_SIZE fw devdri_data field8
          journal buf).buf ∧
      (asus_primeb550plus_hwmon_sysfs_val_temp_9bit_show PAGE_SIZE fw devdri_data field
          journal buf).ret
        = (asus_primeb550plus_hwmon_sysfs_val_temp_8bit_show PAGE_SIZE fw devdri_data field8
          journal buf).ret) ∧
    (raw_frac2.testBit 7 = raw_frac.testBit 7 →
      (asus_primeb550plus_hwmon_sysfs_val_temp_9bit_show PAGE_SIZE fw devdri_data field
          journal buf).buf
        = (asus_primeb550plus_hwmon_sysfs_val_temp_9bit_show PAGE_SIZE fw2 devdri_data field
          journal buf).buf ∧
      (asus_primeb550plus_hwmon_sysfs_val_temp_9bit_show PAGE_SIZE fw devdri_data field
          journal buf).ret
        = (asus_primeb550plus_hwmon_sysfs_val_temp_9bit_show PAGE_SIZE fw2 devdri_data field
          journal buf).ret) := by
  have h9 := temp_9bit_show_eq PAGE_SIZE fw devdri_data field journal buf raw_int raw_frac
    hpage hint hfrac hread1 hread2
  have h9b := temp_9bit_show_eq PAGE_SIZE fw2 devdri_data field journal buf raw_int raw_frac2
    hpage hint hfrac2 hread1b hread2b
  have h8 := temp_8bit_show_eq PAGE_SIZE fw devdri_data field8 journal buf raw_int
    hpage hint hread8
  constructor
  · intro hclear
    rw [h9.1, h9.2, h8.1, h8.2]
    simp [hclear]
  · intro hsame
    rw [h9.1, h9.2, h9b.1, h9b.2, hsame]
    exact ⟨rfl, rfl⟩

/-- Witness of C23: the integer byte 200 with the fraction byte 0x7f, read through the
descriptors of temp1 and of systin, gives -56000 both ways; the fraction bytes
0x80 and 0xff give the same Temp9Bit text. -/
theorem temp_9bit_refines_temp_8bit_witness :
    (asus_primeb550plus_hwmon_sysfs_val_temp_9bit_show 4096
        (scripted_firmware [acpi_result.success 200, acpi_result.success 0x7f])
        ⟨0, 0, 0, 7⟩ ⟨0, 0x73, 0, 0x74⟩ [] []).buf
      = (asus_primeb550plus_hwmon_sysfs_val_temp_8bit_show 4096
        (scripted_firmware [acpi_result.success 200, acpi_result.success 0x7f])
        ⟨0, 0, 0, 7⟩ ⟨4, 0x90⟩ [] []).buf ∧
    (asus_primeb550plus_hwmon_sysfs_val_temp_9bit_show 4096
        (scripted_firmware [acpi_result.success 200, acpi_result.success 0x80])
        ⟨0, 0, 0, 7⟩ ⟨0, 0x73, 0, 0x74⟩ [] []).buf
      = (asus_primeb550plus_hwmon_sysfs_val_temp_9bit_show 4096
        (scripted_firmware [acpi_result.success 200, acpi_result.success 0xff])
        ⟨0, 0, 0, 7⟩ ⟨0, 0x73, 0, 0x74⟩ [] []).buf :=
  ⟨((temp_9bit_refines_temp_8bit 4096
      (scripted_firmware [acpi_result.success 200, acpi_result.success 0x7f])
      (scripted_firmware [acpi_result.success 200, acpi_result.success 0x7f])
      ⟨0, 0, 0, 7⟩ ⟨0, 0x73, 0, 0x74⟩ ⟨4, 0x90⟩ [] [] 200 0x7f 0x7f
      (by decide) (by decide) (by decide) (by decide) (by decide) (by decide) (by decide)
      (by decide) (by decide)).1 (by decide)).1,
   ((temp_9bit_refines_temp_8bit 4096
      (scripted_firmware [acpi_result.success 200, acpi_result.success 0x80])
      (scripted_firmware [acpi_result.success 200, acpi_result.success 0xff])
      ⟨0, 0, 0, 7⟩ ⟨0, 0x73, 0, 0x74⟩ ⟨4, 0x90⟩ [] [] 200 0x80 0xff
      (by decide) (by decide) (by decide) (by decide) (by decide) (by decide) (by decide)
      (by decide) (by decide)).2 (by decide)).1⟩


/-! ## Register addresses -/

set_option maxRecDepth 100000 in
theorem registry_registers_nodup :
    registry_registers.Nodup ∧ registry_registers.length = 57 ∧
    (0, 0x4f) ∉ registry_registers ∧ (0, 0x58) ∉ registry_registers := by
  decide

theorem registers_mem_registry (i : Nat) (chip_field : asus_primeb550plus_hwmon_chip_field)
    (hi : i < 43)
    (hf : designated_element asus_primeb550plus_hwmon_chip_fields_init i = some chip_field) :
    ∀ p ∈ chip_field.registers, p ∈ registry_registers := by
  intro p hp
  unfold registry_registers
  rw [field_list_max_eq]
  exact List.mem_flatMap.2 ⟨i, List.mem_range.2 hi, by rw [hf]; exact hp⟩


theorem sysfs_val_show_reads_registers (PAGE_SIZE : Nat) (fw : acpi_firmware)
    (beyond : Int → Option asus_primeb550plus_hwmon_chip_field)
    (dev : device) (attr : Option sensor_device_attribute)
    (journal : List acpi_call) (buf : List Char)
    (chip_field : asus_primeb550plus_hwmon_chip_field)
    (hl : asus_primeb550plus_hwmon_chip_field_from_dev_attr beyond attr = some chip_field) :
    ∀ c ∈ (asus_primeb550plus_hwmon_sysfs_val_show PAGE_SIZE fw beyond dev attr
        journal buf).journal.drop journal.length,
      ∃ p ∈ chip_field.registers, c.args = [p.1, p.2] := by
  unfold asus_primeb550plus_hwmon_sysfs_val_show
  rw [hl]
  obtain ⟨data_address, label⟩ := chip_field
  simp only [asus_primeb550plus_hwmon_chip_field.registers]
  cases data_address with
  | UCHAR_MUL field =>
    simp only [asus_primeb550plus_hwmon_sysfs_val_uchar_mul_show]
    rcases read_u8_cases fw dev.driver_data field.bank_no field.index_in_bank journal 0
      with ⟨v, hv, h⟩ | ⟨r, hr, h⟩
    · simp [h]
    · simp [h]
  | TEMP_9BIT field =>
    simp only [asus_primeb550plus_hwmon_sysfs_val_temp_9bit_show]
    rcases read_u8_cases fw dev.driver_data field.int_bank_no field.int_index_in_bank journal 0
      with ⟨v, hv, h⟩ | ⟨r, hr, h⟩
    · rcases read_u8_cases fw dev.driver_data field.frac_bank_no field.frac_index_in_bank
          (journal ++ [⟨dev.driver_data.rhwm_method, [field.int_bank_no, field.int_index_in_bank],
            acpi_result.success v⟩]) 0
        with ⟨w, hw, h2⟩ | ⟨s, hs, h2⟩
      · simp [h, h2]
      · simp [h, h2]
    · simp [h]
  | TEMP_8BIT field =>
    simp only [asus_primeb550plus_hwmon_sysfs_val_temp_8bit_show]
    rcases read_u8_cases fw dev.driver_data field.bank_no field.index_in_bank journal 0
      with ⟨v, hv, h⟩ | ⟨r, hr, h⟩
    · simp [h]
    · simp [h]
  | TEMP_14BIT field =>
    simp only [asus_primeb550plus_hwmon_sysfs_val_temp_14bit_show]
    rcases read_u8_cases fw dev.driver_data field.int_bank_no field.int_idx journal 0
      with ⟨v, hv, h⟩ | ⟨r, hr, h⟩
    · rcases read_u8_cases fw dev.driver_data field.frac_bank_no field.frac_idx
          (journal ++ [⟨dev.driver_data.rhwm_method, [field.int_bank_no, field.int_idx],
            acpi_result.success v⟩]) 0
        with ⟨w, hw, h2⟩ | ⟨s, hs, h2⟩
      · simp [h, h2]
      · simp [h, h2]
    · simp [h]
  | PWM16 field =>
    simp only [asus_primeb550plus_hwmon_sysfs_val_pwm16_show]
    rcases read_u8_cases fw dev.driver_data field.high_bank_no field.high_idx journal 0
      with ⟨v, hv, h⟩ | ⟨r, hr, h⟩
    · rcases read_u8_cases fw dev.driver_data field.low_bank_no field.low_idx
          (journal ++ [⟨dev.driver_data.rhwm_method, [field.high_bank_no, field.high_idx],
            acpi_result.success v⟩]) 0
        with ⟨w, hw, h2⟩ | ⟨s, hs, h2⟩
      · simp [h, h2]
      · simp [h, h2]
    · simp [h]

/-- C24: the registers named by the populated descriptors of the registry (one per
UcharMul or Temp8Bit field, two per Temp9Bit, Temp14Bit or Pwm16 field, 57 in
all) are pairwise distinct, and none of them is one of the chip-identification
probe registers (0, 0x4f) and (0, 0x58).  These are the registers the code
reads: every register read of a value read goes to a register of the
descriptor found, and every read of the chip identification goes to one of
the two probe registers. -/
theorem registry_registers_distinct
    (beyond : Int → Option asus_primeb550plus_hwmon_chip_field) :
    registry_registers.Nodup ∧ registry_registers.length = 57 ∧
    (0, 0x4f) ∉ registry_registers ∧ (0, 0x58) ∉ registry_registers ∧
    (∀ i : Nat, i < ASUS_B550PLUS_HWMON_FIELD_LIST_MAX →
      ∀ chip_field, asus_primeb550plus_hwmon_chip_fields beyond i = some chip_field →
        ∀ p ∈ chip_field.registers, p ∈ registry_registers) ∧
    (∀ (PAGE_SIZE : Nat) (fw : acpi_firmware) (dev : device)
        (attr : Option sensor_device_attribute) (journal : List acpi_call) (buf : List Char)
        (chip_field : asus_primeb550plus_hwmon_chip_field),
      asus_primeb550plus_hwmon_chip_field_from_dev_attr beyond attr = some chip_field →
      ∀ c ∈ (asus_primeb550plus_hwmon_sysfs_val_show PAGE_SIZE fw beyond dev attr
          journal buf).journal.drop journal.length,
        ∃ p ∈ chip_field.registers, c.args = [p.1, p.2]) ∧
    (∀ (fw : acpi_firmware) (devdri_data : asus_primeb550plus_hwmon_data)
        (journal : List acpi_call),
      ∀ c ∈ (asus_primeb550plus_hwmon_check_chip fw devdri_data journal).2.drop journal.length,
        c.args = [0, 0x4f] ∨ c.args = [0, 0x58]) := by
  refine ⟨registry_registers_nodup.1, registry_registers_nodup.2.1,
    registry_registers_nodup.2.2.1, registry_registers_nodup.2.2.2, ?_, ?_, ?_⟩
  · intro i hi chip_field hf
    rw [field_list_max_eq] at hi
    rw [chip_fields_in_range beyond i hi] at hf
    exact registers_mem_registry i chip_field hi hf
  · intro PAGE_SIZE fw dev attr journal buf chip_field hl
    exact sysfs_val_show_reads_registers PAGE_SIZE fw beyond dev attr journal buf chip_field hl
  · intro fw devdri_data journal c hc
    rcases check_chip_cases fw devdri_data journal with ⟨_, _, h⟩ | ⟨_, _, calls, hj, ha⟩
    · rw [h] at hc
      simp at hc
      rcases hc with rfl | rfl <;> simp
    · rw [hj, List.drop_left] at hc
      have hm : c.args ∈ calls.map (fun c => c.args) := List.mem_map_of_mem _ hc
      rcases ha with ha | ha <;> rw [ha] at hm <;> simp at hm <;> simp [hm]

/-! ## The line written by a successful value read -/

theorem uchar_mul_show_eq (PAGE_SIZE : Nat) (fw : acpi_firmware)
    (devdri_data : asus_primeb550plus_hwmon_data)
    (field : asus_primeb550plus_hwmon_data_type_uchar_mul)
    (journal : List acpi_call) (buf : List Char) (raw : Nat)
    (hpage : 13 ≤ PAGE_SIZE) (hraw : raw ≤ 255)
    (hread : fw.evaluate journal devdri_data.rhwm_method [field.bank_no, field.index_in_bank]
      = acpi_result.success raw) :
    (asus_primeb550plus_hwmon_sysfs_val_uchar_mul_show PAGE_SIZE fw devdri_data field
        journal buf).buf
      = decimal (((raw : Int) * field.multiplier) % 4294967296) ++ [newline] ∧
    (asus_primeb550plus_hwmon_sysfs_val_uchar_mul_show PAGE_SIZE fw devdri_data field
        journal buf).ret
      = (((decimal (((raw : Int) * field.multiplier) % 4294967296)
        ++ [newline]).length : Nat) : Int) := by
  rw [uchar_mul_show_ok PAGE_SIZE fw devdri_data field journal buf raw hpage hraw hread]
  rw [format_u_to_int]
  exact ⟨rfl, rfl⟩

theorem temp_14bit_show_eq (PAGE_SIZE : Nat) (fw : acpi_firmware)
    (devdri_data : asus_primeb550plus_hwmon_data)
    (field : asus_primeb550plus_hwmon_data_type_temp_14bit)
    (journal : List acpi_call) (buf : List Char) (raw_int raw_frac : Nat)
    (hpage : 13 ≤ PAGE_SIZE) (hint : raw_int ≤ 255) (hfrac : raw_frac ≤ 255)
    (hread1 : fw.evaluate journal devdri_data.rhwm_method
      [field.int_bank_no, field.int_idx] = acpi_result.success raw_int)
    (hread2 : fw.evaluate
      (journal ++ [⟨devdri_data.rhwm_method, [field.int_bank_no, field.int_idx],
        acpi_result.success raw_int⟩])
      devdri_data.rhwm_method [field.frac_bank_no, field.frac_idx]
      = acpi_result.success raw_frac) :
    (asus_primeb550plus_hwmon_sysfs_val_temp_14bit_show PAGE_SIZE fw devdri_data field
        journal buf).buf
      = decimal ((raw_int * 1000 + raw_frac / 4 : Nat) : Int) ++ [newline] ∧
    (asus_primeb550plus_hwmon_sysfs_val_temp_14bit_show PAGE_SIZE fw devdri_data field
        journal buf).ret
      = (((decimal ((raw_int * 1000 + raw_frac / 4 : Nat) : Int)
        ++ [newline]).length : Nat) : Int) := by
  rw [temp_14bit_show_ok PAGE_SIZE fw devdri_data field journal buf raw_int raw_frac hpage
    hint hfrac hread1 hread2]
  simp only [Nat.shiftRight_eq_div_pow]
  have hq : raw_frac / 4 ≤ 63 := by omega
  have key : ∀ x : Int, x = ((raw_int * 1000 + raw_frac / 4 : Nat) : Int) →
      format_i (to_int x) = decimal ((raw_int * 1000 + raw_frac / 4 : Nat) : Int) := by
    intro x hx
    rw [hx, format_i_to_int _ (by omega) (by omega)]
  rw [key _ (by omega)]
  exact ⟨rfl, rfl⟩

theorem pwm16_show_eq (PAGE_SIZE : Nat) (fw : acpi_firmware)
    (devdri_data : asus_primeb550plus_hwmon_data)
    (field : asus_primeb550plus_hwmon_data_type_pwm16)
    (journal : List acpi_call) (buf : List Char) (raw_high raw_low : Nat)
    (hpage : 13 ≤ PAGE_SIZE) (hhigh : raw_high ≤ 255) (hlow : raw_low ≤ 255)
    (hread1 : fw.evaluate journal devdri_data.rhwm_method
      [field.high_bank_no, field.high_idx] = acpi_result.success raw_high)
    (hread2 : fw.evaluate
      (journal ++ [⟨devdri_data.rhwm_method, [field.high_bank_no, field.high_idx],
        acpi_result.success raw_high⟩])
      devdri_data.rhwm_method [field.low_bank_no, field.low_idx]
      = acpi_result.success raw_low) :
    (asus_primeb550plus_hwmon_sysfs_val_pwm16_show PAGE_SIZE fw devdri_data field
        journal buf).buf
      = decimal ((256 * raw_high + raw_low : Nat) : Int) ++ [newline] ∧
    (asus_primeb550plus_hwmon_sysfs_val_pwm16_show PAGE_SIZE fw devdri_data field
        journal buf).ret
      = (((decimal ((256 * raw_high + raw_low : Nat) : Int)
        ++ [newline]).length : Nat) : Int) := by
  rw [pwm16_show_ok PAGE_SIZE fw devdri_data field journal buf raw_high raw_low hpage
    hhigh hlow hread1 hread2]
  rw [format_u_to_int]
  have hsh : raw_high <<< 8 = 256 * raw_high := by rw [Nat.shiftLeft_eq]; omega
  have hv : ((((raw_high <<< 8 : Nat) : Int) + (raw_low : Int)) % 4294967296)
      = ((256 * raw_high + raw_low : Nat) : Int) := by
    rw [hsh]; omega
  rw [hv]
  exact ⟨rfl, rfl⟩

theorem decimal_sign (v : Int) :
    (v < 0 → decimal v = '-' :: Nat.toDigits 10 v.natAbs) ∧
    (0 ≤ v → decimal v = Nat.toDigits 10 v.toNat) := by
  unfold decimal
  constructor
  · intro h; simp [h]
  · intro h; simp [not_lt.2 h]


theorem sysfs_val_show_reads_of_nonneg (PAGE_SIZE : Nat) (fw : acpi_firmware)
    (beyond : Int → Option asus_primeb550plus_hwmon_chip_field)
    (dev : device) (attr : Option sensor_device_attribute)
    (journal : List acpi_call) (buf : List Char)
    (hok : 0 ≤ (asus_primeb550plus_hwmon_sysfs_val_show PAGE_SIZE fw beyond dev attr
      journal buf).ret) :
    ∃ chip_field,
      asus_primeb550plus_hwmon_chip_field_from_dev_attr beyond attr = some chip_field ∧
      ((∃ (field : asus_primeb550plus_hwmon_data_type_uchar_mul) (raw : Nat),
            chip_field.data_address = asus_primeb550plus_hwmon_data_address.UCHAR_MUL field ∧
            raw ≤ 255 ∧
            fw.evaluate journal dev.driver_data.rhwm_method
              [field.bank_no, field.index_in_bank] = acpi_result.success raw) ∨
        (∃ (field : asus_primeb550plus_hwmon_data_type_temp_9bit) (raw1 raw2 : Nat),
            chip_field.data_address = asus_primeb550plus_hwmon_data_address.TEMP_9BIT field ∧
            raw1 ≤ 255 ∧ raw2 ≤ 255 ∧
            fw.evaluate journal dev.driver_data.rhwm_method
              [field.int_bank_no, field.int_index_in_bank] = acpi_result.success raw1 ∧
            fw.evaluate
                (journal ++ [⟨dev.driver_data.rhwm_method, [field.int_bank_no, field.int_index_in_bank],
                  acpi_result.success raw1⟩])
                dev.driver_data.rhwm_method [field.frac_bank_no, field.frac_index_in_bank]
              = acpi_result.success raw2) ∨
        (∃ (field : asus_primeb550plus_hwmon_data_type_temp_8bit) (raw : Nat),
            chip_field.data_address = asus_primeb550plus_hwmon_data_address.TEMP_8BIT field ∧
            raw ≤ 255 ∧
            fw.evaluate journal dev.driver_data.rhwm_method
              [field.bank_no, field.index_in_bank] = acpi_result.success raw) ∨
        (∃ (field : asus_primeb550plus_hwmon_data_type_temp_14bit) (raw1 raw2 : Nat),
            chip_field.data_address = asus_primeb550plus_hwmon_data_address.TEMP_14BIT field ∧
            raw1 ≤ 255 ∧ raw2 ≤ 255 ∧
            fw.evaluate journal dev.driver_data.rhwm_method
              [field.int_bank_no, field.int_idx] = acpi_result.success raw1 ∧
            fw.evaluate
                (journal ++ [⟨dev.driver_data.rhwm_method, [field.int_bank_no, field.int_idx],
                  acpi_result.success raw1⟩])
                dev.driver_data.rhwm_method [field.frac_bank_no, field.frac_idx]
              = acpi_result.success raw2) ∨
        (∃ (field : asus_primeb550plus_hwmon_data_type_pwm16) (raw1 raw2 : Nat),
            chip_field.data_address = asus_primeb550plus_hwmon_data_address.PWM16 field ∧
            raw1 ≤ 255 ∧ raw2 ≤ 255 ∧
            fw.evaluate journal dev.driver_data.rhwm_method
              [field.high_bank_no, field.high_idx] = acpi_result.success raw1 ∧
            fw.evaluate
                (journal ++ [⟨dev.driver_data.rhwm_method, [field.high_bank_no, field.high_idx],
                  acpi_result.success raw1⟩])
                dev.driver_data.rhwm_method [field.low_bank_no, field.low_idx]
              = acpi_result.success raw2)) := by
  unfold asus_primeb550plus_hwmon_sysfs_val_show at hok
  revert hok
  cases hl : asus_primeb550plus_hwmon_chip_field_from_dev_attr beyond attr with
  | none => intro hok; simp at hok
  | some chip_field =>
    obtain ⟨data_address, label⟩ := chip_field
    simp only []
    cases data_address with
    | UCHAR_MUL field =>
      intro hok
      simp only [asus_primeb550plus_hwmon_sysfs_val_uchar_mul_show] at hok
      rcases read_u8_eval_cases fw dev.driver_data field.bank_no field.index_in_bank journal 0
        with ⟨v, hv, e, h⟩ | ⟨r, hr, e, h⟩
      · exact ⟨_, rfl, Or.inl (⟨field, v, rfl, hv, e⟩)⟩
      · simp [h] at hok
    | TEMP_9BIT field =>
      intro hok
      simp only [asus_primeb550plus_hwmon_sysfs_val_temp_9bit_show] at hok
      rcases read_u8_eval_cases fw dev.driver_data field.int_bank_no field.int_index_in_bank journal 0
        with ⟨v, hv, e, h⟩ | ⟨r, hr, e, h⟩
      · rcases read_u8_eval_cases fw dev.driver_data field.frac_bank_no field.frac_index_in_bank
            (journal ++ [⟨dev.driver_data.rhwm_method, [field.int_bank_no, field.int_index_in_bank],
              acpi_result.success v⟩]) 0
          with ⟨w, hw, e2, h2⟩ | ⟨s, hs, e2, h2⟩
        · exact ⟨_, rfl, Or.inr (Or.inl (⟨field, v, w, rfl, hv, hw, e, e2⟩))⟩
        · simp [h, h2] at hok
      · simp [h] at hok
    | TEMP_8BIT field =>
      intro hok
      simp only [asus_primeb550plus_hwmon_sysfs_val_temp_8bit_show] at hok
      rcases read_u8_eval_cases fw dev.driver_data field.bank_no field.index_in_bank journal 0
        with ⟨v, hv, e, h⟩ | ⟨r, hr, e, h⟩
      · exact ⟨_, rfl, Or.inr (Or.inr (Or.inl (⟨field, v, rfl, hv, e⟩)))⟩
      · simp [h] at hok
    | TEMP_14BIT field =>
      intro hok
      simp only [asus_primeb550plus_hwmon_sysfs_val_temp_14bit_show] at hok
      rcases read_u8_eval_cases fw dev.driver_data field.int_bank_no field.int_idx journal 0
        with ⟨v, hv, e, h⟩ | ⟨r, hr, e, h⟩
      · rcases read_u8_eval_cases fw dev.driver_data field.frac_bank_no field.frac_idx
            (journal ++ [⟨dev.driver_data.rhwm_method, [field.int_bank_no, field.int_idx],
              acpi_result.success v⟩]) 0
          with ⟨w, hw, e2, h2⟩ | ⟨s, hs, e2, h2⟩
        · exact ⟨_, rfl, Or.inr (Or.inr (Or.inr (Or.inl (⟨field, v, w, rfl, hv, hw, e, e2⟩))))⟩
        · simp [h, h2] at hok
      · simp [h] at hok
    | PWM16 field =>
      intro hok
      simp only [asus_primeb550plus_hwmon_sysfs_val_pwm16_show] at hok
      rcases read_u8_eval_cases fw dev.driver_data field.high_bank_no field.high_idx journal 0
        with ⟨v, hv, e, h⟩ | ⟨r, hr, e, h⟩
      · rcases read_u8_eval_cases fw dev.driver_data field.low_bank_no field.low_idx
            (journal ++ [⟨dev.driver_data.rhwm_method, [field.high_bank_no, field.high_idx],
              acpi_result.success v⟩]) 0
          with ⟨w, hw, e2, h2⟩ | ⟨s, hs, e2, h2⟩
        · exact ⟨_, rfl, Or.inr (Or.inr (Or.inr (Or.inr (⟨field, v, w, rfl, hv, hw, e, e2⟩))))⟩
        · simp [h, h2] at hok
      · simp [h] at hok

/-- C20: with a page of at least 13 bytes, every value read whose register reads all
succeed writes exactly one line and returns its length: the text is the decimal
rendering of the decoded value of the kind of the descriptor found, then a
single newline and nothing else, and the return value is the number of
characters of the rendering plus one.  The decoded value is
(raw * multiplier) mod 2^32 for UcharMul and 256 * high + low for Pwm16 (both
unsigned, digits only), and s * 1000 + c, s * 1000 and
raw_int * 1000 + raw_frac / 4 for Temp9Bit, Temp8Bit and Temp14Bit, rendered
signed: a minus sign followed by the digits of the absolute value when the
value is negative, the digits alone otherwise.  A value read returns a
non-negative value only in these cases: a descriptor was found and every read
of its kind returned a byte. -/
theorem sysfs_val_show_one_line (PAGE_SIZE : Nat) (fw : acpi_firmware)
    (beyond : Int → Option asus_primeb550plus_hwmon_chip_field)
    (dev : device) (attr : Option sensor_device_attribute)
    (journal : List acpi_call) (buf : List Char) (r : show_result)
    (hpage : 13 ≤ PAGE_SIZE)
    (hr : r = asus_primeb550plus_hwmon_sysfs_val_show PAGE_SIZE fw beyond dev attr
      journal buf) :
    (∀ (field : asus_primeb550plus_hwmon_data_type_uchar_mul) (label : List Char) (raw : Nat),
      asus_primeb550plus_hwmon_chip_field_from_dev_attr beyond attr
        = some ⟨asus_primeb550plus_hwmon_data_address.UCHAR_MUL field, label⟩ →
      raw ≤ 255 →
      fw.evaluate journal dev.driver_data.rhwm_method [field.bank_no, field.index_in_bank]
        = acpi_result.success raw →
      r.buf = decimal (((raw : Int) * field.multiplier) % 4294967296) ++ [newline] ∧
        r.ret = ((decimal (((raw : Int) * field.multiplier) % 4294967296)).length : Int) + 1 ∧
        0 ≤ ((raw : Int) * field.multiplier) % 4294967296 ∧
        ((raw : Int) * field.multiplier) % 4294967296 < 4294967296) ∧
    (∀ (field : asus_primeb550plus_hwmon_data_type_temp_9bit) (label : List Char)
        (raw1 raw2 : Nat),
      asus_primeb550plus_hwmon_chip_field_from_dev_attr beyond attr
        = some ⟨asus_primeb550plus_hwmon_data_address.TEMP_9BIT field, label⟩ →
      raw1 ≤ 255 → raw2 ≤ 255 →
      fw.evaluate journal dev.driver_data.rhwm_method [field.int_bank_no, field.int_index_in_bank]
        = acpi_result.success raw1 →
      fw.evaluate
          (journal ++ [⟨dev.driver_data.rhwm_method, [field.int_bank_no, field.int_index_in_bank],
            acpi_result.success raw1⟩])
          dev.driver_data.rhwm_method [field.frac_bank_no, field.frac_index_in_bank]
        = acpi_result.success raw2 →
      r.buf = decimal ((if raw1 < 128 then (raw1 : Int) else (raw1 : Int) - 256) * 1000
            + (if raw2.testBit 7 = true then (if raw1 < 128 then 500 else -500) else 0)) ++ [newline] ∧
        r.ret = ((decimal ((if raw1 < 128 then (raw1 : Int) else (raw1 : Int) - 256) * 1000
            + (if raw2.testBit 7 = true then (if raw1 < 128 then 500 else -500) else 0))).length : Int) + 1) ∧
    (∀ (field : asus_primeb550plus_hwmon_data_type_temp_8bit) (label : List Char) (raw : Nat),
      asus_primeb550plus_hwmon_chip_field_from_dev_attr beyond attr
        = some ⟨asus_primeb550plus_hwmon_data_address.TEMP_8BIT field, label⟩ →
      raw ≤ 255 →
      fw.evaluate journal dev.driver_data.rhwm_method [field.bank_no, field.index_in_bank]
        = acpi_result.success raw →
      r.buf = decimal ((if raw < 128 then (raw : Int) else (raw : Int) - 256) * 1000) ++ [newline] ∧
        r.ret = ((decimal ((if raw < 128 then (raw : Int) else (raw : Int) - 256) * 1000)).length : Int) + 1) ∧
    (∀ (field : asus_primeb550plus_hwmon_data_type_temp_14bit) (label : List Char)
        (raw1 raw2 : Nat),
      asus_primeb550plus_hwmon_chip_field_from_dev_attr beyond attr
        = some ⟨asus_primeb550plus_hwmon_data_address.TEMP_14BIT field, label⟩ →
      raw1 ≤ 255 → raw2 ≤ 255 →
      fw.evaluate journal dev.driver_data.rhwm_method [field.int_bank_no, field.int_idx]
        = acpi_result.success raw1 →
      fw.evaluate
          (journal ++ [⟨dev.driver_data.rhwm_method, [field.int_bank_no, field.int_idx],
            acpi_result.success raw1⟩])
          dev.driver_data.rhwm_method [field.frac_bank_no, field.frac_idx]
        = acpi_result.success raw2 →
      r.buf = decimal ((raw1 * 1000 + raw2 / 4 : Nat) : Int) ++ [newline] ∧
        r.ret = ((decimal ((raw1 * 1000 + raw2 / 4 : Nat) : Int)).length : Int) + 1) ∧
    (∀ (field : asus_primeb550plus_hwmon_data_type_pwm16) (label : List Char)
        (raw1 raw2 : Nat),
      asus_primeb550plus_hwmon_chip_field_from_dev_attr beyond attr
        = some ⟨asus_primeb550plus_hwmon_data_address.PWM16 field, label⟩ →
      raw1 ≤ 255 → raw2 ≤ 255 →
      fw.evaluate journal dev.driver_data.rhwm_method [field.high_bank_no, field.high_idx]
        = acpi_result.success raw1 →
      fw.evaluate
          (journal ++ [⟨dev.driver_data.rhwm_method, [field.high_bank_no, field.high_idx],
            acpi_result.success raw1⟩])
          dev.driver_data.rhwm_method [field.low_bank_no, field.low_idx]
        = acpi_result.success raw2 →
      r.buf = decimal ((256 * raw1 + raw2 : Nat) : Int) ++ [newline] ∧
        r.ret = ((decimal ((256 * raw1 + raw2 : Nat) : Int)).length : Int) + 1) ∧
    (∀ v : Int, newline ∉ decimal v ∧
      (v < 0 → decimal v = '-' :: Nat.toDigits 10 v.natAbs) ∧
      (0 ≤ v → decimal v = Nat.toDigits 10 v.toNat)) ∧
    (∀ (n : Nat) (c : Char), c ∈ Nat.toDigits 10 n → c.isDigit = true) ∧
    (0 ≤ r.ret →
      ∃ chip_field,
        asus_primeb550plus_hwmon_chip_field_from_dev_attr beyond attr = some chip_field ∧
        ((∃ (field : asus_primeb550plus_hwmon_data_type_uchar_mul) (raw : Nat),
              chip_field.data_address = asus_primeb550plus_hwmon_data_address.UCHAR_MUL field ∧
              raw ≤ 255 ∧
              fw.evaluate journal dev.driver_data.rhwm_method
                [field.bank_no, field.index_in_bank] = acpi_result.success raw) ∨
        (∃ (field : asus_primeb550plus_hwmon_data_type_temp_9bit) (raw1 raw2 : Nat),
              chip_field.data_address = asus_primeb550plus_hwmon_data_address.TEMP_9BIT field ∧
              raw1 ≤ 255 ∧ raw2 ≤ 255 ∧
              fw.evaluate journal dev.driver_data.rhwm_method
                [field.int_bank_no, field.int_index_in_bank] = acpi_result.success raw1 ∧
              fw.evaluate
                  (journal ++ [⟨dev.driver_data.rhwm_method, [field.int_bank_no, field.int_index_in_bank],
                    acpi_result.success raw1⟩])
                  dev.driver_data.rhwm_method [field.frac_bank_no, field.frac_index_in_bank]
                = acpi_result.success raw2) ∨
        (∃ (field : asus_primeb550plus_hwmon_data_type_temp_8bit) (raw : Nat),
              chip_field.data_address = asus_primeb550plus_hwmon_data_address.TEMP_8BIT field ∧
              raw ≤ 255 ∧
              fw.evaluate journal dev.driver_data.rhwm_method
                [field.bank_no, field.index_in_bank] = acpi_result.success raw) ∨
        (∃ (field : asus_primeb550plus_hwmon_data_type_temp_14bit) (raw1 raw2 : Nat),
              chip_field.data_address = asus_primeb550plus_hwmon_data_address.TEMP_14BIT field ∧
              raw1 ≤ 255 ∧ raw2 ≤ 255 ∧
              fw.evaluate journal dev.driver_data.rhwm_method
                [field.int_bank_no, field.int_idx] = acpi_result.success raw1 ∧
              fw.evaluate
                  (journal ++ [⟨dev.driver_data.rhwm_method, [field.int_bank_no, field.int_idx],
                    acpi_result.success raw1⟩])
                  dev.driver_data.rhwm_method [field.frac_bank_no, field.frac_idx]
                = acpi_result.success raw2) ∨
        (∃ (field : asus_primeb550plus_hwmon_data_type_pwm16) (raw1 raw2 : Nat),
              chip_field.data_address = asus_primeb550plus_hwmon_data_address.PWM16 field ∧
              raw1 ≤ 255 ∧ raw2 ≤ 255 ∧
              fw.evaluate journal dev.driver_data.rhwm_method
                [field.high_bank_no, field.high_idx] = acpi_result.success raw1 ∧
              fw.evaluate
                  (journal ++ [⟨dev.driver_data.rhwm_method, [field.high_bank_no, field.high_idx],
                    acpi_result.success raw1⟩])
                  dev.driver_data.rhwm_method [field.low_bank_no, field.low_idx]
                = acpi_result.success raw2))) ∧
    (0 ≤ r.ret →
      ∃ chip_field value,
        asus_primeb550plus_hwmon_chip_field_from_dev_attr beyond attr = some chip_field ∧
        r.buf = decimal value ++ [newline] ∧
        newline ∉ decimal value ∧
        r.ret = ((decimal value).length : Int) + 1 ∧
        r.ret = ((r.buf.length : Nat) : Int) ∧
        ((chip_field.data_type = asus_primeb550plus_hwmon_data_type.UCHAR_MUL ∨
            chip_field.data_type = asus_primeb550plus_hwmon_data_type.PWM16) →
          0 ≤ value ∧ value < 4294967296) ∧
        (-2147483648 ≤ value ∧ value < 4294967296)) := by
  subst hr
  refine ⟨?_, ?_, ?_, ?_, ?_, ?_, ?_, ?_, ?_⟩
  · intro field label raw hl hraw hread
    have hd : asus_primeb550plus_hwmon_sysfs_val_show PAGE_SIZE fw beyond dev attr journal buf
        = asus_primeb550plus_hwmon_sysfs_val_uchar_mul_show PAGE_SIZE fw dev.driver_data field
          journal buf := by
      simp [asus_primeb550plus_hwmon_sysfs_val_show, hl]
    obtain ⟨hb, hrt⟩ := uchar_mul_show_eq PAGE_SIZE fw dev.driver_data field journal buf raw
      hpage hraw hread
    rw [hd]
    refine ⟨hb, ?_, by omega, by omega⟩
    rw [hrt]
    simp
  · intro field label raw1 raw2 hl hraw1 hraw2 hread1 hread2
    have hd : asus_primeb550plus_hwmon_sysfs_val_show PAGE_SIZE fw beyond dev attr journal buf
        = asus_primeb550plus_hwmon_sysfs_val_temp_9bit_show PAGE_SIZE fw dev.driver_data field
          journal buf := by
      simp [asus_primeb550plus_hwmon_sysfs_val_show, hl]
    obtain ⟨hb, hrt⟩ := temp_9bit_show_eq PAGE_SIZE fw dev.driver_data field journal buf
      raw1 raw2 hpage hraw1 hraw2 hread1 hread2
    rw [hd]
    refine ⟨hb, ?_⟩
    rw [hrt]
    simp
  · intro field label raw hl hraw hread
    have hd : asus_primeb550plus_hwmon_sysfs_val_show PAGE_SIZE fw beyond dev attr journal buf
        = asus_primeb550plus_hwmon_sysfs_val_temp_8bit_show PAGE_SIZE fw dev.driver_data field
          journal buf := by
      simp [asus_primeb550plus_hwmon_sysfs_val_show, hl]
    obtain ⟨hb, hrt⟩ := temp_8bit_show_eq PAGE_SIZE fw dev.driver_data field journal buf raw
      hpage hraw hread
    rw [hd]
    refine ⟨hb, ?_⟩
    rw [hrt]
    simp
  · intro field label raw1 raw2 hl hraw1 hraw2 hread1 hread2
    have hd : asus_primeb550plus_hwmon_sysfs_val_show PAGE_SIZE fw beyond dev attr journal buf
        = asus_primeb550plus_hwmon_sysfs_val_temp_14bit_show PAGE_SIZE fw dev.driver_data field
          journal buf := by
      simp [asus_primeb550plus_hwmon_sysfs_val_show, hl]
    obtain ⟨hb, hrt⟩ := temp_14bit_show_eq PAGE_SIZE fw dev.driver_data field journal buf
      raw1 raw2 hpage hraw1 hraw2 hread1 hread2
    rw [hd]
    refine ⟨hb, ?_⟩
    rw [hrt]
    simp
  · intro field label raw1 raw2 hl hraw1 hraw2 hread1 hread2
    have hd : asus_primeb550plus_hwmon_sysfs_val_show PAGE_SIZE fw beyond dev attr journal buf
        = asus_primeb550plus_hwmon_sysfs_val_pwm16_show PAGE_SIZE fw dev.driver_data field
          journal buf := by
      simp [asus_primeb550plus_hwmon_sysfs_val_show, hl]
    obtain ⟨hb, hrt⟩ := pwm16_show_eq PAGE_SIZE fw dev.driver_data field journal buf
      raw1 raw2 hpage hraw1 hraw2 hread1 hread2
    rw [hd]
    refine ⟨hb, ?_⟩
    rw [hrt]
    simp
  · intro v
    exact ⟨newline_not_mem_decimal v, (decimal_sign v).1, (decimal_sign v).2⟩
  · intro n c hc
    exact toDigits_isDigit n c hc
  · intro hok
    exact sysfs_val_show_reads_of_nonneg PAGE_SIZE fw beyond dev attr journal buf hok
  · intro hok
    exact sysfs_val_show_line_of_nonneg PAGE_SIZE fw beyond dev attr journal buf hpage hok

/-- Witness of C20: the read of temp1_input with the bytes 246 and 0x80 writes the line -10500
and returns 7, the six characters of the rendering plus the newline. -/
theorem sysfs_val_show_one_line_witness :
    (asus_primeb550plus_hwmon_sysfs_val_show 4096
        (scripted_firmware [acpi_result.success 246, acpi_result.success 0x80])
        (fun _ => none) ⟨⟨0, 0, 0, 7⟩⟩
        (some ⟨"temp1_input", .asus_primeb550plus_hwmon_sysfs_val_show, 16⟩) [] []).buf
      = "-10500".toList ++ [newline] ∧
    (asus_primeb550plus_hwmon_sysfs_val_show 4096
        (scripted_firmware [acpi_result.success 246, acpi_result.success 0x80])
        (fun _ => none) ⟨⟨0, 0, 0, 7⟩⟩
        (some ⟨"temp1_input", .asus_primeb550plus_hwmon_sysfs_val_show, 16⟩) [] []).ret
      = 7 := by
  obtain ⟨hb, hrt⟩ := (sysfs_val_show_one_line 4096
    (scripted_firmware [acpi_result.success 246, acpi_result.success 0x80])
    (fun _ => none) ⟨⟨0, 0, 0, 7⟩⟩
    (some ⟨"temp1_input", .asus_primeb550plus_hwmon_sysfs_val_show, 16⟩) [] [] _
    (by decide) rfl).2.1 ⟨0, 0x73, 0, 0x74⟩ ("temp1".toList ++ [newline]) 246 0x80
    (by decide) (by decide) (by decide) (by decide) (by decide)
  exact ⟨hb.trans (by decide), hrt.trans (by decide)⟩

end AsusHwmon
